import Mathlib

/-!
# SSAO example and homework 1

A shallow embedding of `examples/ssao/ssao.cpp` and, in the namespace `Homework1`, of the
parts of `homework/homework1/homework1.cpp` that decide which pipeline is bound and how
the descriptor pool is sized.  Recording a command buffer is modelled as the list of calls
made on `drawCmdBuffers[i]`, in program order; descriptor and pipeline setup are modelled
as the data handed to the Vulkan API; the parameter blocks, the overlay callback and the
destructor are state-passing functions.

Handles are symbolic: every `VkImage` / `VkImageView` is named after the object of
the example that owns it.  Flag bits carry the values of the Vulkan headers.
Calls into code outside the files (`scene.draw`, `drawUI`, the shader loader, the UI
overlay, the random engine, `glm::normalize`) are single events or parameters, and so is
the order in which a build evaluates the arguments of one constructor call.  `float`
values are elements of a field with exact arithmetic.
-/

namespace SSAO

/-! ## Vulkan enumerations and flag bits -/

inductive VkImageLayout
  | VK_IMAGE_LAYOUT_UNDEFINED
  | VK_IMAGE_LAYOUT_COLOR_ATTACHMENT_OPTIMAL
  | VK_IMAGE_LAYOUT_DEPTH_STENCIL_ATTACHMENT_OPTIMAL
  | VK_IMAGE_LAYOUT_SHADER_READ_ONLY_OPTIMAL
  | VK_IMAGE_LAYOUT_PRESENT_SRC_KHR
  deriving DecidableEq, Repr

inductive VkAttachmentLoadOp
  | VK_ATTACHMENT_LOAD_OP_LOAD
  | VK_ATTACHMENT_LOAD_OP_CLEAR
  | VK_ATTACHMENT_LOAD_OP_DONT_CARE
  deriving DecidableEq, Repr

inductive VkAttachmentStoreOp
  | VK_ATTACHMENT_STORE_OP_STORE
  | VK_ATTACHMENT_STORE_OP_DONT_CARE
  deriving DecidableEq, Repr

inductive VkDescriptorType
  | VK_DESCRIPTOR_TYPE_COMBINED_IMAGE_SAMPLER
  | VK_DESCRIPTOR_TYPE_UNIFORM_BUFFER
  deriving DecidableEq, Repr

open VkImageLayout VkAttachmentLoadOp VkAttachmentStoreOp VkDescriptorType

abbrev VkAccessFlags := Nat
abbrev VkPipelineStageFlags := Nat
abbrev VkImageAspectFlags := Nat
abbrev VkShaderStageFlags := Nat

def VK_ACCESS_SHADER_READ_BIT : VkAccessFlags := 0x00000020
def VK_ACCESS_COLOR_ATTACHMENT_WRITE_BIT : VkAccessFlags := 0x00000100
def VK_ACCESS_DEPTH_STENCIL_ATTACHMENT_WRITE_BIT : VkAccessFlags := 0x00000400

def VK_PIPELINE_STAGE_TOP_OF_PIPE_BIT : VkPipelineStageFlags := 0x00000001
def VK_PIPELINE_STAGE_FRAGMENT_SHADER_BIT : VkPipelineStageFlags := 0x00000080
def VK_PIPELINE_STAGE_EARLY_FRAGMENT_TESTS_BIT : VkPipelineStageFlags := 0x00000100
def VK_PIPELINE_STAGE_LATE_FRAGMENT_TESTS_BIT : VkPipelineStageFlags := 0x00000200
def VK_PIPELINE_STAGE_COLOR_ATTACHMENT_OUTPUT_BIT : VkPipelineStageFlags := 0x00000400
def VK_PIPELINE_STAGE_BOTTOM_OF_PIPE_BIT : VkPipelineStageFlags := 0x00002000

def VK_IMAGE_ASPECT_COLOR_BIT : VkImageAspectFlags := 0x00000001
def VK_IMAGE_ASPECT_DEPTH_BIT : VkImageAspectFlags := 0x00000002
def VK_IMAGE_ASPECT_STENCIL_BIT : VkImageAspectFlags := 0x00000004

def VK_SHADER_STAGE_VERTEX_BIT : VkShaderStageFlags := 0x00000001
def VK_SHADER_STAGE_FRAGMENT_BIT : VkShaderStageFlags := 0x00000010

/-! ## Handles -/

/-- The image-owning objects the example refers to: the depth/stencil target and the
swapchain buffers of the base class, and the five `attachments.*` members. -/
inductive Target
  | depthStencil
  | offscreenPosition
  | offscreenNormal
  | offscreenAlbedo
  | ssaoColor
  | ssaoBlurColor
  | swapChainBuffer (i : Nat)
  deriving DecidableEq, Repr

/-- The handle `t.image`. -/
structure VkImage where
  target : Target
  deriving DecidableEq, Repr

/-- The handle `t.view`. -/
structure VkImageView where
  target : Target
  deriving DecidableEq, Repr

/-- The image a view was created for (`imageView.image = attachment->image` in
`createAttachment`; the base class does the same for its own targets). -/
def VkImageView.image (v : VkImageView) : VkImage := ⟨v.target⟩

/-- Members of `pipelines`. -/
inductive Pipeline
  | offscreen | composition | ssao | ssaoBlur
  deriving DecidableEq, Repr

/-- Members of `pipelineLayouts`. -/
inductive PipelineLayout
  | gBuffer | ssao | ssaoBlur | composition
  deriving DecidableEq, Repr

/-- Members of `descriptorSets`. -/
inductive DescriptorSet
  | model | floor | ssao | ssaoBlur | composition
  deriving DecidableEq, Repr

/-- Members of `descriptorSetLayouts`. -/
inductive DescriptorSetLayout
  | gBuffer | ssao | ssaoBlur | composition
  deriving DecidableEq, Repr

/-- Members of `uniformBuffers`. -/
inductive UniformBuffer
  | sceneParams | ssaoKernel | ssaoParams
  deriving DecidableEq, Repr

/-! ## Structures passed to the API -/

structure VkImageSubresourceRange where
  aspectMask : VkImageAspectFlags
  baseMipLevel : Nat
  levelCount : Nat
  baseArrayLayer : Nat
  layerCount : Nat
  deriving DecidableEq, Repr

/-- Arguments of one call of `vks::tools::insertImageMemoryBarrier`. -/
structure ImageMemoryBarrier where
  image : VkImage
  srcAccessMask : VkAccessFlags
  dstAccessMask : VkAccessFlags
  oldImageLayout : VkImageLayout
  newImageLayout : VkImageLayout
  srcStageMask : VkPipelineStageFlags
  dstStageMask : VkPipelineStageFlags
  subresourceRange : VkImageSubresourceRange
  deriving DecidableEq, Repr

/-- Clear values; the float literals of the source (`0.0f`, `1.0f`) are integers. -/
inductive VkClearValue
  | color (r g b a : Int)
  | depthStencil (depth : Int) (stencil : Nat)
  deriving DecidableEq, Repr

structure VkRenderingAttachmentInfoKHR where
  imageView : VkImageView
  imageLayout : VkImageLayout
  loadOp : VkAttachmentLoadOp
  storeOp : VkAttachmentStoreOp
  clearValue : VkClearValue
  deriving DecidableEq, Repr

structure VkRect2D where
  x : Int
  y : Int
  width : Nat
  height : Nat
  deriving DecidableEq, Repr

structure VkViewport where
  width : Nat
  height : Nat
  minDepth : Int
  maxDepth : Int
  deriving DecidableEq, Repr

structure VkRenderingInfoKHR where
  renderArea : VkRect2D
  layerCount : Nat
  colorAttachmentCount : Nat
  pColorAttachments : List VkRenderingAttachmentInfoKHR
  pDepthAttachment : Option VkRenderingAttachmentInfoKHR
  pStencilAttachment : Option VkRenderingAttachmentInfoKHR
  deriving DecidableEq, Repr

/-- One call recorded on a command buffer.  `beginRendering`/`endRendering` are
`vkCmdBeginRenderingKHR`/`vkCmdEndRenderingKHR`; `bindPipeline`, `setViewport`,
`setScissor`, `bindDescriptorSets` and `draw` are the `vkCmd*` calls of the same name with
the graphics bind point and a single viewport, scissor and set; `sceneDraw layout` is
`scene.draw(cmd, vkglTF::RenderFlags::BindImages, layout)` and `drawUI` the overlay of the
base class. -/
inductive Cmd
  | beginCommandBuffer
  | insertImageMemoryBarrier (b : ImageMemoryBarrier)
  | beginRendering (info : VkRenderingInfoKHR)
  | bindPipeline (p : Pipeline)
  | setViewport (v : VkViewport)
  | setScissor (r : VkRect2D)
  | bindDescriptorSets (layout : PipelineLayout) (firstSet : Nat) (sets : List DescriptorSet)
  | sceneDraw (layout : PipelineLayout)
  | draw (vertexCount instanceCount firstVertex firstInstance : Nat)
  | drawUI
  | endRendering
  | endCommandBuffer
  deriving DecidableEq, Repr

/-! ## buildCommandBuffers -/

/-- The `depthStencilAttachment` local, filled in once per command buffer and
referenced by the rendering infos that set `pDepthAttachment`/`pStencilAttachment`. -/
def depthStencilAttachment : VkRenderingAttachmentInfoKHR :=
  { imageView := ⟨.depthStencil⟩
    imageLayout := VK_IMAGE_LAYOUT_DEPTH_STENCIL_ATTACHMENT_OPTIMAL
    loadOp := VK_ATTACHMENT_LOAD_OP_CLEAR
    storeOp := VK_ATTACHMENT_STORE_OP_STORE
    clearValue := .depthStencil 1 0 }

/-- Commands recorded before the first block: begin of the command buffer and the
barrier on `depthStencil.image`. -/
def prologue : List Cmd :=
  [ .beginCommandBuffer,
    .insertImageMemoryBarrier
      ⟨ ⟨.depthStencil⟩,
        0,
        VK_ACCESS_DEPTH_STENCIL_ATTACHMENT_WRITE_BIT,
        VK_IMAGE_LAYOUT_UNDEFINED,
        VK_IMAGE_LAYOUT_DEPTH_STENCIL_ATTACHMENT_OPTIMAL,
        VK_PIPELINE_STAGE_EARLY_FRAGMENT_TESTS_BIT ||| VK_PIPELINE_STAGE_LATE_FRAGMENT_TESTS_BIT,
        VK_PIPELINE_STAGE_EARLY_FRAGMENT_TESTS_BIT ||| VK_PIPELINE_STAGE_LATE_FRAGMENT_TESTS_BIT,
        ⟨VK_IMAGE_ASPECT_DEPTH_BIT ||| VK_IMAGE_ASPECT_STENCIL_BIT, 0, 1, 0, 1⟩ ⟩ ]

/-- First block: "Offscreen SSAO generation" (G-buffer fill). -/
def offscreenBlock (width height : Nat) : List Cmd :=
  [
    .insertImageMemoryBarrier
      ⟨ ⟨.offscreenPosition⟩,
        0,
        VK_ACCESS_COLOR_ATTACHMENT_WRITE_BIT,
        VK_IMAGE_LAYOUT_UNDEFINED,
        VK_IMAGE_LAYOUT_COLOR_ATTACHMENT_OPTIMAL,
        VK_PIPELINE_STAGE_TOP_OF_PIPE_BIT,
        VK_PIPELINE_STAGE_COLOR_ATTACHMENT_OUTPUT_BIT,
        ⟨VK_IMAGE_ASPECT_COLOR_BIT, 0, 1, 0, 1⟩ ⟩,
    .insertImageMemoryBarrier
      ⟨ ⟨.offscreenNormal⟩,
        0,
        VK_ACCESS_COLOR_ATTACHMENT_WRITE_BIT,
        VK_IMAGE_LAYOUT_UNDEFINED,
        VK_IMAGE_LAYOUT_COLOR_ATTACHMENT_OPTIMAL,
        VK_PIPELINE_STAGE_TOP_OF_PIPE_BIT,
        VK_PIPELINE_STAGE_COLOR_ATTACHMENT_OUTPUT_BIT,
        ⟨VK_IMAGE_ASPECT_COLOR_BIT, 0, 1, 0, 1⟩ ⟩,
    .insertImageMemoryBarrier
      ⟨ ⟨.offscreenAlbedo⟩,
        0,
        VK_ACCESS_COLOR_ATTACHMENT_WRITE_BIT,
        VK_IMAGE_LAYOUT_UNDEFINED,
        VK_IMAGE_LAYOUT_COLOR_ATTACHMENT_OPTIMAL,
        VK_PIPELINE_STAGE_TOP_OF_PIPE_BIT,
        VK_PIPELINE_STAGE_COLOR_ATTACHMENT_OUTPUT_BIT,
        ⟨VK_IMAGE_ASPECT_COLOR_BIT, 0, 1, 0, 1⟩ ⟩,
    .beginRendering
      { renderArea := ⟨0, 0, width, height⟩
        layerCount := 1
        colorAttachmentCount := 3
        pColorAttachments :=
          [
            { imageView := ⟨.offscreenPosition⟩
              imageLayout := VK_IMAGE_LAYOUT_COLOR_ATTACHMENT_OPTIMAL
              loadOp := VK_ATTACHMENT_LOAD_OP_CLEAR
              storeOp := VK_ATTACHMENT_STORE_OP_STORE
              clearValue := .color 0 0 0 0 },
            { imageView := ⟨.offscreenNormal⟩
              imageLayout := VK_IMAGE_LAYOUT_COLOR_ATTACHMENT_OPTIMAL
              loadOp := VK_ATTACHMENT_LOAD_OP_CLEAR
              storeOp := VK_ATTACHMENT_STORE_OP_STORE
              clearValue := .color 0 0 0 0 },
            { imageView := ⟨.offscreenAlbedo⟩
              imageLayout := VK_IMAGE_LAYOUT_COLOR_ATTACHMENT_OPTIMAL
              loadOp := VK_ATTACHMENT_LOAD_OP_CLEAR
              storeOp := VK_ATTACHMENT_STORE_OP_STORE
              clearValue := .color 0 0 0 0 } ]
        pDepthAttachment := some depthStencilAttachment
        pStencilAttachment := some depthStencilAttachment },
    .bindPipeline .offscreen,
    .setViewport ⟨width, height, 0, 1⟩,
    .setScissor ⟨0, 0, width, height⟩,
    .bindDescriptorSets .gBuffer 0 [.floor],
    .sceneDraw .gBuffer,
    .endRendering,
    .insertImageMemoryBarrier
      ⟨ ⟨.offscreenPosition⟩,
        VK_ACCESS_COLOR_ATTACHMENT_WRITE_BIT,
        VK_ACCESS_SHADER_READ_BIT,
        VK_IMAGE_LAYOUT_COLOR_ATTACHMENT_OPTIMAL,
        VK_IMAGE_LAYOUT_SHADER_READ_ONLY_OPTIMAL,
        VK_PIPELINE_STAGE_COLOR_ATTACHMENT_OUTPUT_BIT,
        VK_PIPELINE_STAGE_FRAGMENT_SHADER_BIT,
        ⟨VK_IMAGE_ASPECT_COLOR_BIT, 0, 1, 0, 1⟩ ⟩,
    .insertImageMemoryBarrier
      ⟨ ⟨.offscreenNormal⟩,
        VK_ACCESS_COLOR_ATTACHMENT_WRITE_BIT,
        VK_ACCESS_SHADER_READ_BIT,
        VK_IMAGE_LAYOUT_COLOR_ATTACHMENT_OPTIMAL,
        VK_IMAGE_LAYOUT_SHADER_READ_ONLY_OPTIMAL,
        VK_PIPELINE_STAGE_COLOR_ATTACHMENT_OUTPUT_BIT,
        VK_PIPELINE_STAGE_FRAGMENT_SHADER_BIT,
        ⟨VK_IMAGE_ASPECT_COLOR_BIT, 0, 1, 0, 1⟩ ⟩,
    .insertImageMemoryBarrier
      ⟨ ⟨.offscreenAlbedo⟩,
        VK_ACCESS_COLOR_ATTACHMENT_WRITE_BIT,
        VK_ACCESS_SHADER_READ_BIT,
        VK_IMAGE_LAYOUT_COLOR_ATTACHMENT_OPTIMAL,
        VK_IMAGE_LAYOUT_SHADER_READ_ONLY_OPTIMAL,
        VK_PIPELINE_STAGE_COLOR_ATTACHMENT_OUTPUT_BIT,
        VK_PIPELINE_STAGE_FRAGMENT_SHADER_BIT,
        ⟨VK_IMAGE_ASPECT_COLOR_BIT, 0, 1, 0, 1⟩ ⟩ ]

/-- Second block: "SSAO generation". -/
def ssaoBlock (width height : Nat) : List Cmd :=
  [
    .insertImageMemoryBarrier
      ⟨ ⟨.ssaoColor⟩,
        0,
        VK_ACCESS_COLOR_ATTACHMENT_WRITE_BIT,
        VK_IMAGE_LAYOUT_UNDEFINED,
        VK_IMAGE_LAYOUT_COLOR_ATTACHMENT_OPTIMAL,
        VK_PIPELINE_STAGE_TOP_OF_PIPE_BIT,
        VK_PIPELINE_STAGE_COLOR_ATTACHMENT_OUTPUT_BIT,
        ⟨VK_IMAGE_ASPECT_COLOR_BIT, 0, 1, 0, 1⟩ ⟩,
    .beginRendering
      { renderArea := ⟨0, 0, width, height⟩
        layerCount := 1
        colorAttachmentCount := 1
        pColorAttachments :=
          [
            { imageView := ⟨.ssaoColor⟩
              imageLayout := VK_IMAGE_LAYOUT_COLOR_ATTACHMENT_OPTIMAL
              loadOp := VK_ATTACHMENT_LOAD_OP_CLEAR
              storeOp := VK_ATTACHMENT_STORE_OP_STORE
              clearValue := .color 0 0 0 0 } ]
        pDepthAttachment := none
        pStencilAttachment := none },
    .bindPipeline .ssao,
    .setViewport ⟨width, height, 0, 1⟩,
    .setScissor ⟨0, 0, width, height⟩,
    .bindDescriptorSets .ssao 0 [.ssao],
    .draw 3 1 0 0,
    .endRendering,
    .insertImageMemoryBarrier
      ⟨ ⟨.ssaoColor⟩,
        VK_ACCESS_COLOR_ATTACHMENT_WRITE_BIT,
        VK_ACCESS_SHADER_READ_BIT,
        VK_IMAGE_LAYOUT_COLOR_ATTACHMENT_OPTIMAL,
        VK_IMAGE_LAYOUT_SHADER_READ_ONLY_OPTIMAL,
        VK_PIPELINE_STAGE_COLOR_ATTACHMENT_OUTPUT_BIT,
        VK_PIPELINE_STAGE_FRAGMENT_SHADER_BIT,
        ⟨VK_IMAGE_ASPECT_COLOR_BIT, 0, 1, 0, 1⟩ ⟩ ]

/-- Third block: "SSAO blur". -/
def ssaoBlurBlock (width height : Nat) : List Cmd :=
  [
    .insertImageMemoryBarrier
      ⟨ ⟨.ssaoBlurColor⟩,
        0,
        VK_ACCESS_COLOR_ATTACHMENT_WRITE_BIT,
        VK_IMAGE_LAYOUT_UNDEFINED,
        VK_IMAGE_LAYOUT_COLOR_ATTACHMENT_OPTIMAL,
        VK_PIPELINE_STAGE_TOP_OF_PIPE_BIT,
        VK_PIPELINE_STAGE_COLOR_ATTACHMENT_OUTPUT_BIT,
        ⟨VK_IMAGE_ASPECT_COLOR_BIT, 0, 1, 0, 1⟩ ⟩,
    .beginRendering
      { renderArea := ⟨0, 0, width, height⟩
        layerCount := 1
        colorAttachmentCount := 1
        pColorAttachments :=
          [
            { imageView := ⟨.ssaoBlurColor⟩
              imageLayout := VK_IMAGE_LAYOUT_COLOR_ATTACHMENT_OPTIMAL
              loadOp := VK_ATTACHMENT_LOAD_OP_CLEAR
              storeOp := VK_ATTACHMENT_STORE_OP_STORE
              clearValue := .color 0 0 0 0 } ]
        pDepthAttachment := none
        pStencilAttachment := none },
    .bindPipeline .ssaoBlur,
    .setViewport ⟨width, height, 0, 1⟩,
    .setScissor ⟨0, 0, width, height⟩,
    .bindDescriptorSets .ssaoBlur 0 [.ssaoBlur],
    .draw 3 1 0 0,
    .endRendering,
    .insertImageMemoryBarrier
      ⟨ ⟨.ssaoBlurColor⟩,
        VK_ACCESS_COLOR_ATTACHMENT_WRITE_BIT,
        VK_ACCESS_SHADER_READ_BIT,
        VK_IMAGE_LAYOUT_COLOR_ATTACHMENT_OPTIMAL,
        VK_IMAGE_LAYOUT_SHADER_READ_ONLY_OPTIMAL,
        VK_PIPELINE_STAGE_COLOR_ATTACHMENT_OUTPUT_BIT,
        VK_PIPELINE_STAGE_FRAGMENT_SHADER_BIT,
        ⟨VK_IMAGE_ASPECT_COLOR_BIT, 0, 1, 0, 1⟩ ⟩ ]

/-- Fourth block: the final composition into swapchain image `i`, the UI overlay and
the transition for presentation. -/
def compositionBlock (width height i : Nat) : List Cmd :=
  [
    .insertImageMemoryBarrier
      ⟨ ⟨.swapChainBuffer i⟩,
        0,
        VK_ACCESS_COLOR_ATTACHMENT_WRITE_BIT,
        VK_IMAGE_LAYOUT_UNDEFINED,
        VK_IMAGE_LAYOUT_COLOR_ATTACHMENT_OPTIMAL,
        VK_PIPELINE_STAGE_TOP_OF_PIPE_BIT,
        VK_PIPELINE_STAGE_COLOR_ATTACHMENT_OUTPUT_BIT,
        ⟨VK_IMAGE_ASPECT_COLOR_BIT, 0, 1, 0, 1⟩ ⟩,
    .beginRendering
      { renderArea := ⟨0, 0, width, height⟩
        layerCount := 1
        colorAttachmentCount := 1
        pColorAttachments :=
          [
            { imageView := ⟨.swapChainBuffer i⟩
              imageLayout := VK_IMAGE_LAYOUT_COLOR_ATTACHMENT_OPTIMAL
              loadOp := VK_ATTACHMENT_LOAD_OP_CLEAR
              storeOp := VK_ATTACHMENT_STORE_OP_STORE
              clearValue := .color 0 0 0 0 } ]
        pDepthAttachment := some depthStencilAttachment
        pStencilAttachment := some depthStencilAttachment },
    .bindPipeline .composition,
    .setViewport ⟨width, height, 0, 1⟩,
    .setScissor ⟨0, 0, width, height⟩,
    .bindDescriptorSets .composition 0 [.composition],
    .draw 3 1 0 0,
    .drawUI,
    .endRendering,
    .insertImageMemoryBarrier
      ⟨ ⟨.swapChainBuffer i⟩,
        VK_ACCESS_COLOR_ATTACHMENT_WRITE_BIT,
        0,
        VK_IMAGE_LAYOUT_COLOR_ATTACHMENT_OPTIMAL,
        VK_IMAGE_LAYOUT_PRESENT_SRC_KHR,
        VK_PIPELINE_STAGE_COLOR_ATTACHMENT_OUTPUT_BIT,
        VK_PIPELINE_STAGE_BOTTOM_OF_PIPE_BIT,
        ⟨VK_IMAGE_ASPECT_COLOR_BIT, 0, 1, 0, 1⟩ ⟩ ]

/-- Body of the loop of `buildCommandBuffers`: everything recorded on
`drawCmdBuffers[i]`. -/
def recordCommandBuffer (width height i : Nat) : List Cmd :=
  prologue
    ++ offscreenBlock width height
    ++ ssaoBlock width height
    ++ ssaoBlurBlock width height
    ++ compositionBlock width height i
    ++ [.endCommandBuffer]

/-- The streams recorded by `buildCommandBuffers`, one per entry of `drawCmdBuffers`
(`count = drawCmdBuffers.size()`). -/
def buildCommandBuffers (width height count : Nat) : List (List Cmd) :=
  (List.range count).map (recordCommandBuffer width height)

/-! ## setupLayoutsAndDescriptors -/

/-- Samplers of the example (`colorSampler` is the only one it creates itself). -/
inductive Sampler
  | colorSampler
  deriving DecidableEq, Repr

/-- What a descriptor write points at: `&uniformBuffers.b.descriptor`, an entry of
`imageDescriptors` built by `descriptorImageInfo(sampler, view, layout)`, or
`&textures.ssaoNoise.descriptor`. -/
inductive DescriptorInfo
  | buffer (b : UniformBuffer)
  | image (sampler : Sampler) (imageView : VkImageView) (imageLayout : VkImageLayout)
  | ssaoNoise
  deriving DecidableEq, Repr

/-- Arguments of `descriptorSetLayoutBinding(type, stageFlags, binding)`. -/
structure VkDescriptorSetLayoutBinding where
  descriptorType : VkDescriptorType
  stageFlags : VkShaderStageFlags
  binding : Nat
  deriving DecidableEq, Repr

/-- Arguments of `writeDescriptorSet(dstSet, type, binding, info)`. -/
structure VkWriteDescriptorSet where
  dstSet : DescriptorSet
  descriptorType : VkDescriptorType
  dstBinding : Nat
  info : DescriptorInfo
  deriving DecidableEq, Repr

/-- A set layout named in a pipeline layout: one of `descriptorSetLayouts`, or
`vkglTF::descriptorSetLayoutImage` of the model loader. -/
inductive SetLayoutRef
  | own (l : DescriptorSetLayout)
  | gltfImage
  deriving DecidableEq, Repr

/-- Everything `setupLayoutsAndDescriptors` hands to the API, call by call. -/
structure LayoutsAndDescriptors where
  setLayouts : List (DescriptorSetLayout × List VkDescriptorSetLayoutBinding)
  pipelineLayouts : List (PipelineLayout × List SetLayoutRef)
  allocations : List (DescriptorSet × DescriptorSetLayout)
  writes : List VkWriteDescriptorSet
  deriving DecidableEq, Repr

def setupLayoutsAndDescriptors : LayoutsAndDescriptors :=
  { setLayouts :=
      [ (.gBuffer,
          [ ⟨VK_DESCRIPTOR_TYPE_UNIFORM_BUFFER, VK_SHADER_STAGE_VERTEX_BIT ||| VK_SHADER_STAGE_FRAGMENT_BIT, 0⟩ ]),
        (.ssao,
          [ ⟨VK_DESCRIPTOR_TYPE_COMBINED_IMAGE_SAMPLER, VK_SHADER_STAGE_FRAGMENT_BIT, 0⟩,
            ⟨VK_DESCRIPTOR_TYPE_COMBINED_IMAGE_SAMPLER, VK_SHADER_STAGE_FRAGMENT_BIT, 1⟩,
            ⟨VK_DESCRIPTOR_TYPE_COMBINED_IMAGE_SAMPLER, VK_SHADER_STAGE_FRAGMENT_BIT, 2⟩,
            ⟨VK_DESCRIPTOR_TYPE_UNIFORM_BUFFER, VK_SHADER_STAGE_FRAGMENT_BIT, 3⟩,
            ⟨VK_DESCRIPTOR_TYPE_UNIFORM_BUFFER, VK_SHADER_STAGE_FRAGMENT_BIT, 4⟩ ]),
        (.ssaoBlur,
          [ ⟨VK_DESCRIPTOR_TYPE_COMBINED_IMAGE_SAMPLER, VK_SHADER_STAGE_FRAGMENT_BIT, 0⟩ ]),
        (.composition,
          [ ⟨VK_DESCRIPTOR_TYPE_COMBINED_IMAGE_SAMPLER, VK_SHADER_STAGE_FRAGMENT_BIT, 0⟩,
            ⟨VK_DESCRIPTOR_TYPE_COMBINED_IMAGE_SAMPLER, VK_SHADER_STAGE_FRAGMENT_BIT, 1⟩,
            ⟨VK_DESCRIPTOR_TYPE_COMBINED_IMAGE_SAMPLER, VK_SHADER_STAGE_FRAGMENT_BIT, 2⟩,
            ⟨VK_DESCRIPTOR_TYPE_COMBINED_IMAGE_SAMPLER, VK_SHADER_STAGE_FRAGMENT_BIT, 3⟩,
            ⟨VK_DESCRIPTOR_TYPE_COMBINED_IMAGE_SAMPLER, VK_SHADER_STAGE_FRAGMENT_BIT, 4⟩,
            ⟨VK_DESCRIPTOR_TYPE_UNIFORM_BUFFER, VK_SHADER_STAGE_FRAGMENT_BIT, 5⟩ ]) ]
    pipelineLayouts :=
      [ (.gBuffer, [.own .gBuffer, .gltfImage]),
        (.ssao, [.own .ssao]),
        (.ssaoBlur, [.own .ssaoBlur]),
        (.composition, [.own .composition]) ]
    allocations :=
      [ (.floor, .gBuffer),
        (.ssao, .ssao),
        (.ssaoBlur, .ssaoBlur),
        (.composition, .composition) ]
    writes :=
      [ -- G-Buffer creation (offscreen scene rendering)
        ⟨.floor, VK_DESCRIPTOR_TYPE_UNIFORM_BUFFER, 0, .buffer .sceneParams⟩,
        -- SSAO Generation
        ⟨.ssao, VK_DESCRIPTOR_TYPE_COMBINED_IMAGE_SAMPLER, 0,
          .image .colorSampler ⟨.offscreenPosition⟩ VK_IMAGE_LAYOUT_SHADER_READ_ONLY_OPTIMAL⟩,
        ⟨.ssao, VK_DESCRIPTOR_TYPE_COMBINED_IMAGE_SAMPLER, 1,
          .image .colorSampler ⟨.offscreenNormal⟩ VK_IMAGE_LAYOUT_SHADER_READ_ONLY_OPTIMAL⟩,
        ⟨.ssao, VK_DESCRIPTOR_TYPE_COMBINED_IMAGE_SAMPLER, 2, .ssaoNoise⟩,
        ⟨.ssao, VK_DESCRIPTOR_TYPE_UNIFORM_BUFFER, 3, .buffer .ssaoKernel⟩,
        ⟨.ssao, VK_DESCRIPTOR_TYPE_UNIFORM_BUFFER, 4, .buffer .ssaoParams⟩,
        -- SSAO Blur
        ⟨.ssaoBlur, VK_DESCRIPTOR_TYPE_COMBINED_IMAGE_SAMPLER, 0,
          .image .colorSampler ⟨.ssaoColor⟩ VK_IMAGE_LAYOUT_SHADER_READ_ONLY_OPTIMAL⟩,
        -- Composition
        ⟨.composition, VK_DESCRIPTOR_TYPE_COMBINED_IMAGE_SAMPLER, 0,
          .image .colorSampler ⟨.offscreenPosition⟩ VK_IMAGE_LAYOUT_SHADER_READ_ONLY_OPTIMAL⟩,
        ⟨.composition, VK_DESCRIPTOR_TYPE_COMBINED_IMAGE_SAMPLER, 1,
          .image .colorSampler ⟨.offscreenNormal⟩ VK_IMAGE_LAYOUT_SHADER_READ_ONLY_OPTIMAL⟩,
        ⟨.composition, VK_DESCRIPTOR_TYPE_COMBINED_IMAGE_SAMPLER, 2,
          .image .colorSampler ⟨.offscreenAlbedo⟩ VK_IMAGE_LAYOUT_SHADER_READ_ONLY_OPTIMAL⟩,
        ⟨.composition, VK_DESCRIPTOR_TYPE_COMBINED_IMAGE_SAMPLER, 3,
          .image .colorSampler ⟨.ssaoColor⟩ VK_IMAGE_LAYOUT_SHADER_READ_ONLY_OPTIMAL⟩,
        ⟨.composition, VK_DESCRIPTOR_TYPE_COMBINED_IMAGE_SAMPLER, 4,
          .image .colorSampler ⟨.ssaoBlurColor⟩ VK_IMAGE_LAYOUT_SHADER_READ_ONLY_OPTIMAL⟩,
        ⟨.composition, VK_DESCRIPTOR_TYPE_UNIFORM_BUFFER, 5, .buffer .ssaoParams⟩ ] }

/-! ## Reading a recorded stream -/

/-- The pipeline a command binds, if it is a pipeline bind. -/
def Cmd.boundPipeline : Cmd → Option Pipeline
  | .bindPipeline p => some p
  | _ => none

/-- The descriptor sets a command binds. -/
def Cmd.boundSets : Cmd → List DescriptorSet
  | .bindDescriptorSets _ _ sets => sets
  | _ => []

/-- The barrier a command records, if it is one. -/
def Cmd.barrier : Cmd → Option ImageMemoryBarrier
  | .insertImageMemoryBarrier b => some b
  | _ => none

def Cmd.isBeginRendering : Cmd → Bool
  | .beginRendering _ => true
  | _ => false

def Cmd.isEndRendering : Cmd → Bool
  | .endRendering => true
  | _ => false

/-- A draw: `vkCmdDraw`, the scene draw or the UI overlay. -/
def Cmd.isDraw : Cmd → Bool
  | .draw _ _ _ _ => true
  | .sceneDraw _ => true
  | .drawUI => true
  | _ => false

/-- The colour attachments a rendering info binds: the first `colorAttachmentCount`
entries of `pColorAttachments`. -/
def VkRenderingInfoKHR.colorAttachments (info : VkRenderingInfoKHR) :
    List VkRenderingAttachmentInfoKHR :=
  info.pColorAttachments.take info.colorAttachmentCount

/-- Views bound as colour targets. -/
def VkRenderingInfoKHR.colorViews (info : VkRenderingInfoKHR) : List VkImageView :=
  info.colorAttachments.map (·.imageView)

/-- Every attachment a rendering info binds: colour, then depth, then stencil. -/
def VkRenderingInfoKHR.attachments (info : VkRenderingInfoKHR) :
    List VkRenderingAttachmentInfoKHR :=
  info.colorAttachments ++ info.pDepthAttachment.toList ++ info.pStencilAttachment.toList

/-- A rendering scope of a stream: the positions of its begin and end, the rendering
info of the begin and the commands in between. -/
structure Scope where
  first : Nat
  last : Nat
  info : VkRenderingInfoKHR
  body : List Cmd
  deriving DecidableEq, Repr

/-- Scopes of the commands from position `k` on, given the scope open at `k`. -/
def scopesFrom : Nat → Option (Nat × VkRenderingInfoKHR × List Cmd) → List Cmd → List Scope
  | _, _, [] => []
  | k, none, .beginRendering info :: cs => scopesFrom (k + 1) (some (k, info, [])) cs
  | k, none, _ :: cs => scopesFrom (k + 1) none cs
  | k, some (b, info, body), .endRendering :: cs =>
      ⟨b, k, info, body.reverse⟩ :: scopesFrom (k + 1) none cs
  | k, some (b, info, body), c :: cs => scopesFrom (k + 1) (some (b, info, c :: body)) cs

/-- The rendering scopes of a stream, in stream order. -/
def scopes (cs : List Cmd) : List Scope := scopesFrom 0 none cs

/-- Pipelines bound inside a scope. -/
def Scope.pipelines (s : Scope) : List Pipeline := s.body.filterMap Cmd.boundPipeline

/-- Descriptor sets bound inside a scope. -/
def Scope.descriptorSets (s : Scope) : List DescriptorSet := s.body.flatMap Cmd.boundSets

/-- The image infos written to a descriptor set: view and declared layout of each. -/
def sampledImages (d : LayoutsAndDescriptors) (set : DescriptorSet) :
    List (VkImageView × VkImageLayout) :=
  d.writes.filterMap fun w =>
    match w.info with
    | .image _ v l => if w.dstSet = set then some (v, l) else none
    | _ => none

/-- Attachment views a descriptor set samples: the views of the image infos written to it. -/
def sampledViews (d : LayoutsAndDescriptors) (set : DescriptorSet) : List VkImageView :=
  (sampledImages d set).map (·.1)

/-- Views sampled by the descriptor sets bound inside a scope. -/
def Scope.reads (d : LayoutsAndDescriptors) (s : Scope) : List VkImageView :=
  s.descriptorSets.flatMap (sampledViews d)

/-- The five off-screen attachments, the members of `attachments`. -/
def offscreenAttachments : List Target :=
  [.offscreenPosition, .offscreenNormal, .offscreenAlbedo, .ssaoColor, .ssaoBlurColor]

/-- Positions, counted from `k`, of the commands of a stream that satisfy `p`. -/
def positionsFrom (p : Cmd → Bool) : Nat → List Cmd → List Nat
  | _, [] => []
  | k, c :: cs => if p c then k :: positionsFrom p (k + 1) cs else positionsFrom p (k + 1) cs

/-- Positions of the commands of a stream that satisfy `p`. -/
def positions (p : Cmd → Bool) (cs : List Cmd) : List Nat := positionsFrom p 0 cs

/-- Barrier on `img` from the colour-attachment layout to the shader-read layout. -/
def Cmd.isReadBarrierOn (img : VkImage) : Cmd → Bool
  | .insertImageMemoryBarrier b =>
      b.image = img ∧ b.oldImageLayout = VK_IMAGE_LAYOUT_COLOR_ATTACHMENT_OPTIMAL
        ∧ b.newImageLayout = VK_IMAGE_LAYOUT_SHADER_READ_ONLY_OPTIMAL
  | _ => false

/-- The barriers of a stream, in stream order. -/
def barriers (cs : List Cmd) : List ImageMemoryBarrier := cs.filterMap Cmd.barrier

/-- The barriers of a stream recorded on image `img`. -/
def barriersOn (img : VkImage) (cs : List Cmd) : List ImageMemoryBarrier :=
  (barriers cs).filter fun b => b.image = img

/-- A sequence of barriers on one image continues from layout `l`: the first old layout
is `l` and every later old layout is the new layout of the barrier before it. -/
def continuesFrom : VkImageLayout → List ImageMemoryBarrier → Prop
  | _, [] => True
  | l, b :: bs => b.oldImageLayout = l ∧ continuesFrom b.newImageLayout bs

/-- Image layouts while a stream is replayed. -/
abbrev Layouts := VkImage → VkImageLayout

/-- Effect of a barrier on the tracked layouts. -/
def applyBarrier (L : Layouts) (b : ImageMemoryBarrier) : Layouts :=
  fun img => if img = b.image then b.newImageLayout else L img

/-- Replaying the stream from layouts `L`, every barrier names as old layout either
`UNDEFINED` or the layout its image is in at that point. -/
def barriersValid (L : Layouts) : List Cmd → Prop
  | [] => True
  | .insertImageMemoryBarrier b :: cs =>
      (b.oldImageLayout = VK_IMAGE_LAYOUT_UNDEFINED ∨ b.oldImageLayout = L b.image)
        ∧ barriersValid (applyBarrier L b) cs
  | _ :: cs => barriersValid L cs

/-- Replaying the stream from layouts `L` with descriptor sets `bound`: at every begin of
a rendering scope each attachment it binds is in the layout its attachment info declares,
and at every draw each image sampled through the bound descriptor sets is in the layout
its descriptor image info declares.  Barriers update the layouts, descriptor binds replace
the bound sets. -/
def layoutAtUse (d : LayoutsAndDescriptors) : Layouts → List DescriptorSet → List Cmd → Prop
  | _, _, [] => True
  | L, bound, .insertImageMemoryBarrier b :: cs => layoutAtUse d (applyBarrier L b) bound cs
  | L, bound, .beginRendering info :: cs =>
      (∀ a ∈ info.attachments, L a.imageView.image = a.imageLayout) ∧ layoutAtUse d L bound cs
  | L, _, .bindDescriptorSets _ _ sets :: cs => layoutAtUse d L sets cs
  | L, bound, c :: cs =>
      (c.isDraw = true → ∀ set ∈ bound, ∀ e ∈ sampledImages d set, L e.1.image = e.2)
        ∧ layoutAtUse d L bound cs

/-- Barrier into the presentation layout. -/
def Cmd.isPresentBarrier : Cmd → Bool
  | .insertImageMemoryBarrier b => b.newImageLayout = VK_IMAGE_LAYOUT_PRESENT_SRC_KHR
  | _ => false

def Cmd.isEndCommandBuffer : Cmd → Bool
  | .endCommandBuffer => true
  | _ => false

/-- Kind of an image: colour or depth/stencil. -/
inductive AttachmentKind
  | color | depthStencil
  deriving DecidableEq, Repr

/-- The five `attachments` members are created with `VK_IMAGE_USAGE_COLOR_ATTACHMENT_BIT`
(`prepareOffscreenFramebuffers`), swapchain images are colour images, and `depthStencil`
is the depth/stencil image of the base class. -/
def Target.kind : Target → AttachmentKind
  | .depthStencil => .depthStencil
  | _ => .color

/-- A barrier into an attachment-write layout. -/
def ImageMemoryBarrier.toAttachmentWrite (b : ImageMemoryBarrier) : Bool :=
  b.newImageLayout = VK_IMAGE_LAYOUT_COLOR_ATTACHMENT_OPTIMAL
    ∨ b.newImageLayout = VK_IMAGE_LAYOUT_DEPTH_STENCIL_ATTACHMENT_OPTIMAL

/-- A barrier from the colour-attachment layout to the shader-read layout. -/
def ImageMemoryBarrier.toShaderRead (b : ImageMemoryBarrier) : Bool :=
  b.oldImageLayout = VK_IMAGE_LAYOUT_COLOR_ATTACHMENT_OPTIMAL
    ∧ b.newImageLayout = VK_IMAGE_LAYOUT_SHADER_READ_ONLY_OPTIMAL

/-- Barrier on image `img`. -/
def Cmd.isBarrierOn (img : VkImage) : Cmd → Bool
  | .insertImageMemoryBarrier b => b.image = img
  | _ => false

/-- Views bound as depth or stencil attachment. -/
def VkRenderingInfoKHR.depthStencilViews (info : VkRenderingInfoKHR) : List VkImageView :=
  (info.pDepthAttachment.toList ++ info.pStencilAttachment.toList).map (·.imageView)

/-- Every view a rendering info binds: colour, then depth, then stencil. -/
def VkRenderingInfoKHR.views (info : VkRenderingInfoKHR) : List VkImageView :=
  info.attachments.map (·.imageView)

/-! ## createAttachment and prepareOffscreenFramebuffers -/

abbrev VkFormat := Nat
abbrev VkImageUsageFlags := Nat

def VK_FORMAT_UNDEFINED : VkFormat := 0
def VK_FORMAT_R8_UNORM : VkFormat := 9
def VK_FORMAT_R8G8B8A8_UNORM : VkFormat := 37
def VK_FORMAT_R32G32B32A32_SFLOAT : VkFormat := 109
def VK_FORMAT_D16_UNORM_S8_UINT : VkFormat := 128

def VK_IMAGE_USAGE_SAMPLED_BIT : VkImageUsageFlags := 0x00000004
def VK_IMAGE_USAGE_COLOR_ATTACHMENT_BIT : VkImageUsageFlags := 0x00000010
def VK_IMAGE_USAGE_DEPTH_STENCIL_ATTACHMENT_BIT : VkImageUsageFlags := 0x00000020

def VK_SAMPLE_COUNT_1_BIT : Nat := 0x00000001

inductive VkImageType
  | VK_IMAGE_TYPE_1D | VK_IMAGE_TYPE_2D | VK_IMAGE_TYPE_3D
  deriving DecidableEq, Repr

inductive VkImageViewType
  | VK_IMAGE_VIEW_TYPE_1D | VK_IMAGE_VIEW_TYPE_2D | VK_IMAGE_VIEW_TYPE_3D
  deriving DecidableEq, Repr

inductive VkImageTiling
  | VK_IMAGE_TILING_OPTIMAL | VK_IMAGE_TILING_LINEAR
  deriving DecidableEq, Repr

open VkImageType VkImageViewType VkImageTiling

structure VkExtent3D where
  width : Nat
  height : Nat
  depth : Nat
  deriving DecidableEq, Repr

structure VkImageCreateInfo where
  imageType : VkImageType
  format : VkFormat
  extent : VkExtent3D
  mipLevels : Nat
  arrayLayers : Nat
  samples : Nat
  tiling : VkImageTiling
  usage : VkImageUsageFlags
  deriving DecidableEq, Repr

structure VkImageViewCreateInfo where
  viewType : VkImageViewType
  format : VkFormat
  subresourceRange : VkImageSubresourceRange
  image : VkImage
  deriving DecidableEq, Repr

/-- The handle `t.mem`. -/
structure VkDeviceMemory where
  target : Target
  deriving DecidableEq, Repr

/-- The `ColorAttachment` struct as `createAttachment` leaves it: the handles, the recorded
format, and the create infos the image and the view were made from.  The size of the
device memory comes from the driver and is not modelled. -/
structure ColorAttachment where
  image : VkImage
  mem : VkDeviceMemory
  view : VkImageView
  format : VkFormat
  imageInfo : VkImageCreateInfo
  viewInfo : VkImageViewCreateInfo
  deriving DecidableEq, Repr

/-- The aspect mask `createAttachment` computes from `usage` and `format`. -/
def createAttachmentAspectMask (format : VkFormat) (usage : VkImageUsageFlags) :
    VkImageAspectFlags :=
  let aspectMask : VkImageAspectFlags := 0
  let aspectMask :=
    if usage &&& VK_IMAGE_USAGE_COLOR_ATTACHMENT_BIT ≠ 0 then VK_IMAGE_ASPECT_COLOR_BIT
    else aspectMask
  let aspectMask :=
    if usage &&& VK_IMAGE_USAGE_DEPTH_STENCIL_ATTACHMENT_BIT ≠ 0 then
      let aspectMask := VK_IMAGE_ASPECT_DEPTH_BIT
      if format ≥ VK_FORMAT_D16_UNORM_S8_UINT then aspectMask ||| VK_IMAGE_ASPECT_STENCIL_BIT
      else aspectMask
    else aspectMask
  aspectMask

/-- `createAttachment(format, usage, attachment, width, height)`, where `attachment` points
at the member named by `target`.  The result is `none` when `assert(aspectMask > 0)`
fails; the Vulkan calls are taken to succeed (`VK_CHECK_RESULT`). -/
def createAttachment (format : VkFormat) (usage : VkImageUsageFlags) (target : Target)
    (width height : Nat) : Option ColorAttachment :=
  let aspectMask := createAttachmentAspectMask format usage
  if aspectMask > 0 then
    some
      { image := ⟨target⟩
        mem := ⟨target⟩
        view := ⟨target⟩
        format := format
        imageInfo :=
          { imageType := VK_IMAGE_TYPE_2D
            format := format
            extent := ⟨width, height, 1⟩
            mipLevels := 1
            arrayLayers := 1
            samples := VK_SAMPLE_COUNT_1_BIT
            tiling := VK_IMAGE_TILING_OPTIMAL
            usage := usage ||| VK_IMAGE_USAGE_SAMPLED_BIT }
        viewInfo :=
          { viewType := VK_IMAGE_VIEW_TYPE_2D
            format := format
            subresourceRange := ⟨aspectMask, 0, 1, 0, 1⟩
            image := ⟨target⟩ } }
  else none

/-- The `attachments` member once `prepareOffscreenFramebuffers` has run. -/
structure Attachments where
  offscreenPosition : ColorAttachment
  offscreenNormal : ColorAttachment
  offscreenAlbedo : ColorAttachment
  ssaoColor : ColorAttachment
  ssaoBlurColor : ColorAttachment
  deriving DecidableEq, Repr

/-- The attachment creations of `prepareOffscreenFramebuffers`, in source order
(`ssaoWidth = width`, `ssaoHeight = height`). -/
def prepareOffscreenFramebuffers (width height : Nat) : Option Attachments := do
  let ssaoWidth := width
  let ssaoHeight := height
  let position ← createAttachment VK_FORMAT_R32G32B32A32_SFLOAT
    VK_IMAGE_USAGE_COLOR_ATTACHMENT_BIT .offscreenPosition width height
  let normal ← createAttachment VK_FORMAT_R8G8B8A8_UNORM
    VK_IMAGE_USAGE_COLOR_ATTACHMENT_BIT .offscreenNormal width height
  let albedo ← createAttachment VK_FORMAT_R8G8B8A8_UNORM
    VK_IMAGE_USAGE_COLOR_ATTACHMENT_BIT .offscreenAlbedo width height
  let ssao ← createAttachment VK_FORMAT_R8_UNORM
    VK_IMAGE_USAGE_COLOR_ATTACHMENT_BIT .ssaoColor ssaoWidth ssaoHeight
  let ssaoBlur ← createAttachment VK_FORMAT_R8_UNORM
    VK_IMAGE_USAGE_COLOR_ATTACHMENT_BIT .ssaoBlurColor width height
  pure ⟨position, normal, albedo, ssao, ssaoBlur⟩

/-- The five attachments in creation order. -/
def Attachments.toList (a : Attachments) : List ColorAttachment :=
  [a.offscreenPosition, a.offscreenNormal, a.offscreenAlbedo, a.ssaoColor, a.ssaoBlurColor]

/-! ## preparePipelines -/

def SSAO_KERNEL_SIZE : Nat := 64

/-- The literal `0.3f`. -/
def SSAO_RADIUS : ℚ := 3 / 10

def VK_CULL_MODE_FRONT_BIT : Nat := 0x00000001
def VK_CULL_MODE_BACK_BIT : Nat := 0x00000002

inductive VkDynamicState
  | VK_DYNAMIC_STATE_VIEWPORT | VK_DYNAMIC_STATE_SCISSOR
  deriving DecidableEq, Repr

/-- The local `struct SpecializationData { uint32_t kernelSize; float radius; }`. -/
structure SpecializationData where
  kernelSize : Nat
  radius : ℚ
  deriving DecidableEq, Repr

/-- Byte layout of `SpecializationData`: two 4-byte members, 4-byte aligned, no padding. -/
def SpecializationData.sizeof_kernelSize : Nat := 4
def SpecializationData.sizeof_radius : Nat := 4
def SpecializationData.offsetof_kernelSize : Nat := 0
def SpecializationData.offsetof_radius : Nat := 4
def SpecializationData.sizeof : Nat := 8

/-- Arguments of `specializationMapEntry(constantID, offset, size)`. -/
structure VkSpecializationMapEntry where
  constantID : Nat
  offset : Nat
  size : Nat
  deriving DecidableEq, Repr

/-- Arguments of `specializationInfo(mapEntryCount, mapEntries, dataSize, data)`. -/
structure VkSpecializationInfo where
  mapEntryCount : Nat
  pMapEntries : List VkSpecializationMapEntry
  dataSize : Nat
  pData : SpecializationData
  deriving DecidableEq, Repr

/-- A shader stage: the stage bit, the SPIR-V file below `getShadersPath()` it was loaded
from, and the specialization info it points at. -/
structure VkPipelineShaderStageCreateInfo where
  stage : VkShaderStageFlags
  file : String
  pSpecializationInfo : Option VkSpecializationInfo
  deriving DecidableEq, Repr

/-- The `VkPipelineRenderingCreateInfoKHR` chained into a pipeline create info; fields the
source leaves out are zero (`VK_FORMAT_UNDEFINED`). -/
structure VkPipelineRenderingCreateInfoKHR where
  colorAttachmentCount : Nat
  pColorAttachmentFormats : List VkFormat
  depthAttachmentFormat : VkFormat
  stencilAttachmentFormat : VkFormat
  deriving DecidableEq, Repr

/-- Arguments of `pipelineColorBlendAttachmentState(colorWriteMask, blendEnable)`. -/
structure VkPipelineColorBlendAttachmentState where
  colorWriteMask : Nat
  blendEnable : Bool
  deriving DecidableEq, Repr

/-- Members of `vkglTF::VertexComponent` the example names. -/
inductive VertexComponent
  | Position | UV | Color | Normal
  deriving DecidableEq, Repr

/-- The vertex input state a pipeline points at: the empty one of the full-screen passes or
the one the glTF loader builds for the listed components. -/
inductive VertexInputState
  | empty
  | gltf (components : List VertexComponent)
  deriving DecidableEq, Repr

/-- What `vkCreateGraphicsPipelines` sees through `pipelineCreateInfo` and the state structs
it points at: the fields the function changes between the four creations, and the
depth/stencil and dynamic state shared by all four.  `shaderStages` entries are `none` until
assigned. -/
structure GraphicsPipelineCreateInfo where
  layout : PipelineLayout
  pNext : Option VkPipelineRenderingCreateInfoKHR
  stageCount : Nat
  shaderStages : List (Option VkPipelineShaderStageCreateInfo)
  pVertexInputState : Option VertexInputState
  cullMode : Nat
  blendAttachmentCount : Nat
  blendAttachments : List VkPipelineColorBlendAttachmentState
  depthTestEnable : Bool
  depthWriteEnable : Bool
  dynamicStateEnables : List VkDynamicState
  deriving DecidableEq, Repr

/-- The statement `shaderStages[k].pSpecializationInfo = &specializationInfo`. -/
def setSpecializationInfo (k : Nat) (specializationInfo : VkSpecializationInfo)
    (shaderStages : List (Option VkPipelineShaderStageCreateInfo)) :
    List (Option VkPipelineShaderStageCreateInfo) :=
  shaderStages.set k
    ((shaderStages.getD k none).map fun stage =>
      { stage with pSpecializationInfo := some specializationInfo })

/-- State of `pipelineCreateInfo` and the structs it points at before the first block:
the initialisers, then the empty vertex input state and front-face culling of the
full-screen passes. -/
def initialPipelineCreateInfo : GraphicsPipelineCreateInfo :=
  { layout := .composition
    pNext := none
    stageCount := 2
    shaderStages := [none, none]
    pVertexInputState := some .empty
    cullMode := VK_CULL_MODE_FRONT_BIT
    blendAttachmentCount := 1
    blendAttachments := [⟨0xf, false⟩]
    depthTestEnable := true
    depthWriteEnable := true
    dynamicStateEnables := [.VK_DYNAMIC_STATE_VIEWPORT, .VK_DYNAMIC_STATE_SCISSOR] }

/-- First block: "Final composition pipeline". -/
def compositionPipelineInfo
    (loadShader : String → VkShaderStageFlags → VkPipelineShaderStageCreateInfo)
    (swapChainColorFormat depthFormat : VkFormat) (info : GraphicsPipelineCreateInfo) :
    GraphicsPipelineCreateInfo :=
  { info with
    pNext := some
      { colorAttachmentCount := 1
        pColorAttachmentFormats := [swapChainColorFormat]
        depthAttachmentFormat := depthFormat
        stencilAttachmentFormat := depthFormat }
    shaderStages :=
      (info.shaderStages.set 0
        (some (loadShader "ssao/fullscreen.vert.spv" VK_SHADER_STAGE_VERTEX_BIT))).set 1
        (some (loadShader "ssao/composition.frag.spv" VK_SHADER_STAGE_FRAGMENT_BIT)) }

/-- The `specializationInfo` local of the SSAO block. -/
def ssaoSpecializationInfo : VkSpecializationInfo :=
  { mapEntryCount := 2
    pMapEntries :=
      [ ⟨0, SpecializationData.offsetof_kernelSize, SpecializationData.sizeof_kernelSize⟩,
        ⟨1, SpecializationData.offsetof_radius, SpecializationData.sizeof_radius⟩ ]
    dataSize := SpecializationData.sizeof
    pData := { kernelSize := SSAO_KERNEL_SIZE, radius := SSAO_RADIUS } }

/-- Second block: "SSAO generation pipeline". -/
def ssaoPipelineInfo
    (loadShader : String → VkShaderStageFlags → VkPipelineShaderStageCreateInfo)
    (attachments : Attachments) (info : GraphicsPipelineCreateInfo) :
    GraphicsPipelineCreateInfo :=
  { info with
    pNext := some
      { colorAttachmentCount := 1
        pColorAttachmentFormats := [attachments.ssaoColor.format]
        depthAttachmentFormat := VK_FORMAT_UNDEFINED
        stencilAttachmentFormat := VK_FORMAT_UNDEFINED }
    layout := .ssao
    shaderStages :=
      setSpecializationInfo 1 ssaoSpecializationInfo
        (info.shaderStages.set 1
          (some (loadShader "ssao/ssao.frag.spv" VK_SHADER_STAGE_FRAGMENT_BIT))) }

/-- Third block: "SSAO blur pipeline". -/
def ssaoBlurPipelineInfo
    (loadShader : String → VkShaderStageFlags → VkPipelineShaderStageCreateInfo)
    (attachments : Attachments) (info : GraphicsPipelineCreateInfo) :
    GraphicsPipelineCreateInfo :=
  { info with
    pNext := some
      { colorAttachmentCount := 1
        pColorAttachmentFormats := [attachments.ssaoBlurColor.format]
        depthAttachmentFormat := VK_FORMAT_UNDEFINED
        stencilAttachmentFormat := VK_FORMAT_UNDEFINED }
    layout := .ssaoBlur
    shaderStages :=
      info.shaderStages.set 1
        (some (loadShader "ssao/blur.frag.spv" VK_SHADER_STAGE_FRAGMENT_BIT)) }

/-- Fourth block: "Fill G-Buffer pipeline". -/
def offscreenPipelineInfo
    (loadShader : String → VkShaderStageFlags → VkPipelineShaderStageCreateInfo)
    (attachments : Attachments) (depthFormat : VkFormat) (info : GraphicsPipelineCreateInfo) :
    GraphicsPipelineCreateInfo :=
  let formats : List VkFormat :=
    [ attachments.offscreenPosition.format,
      attachments.offscreenNormal.format,
      attachments.offscreenAlbedo.format ]
  let blendAttachmentStates : List VkPipelineColorBlendAttachmentState :=
    [⟨0xf, false⟩, ⟨0xf, false⟩, ⟨0xf, false⟩]
  { info with
    pNext := some
      { colorAttachmentCount := 3
        pColorAttachmentFormats := formats
        depthAttachmentFormat := depthFormat
        stencilAttachmentFormat := depthFormat }
    pVertexInputState := some (.gltf [.Position, .UV, .Color, .Normal])
    layout := .gBuffer
    blendAttachmentCount := blendAttachmentStates.length
    blendAttachments := blendAttachmentStates
    cullMode := VK_CULL_MODE_BACK_BIT
    shaderStages :=
      (info.shaderStages.set 0
        (some (loadShader "ssao/gbuffer.vert.spv" VK_SHADER_STAGE_VERTEX_BIT))).set 1
        (some (loadShader "ssao/gbuffer.frag.spv" VK_SHADER_STAGE_FRAGMENT_BIT)) }

/-- `preparePipelines`: the pipelines created, in source order, each with the create info
in force at its `vkCreateGraphicsPipelines` call; every block works on the state the
block before left behind.  `loadShader` is the loader of the base class; the attachment
formats are those recorded by `createAttachment`, and `swapChainColorFormat`,
`depthFormat` are members of the base class. -/
def preparePipelines
    (loadShader : String → VkShaderStageFlags → VkPipelineShaderStageCreateInfo)
    (attachments : Attachments) (swapChainColorFormat depthFormat : VkFormat) :
    List (Pipeline × GraphicsPipelineCreateInfo) :=
  let composition :=
    compositionPipelineInfo loadShader swapChainColorFormat depthFormat
      initialPipelineCreateInfo
  let ssao := ssaoPipelineInfo loadShader attachments composition
  let ssaoBlur := ssaoBlurPipelineInfo loadShader attachments ssao
  let offscreen := offscreenPipelineInfo loadShader attachments depthFormat ssaoBlur
  [ (.composition, composition), (.ssao, ssao), (.ssaoBlur, ssaoBlur), (.offscreen, offscreen) ]

/-- The create info a pipeline was created with. -/
def createInfoOf (ps : List (Pipeline × GraphicsPipelineCreateInfo)) (p : Pipeline) :
    Option GraphicsPipelineCreateInfo :=
  (ps.find? fun e => e.1 = p).map (·.2)

/-- The set layout a descriptor set was allocated with. -/
def setLayoutOf (d : LayoutsAndDescriptors) (set : DescriptorSet) : Option DescriptorSetLayout :=
  (d.allocations.find? fun e => e.1 = set).map (·.2)

/-- The set layouts a pipeline layout was created from. -/
def setLayoutsOf (d : LayoutsAndDescriptors) (l : PipelineLayout) : List SetLayoutRef :=
  ((d.pipelineLayouts.find? fun e => e.1 = l).map (·.2)).getD []

/-- The bindings a set layout was created with. -/
def bindingsOf (d : LayoutsAndDescriptors) (l : DescriptorSetLayout) :
    List VkDescriptorSetLayoutBinding :=
  ((d.setLayouts.find? fun e => e.1 = l).map (·.2)).getD []

/-- The writes made to a descriptor set, in order. -/
def writesTo (d : LayoutsAndDescriptors) (set : DescriptorSet) : List VkWriteDescriptorSet :=
  d.writes.filter fun w => w.dstSet = set

/-! ## prepareUniformBuffers: sample kernel and noise

`float` values are elements of a field `F` with exact arithmetic; rounding is not
modelled.  `glm::normalize` is library code and enters as a parameter `glmNormalize`;
`normalize sqrt` is its definition over exact arithmetic.  The state of `rndEngine` under
`rndDist` is the sequence of values the coming draws return.  C++ does not fix the order
in which the arguments of one constructor call are evaluated, so the loops take that order
as a parameter too. -/

structure Vec3 (F : Type) where
  x : F
  y : F
  z : F
  deriving DecidableEq, Repr

structure Vec4 (F : Type) where
  x : F
  y : F
  z : F
  w : F
  deriving DecidableEq, Repr

/-- The product `glm::dot(a, b)`. -/
def Vec3.dot {F : Type} [Field F] (a b : Vec3 F) : F := a.x * b.x + a.y * b.y + a.z * b.z

/-- The product `v * s` of a vector and a scalar. -/
def Vec3.scale {F : Type} [Field F] (v : Vec3 F) (s : F) : Vec3 F := ⟨v.x * s, v.y * s, v.z * s⟩

/-- The function `glm::length`. -/
def Vec3.length {F : Type} [Field F] (sqrt : F → F) (v : Vec3 F) : F := sqrt (v.dot v)

/-- The function `glm::normalize` over exact arithmetic: `v * inversesqrt(dot(v, v))`.  At
the zero vector the field convention `1 / 0 = 0` applies, where binary32 yields NaN. -/
def normalize {F : Type} [Field F] (sqrt : F → F) (v : Vec3 F) : Vec3 F :=
  v.scale (1 / sqrt (v.dot v))

def lerp {F : Type} [Field F] (a b f : F) : F := a + f * (b - a)

/-- One call `rndDist(rndEngine)`: the value drawn and the engine state after it. -/
def rndDist {F : Type} (rndEngine : Nat → F) : F × (Nat → F) :=
  (rndEngine 0, fun n => rndEngine (n + 1))

/-- An order of evaluation for the `n` drawing arguments of one constructor call:
argument `k` is the `order k`-th of them to be evaluated, counting from 0, so it receives
the `order k`-th draw of the call.  The identity is left to right, `Fin.revPerm` right to
left.  The call is compiled once, so one order serves every round of the loop around
it. -/
abbrev ArgOrder (n : Nat) : Type := Equiv.Perm (Fin n)

/-- The values of three successive draws, by the time at which they were drawn. -/
def drawn3 {F : Type} (t0 t1 t2 : F) : Fin 3 → F
  | 0 => t0
  | 1 => t1
  | 2 => t2

/-- The values of two successive draws, by the time at which they were drawn. -/
def drawn2 {F : Type} (t0 t1 : F) : Fin 2 → F
  | 0 => t0
  | 1 => t1

/-- Body of the kernel loop for index `i`: the entry `ssaoKernel[i]` and the engine state
after its four draws.  The three arguments of `glm::vec3(...)` each draw once, in the order
`order`; the fourth draw is a statement of its own after `glm::normalize`. -/
def kernelSample {F : Type} [Field F] (order : ArgOrder 3) (glmNormalize : Vec3 F → Vec3 F)
    (i : Nat) (rndEngine : Nat → F) : Vec4 F × (Nat → F) :=
  let (t0, rndEngine) := rndDist rndEngine
  let (t1, rndEngine) := rndDist rndEngine
  let (t2, rndEngine) := rndDist rndEngine
  let x := drawn3 t0 t1 t2 (order 0) * 2 - 1
  let y := drawn3 t0 t1 t2 (order 1) * 2 - 1
  let z := drawn3 t0 t1 t2 (order 2)
  let sample : Vec3 F := ⟨x, y, z⟩
  let sample := glmNormalize sample
  let (d, rndEngine) := rndDist rndEngine
  let sample := sample.scale d
  let scale : F := (i : F) / (SSAO_KERNEL_SIZE : F)
  let scale := lerp (1 / 10) 1 (scale * scale)
  (⟨sample.x * scale, sample.y * scale, sample.z * scale, 0⟩, rndEngine)

/-- The kernel loop from index `i` with `remaining = SSAO_KERNEL_SIZE - i` rounds to go. -/
def kernelLoop {F : Type} [Field F] (order : ArgOrder 3) (glmNormalize : Vec3 F → Vec3 F) :
    Nat → Nat → (Nat → F) → List (Vec4 F) × (Nat → F)
  | 0, _, rndEngine => ([], rndEngine)
  | remaining + 1, i, rndEngine =>
      let (sample, rndEngine) := kernelSample order glmNormalize i rndEngine
      let (rest, rndEngine) := kernelLoop order glmNormalize remaining (i + 1) rndEngine
      (sample :: rest, rndEngine)

/-- The `ssaoKernel` vector after its loop, and the engine state left for the noise. -/
def ssaoKernel {F : Type} [Field F] (order : ArgOrder 3) (glmNormalize : Vec3 F → Vec3 F)
    (rndEngine : Nat → F) : List (Vec4 F) × (Nat → F) :=
  kernelLoop order glmNormalize SSAO_KERNEL_SIZE 0 rndEngine

/-- `SSAO_NOISE_DIM`: 8 when `__ANDROID__` is defined, 4 otherwise. -/
def SSAO_NOISE_DIM (android : Bool) : Nat := if android then 8 else 4

/-- Body of the noise loop: one entry of `ssaoNoise` and the engine state after its two
draws.  The first two arguments of `glm::vec4(...)` each draw once, in the order
`order`; the other two are constants. -/
def noiseSample {F : Type} [Field F] (order : ArgOrder 2) (rndEngine : Nat → F) :
    Vec4 F × (Nat → F) :=
  let (t0, rndEngine) := rndDist rndEngine
  let (t1, rndEngine) := rndDist rndEngine
  let x := drawn2 t0 t1 (order 0) * 2 - 1
  let y := drawn2 t0 t1 (order 1) * 2 - 1
  (⟨x, y, 0, 0⟩, rndEngine)

/-- The noise loop with `remaining` entries to go. -/
def noiseLoop {F : Type} [Field F] (order : ArgOrder 2) :
    Nat → (Nat → F) → List (Vec4 F) × (Nat → F)
  | 0, rndEngine => ([], rndEngine)
  | remaining + 1, rndEngine =>
      let (sample, rndEngine) := noiseSample order rndEngine
      let (rest, rndEngine) := noiseLoop order remaining rndEngine
      (sample :: rest, rndEngine)

/-- The `ssaoNoise` vector (`SSAO_NOISE_DIM * SSAO_NOISE_DIM` entries) after its loop. -/
def ssaoNoise {F : Type} [Field F] (android : Bool) (order : ArgOrder 2)
    (rndEngine : Nat → F) : List (Vec4 F) × (Nat → F) :=
  noiseLoop order (SSAO_NOISE_DIM android * SSAO_NOISE_DIM android) rndEngine

inductive VkFilter
  | VK_FILTER_NEAREST | VK_FILTER_LINEAR
  deriving DecidableEq, Repr

/-- Byte size of `glm::vec4`: four 4-byte floats. -/
def sizeof_vec4 : Nat := 16

/-- Size and data of the `createBuffer` call for `uniformBuffers.ssaoKernel`. -/
structure KernelBuffer (F : Type) where
  size : Nat
  data : List (Vec4 F)

/-- Arguments of `textures.ssaoNoise.fromBuffer(buffer, bufferSize, format, texWidth,
texHeight, device, queue, filter)`. -/
structure NoiseTexture (F : Type) where
  buffer : List (Vec4 F)
  bufferSize : Nat
  format : VkFormat
  texWidth : Nat
  texHeight : Nat
  filter : VkFilter

/-- The SSAO part of `prepareUniformBuffers`: the kernel is generated and uploaded as a
uniform buffer, then the noise is generated with the same engine and uploaded as a
texture.  `kernelOrder` and `noiseOrder` are the orders in which the build evaluates the
drawing arguments of the two constructor calls. -/
def prepareUniformBuffers {F : Type} [Field F] (android : Bool) (kernelOrder : ArgOrder 3)
    (noiseOrder : ArgOrder 2) (glmNormalize : Vec3 F → Vec3 F) (rndEngine : Nat → F) :
    KernelBuffer F × NoiseTexture F :=
  let (ssaoKernel, rndEngine) := ssaoKernel kernelOrder glmNormalize rndEngine
  let kernelBuffer : KernelBuffer F :=
    { size := ssaoKernel.length * sizeof_vec4, data := ssaoKernel }
  let (ssaoNoise, _) := ssaoNoise android noiseOrder rndEngine
  let noiseTexture : NoiseTexture F :=
    { buffer := ssaoNoise
      bufferSize := ssaoNoise.length * sizeof_vec4
      format := VK_FORMAT_R32G32B32A32_SFLOAT
      texWidth := SSAO_NOISE_DIM android
      texHeight := SSAO_NOISE_DIM android
      filter := .VK_FILTER_NEAREST }
  (kernelBuffer, noiseTexture)

/-- The fall-off weight in the words of the specification:
`w(i) = 0.1 + 0.9 * (i / 64)^2`. -/
def falloffWeight {F : Type} [Field F] (i : Nat) : F := 1 / 10 + 9 / 10 * ((i : F) / 64) ^ 2

/-- The draw that argument `k` of the constructor call of kernel sample `i` receives:
one of the draws `4i`, `4i + 1`, `4i + 2` of the stream, as the order of evaluation has
it. -/
def kernelDraw {F : Type} (order : ArgOrder 3) (r : Nat → F) (i : Nat) (k : Fin 3) : F :=
  r (4 * i + (order k).val)

/-- The vector of sample `i` before normalisation, in the words of the specification:
`(2a - 1, 2b - 1, c)` for the draws `a`, `b`, `c` that feed `x`, `y` and `z`. -/
def preNormal {F : Type} [Field F] (order : ArgOrder 3) (r : Nat → F) (i : Nat) : Vec3 F :=
  ⟨2 * kernelDraw order r i 0 - 1, 2 * kernelDraw order r i 1 - 1, kernelDraw order r i 2⟩

/-- Kernel sample `i` in the words of the specification:
`(normalize(2a - 1, 2b - 1, c) * d * w(i), 0)`, with `d` the fourth draw of sample `i` and
`w(i) = lerp(0.1, 1.0, (i / 64)^2)`. -/
def kernelReference {F : Type} [Field F] (order : ArgOrder 3) (glmNormalize : Vec3 F → Vec3 F)
    (r : Nat → F) (i : Nat) : Vec4 F :=
  let n := glmNormalize (preNormal order r i)
  let d := r (4 * i + 3)
  let w := lerp (1 / 10) 1 (((i : F) / 64) ^ 2)
  ⟨n.x * d * w, n.y * d * w, n.z * d * w, 0⟩

/-- The vector that the body of the kernel loop hands to `glm::normalize` for sample `i`:
the `sample` local as constructed. -/
def sampleConstructed {F : Type} [Field F] (order : ArgOrder 3) (r : Nat → F) (i : Nat) :
    Vec3 F :=
  ⟨kernelDraw order r i 0 * 2 - 1, kernelDraw order r i 1 * 2 - 1, kernelDraw order r i 2⟩

/-- The sample of index `i` before the fall-off scaling: the `sample` local after
`sample *= rndDist(rndEngine)`. -/
def sampleBeforeFalloff {F : Type} [Field F] (order : ArgOrder 3)
    (glmNormalize : Vec3 F → Vec3 F) (r : Nat → F) (i : Nat) : Vec3 F :=
  (glmNormalize (sampleConstructed order r i)).scale (r (4 * i + 3))

/-- The `xyz` part of a `vec4`. -/
def Vec4.xyz {F : Type} (v : Vec4 F) : Vec3 F := ⟨v.x, v.y, v.z⟩

/-- A stream of draws in `[0, 1)`: every draw is `1/2` except draw 7, the fourth draw of
kernel sample 1, which is `0`. -/
def dipStream {F : Type} [Field F] : Nat → F := fun n => if n = 7 then 0 else 1 / 2

/-- The shader loader of the base class as the example relies on it: a stage info for the
module of the file and the given stage, pointing at no specialization info. -/
def baseLoadShader (fileName : String) (stage : VkShaderStageFlags) :
    VkPipelineShaderStageCreateInfo :=
  ⟨stage, fileName, none⟩

/-- The specialization info each shader stage of a pipeline points at. -/
def GraphicsPipelineCreateInfo.specializations (info : GraphicsPipelineCreateInfo) :
    List (Option VkSpecializationInfo) :=
  info.shaderStages.map fun stage => stage.bind (·.pSpecializationInfo)

/-- The byte ranges `[offset, offset + size)` of two map entries do not overlap. -/
def VkSpecializationMapEntry.disjoint (a b : VkSpecializationMapEntry) : Prop :=
  a.offset + a.size ≤ b.offset ∨ b.offset + b.size ≤ a.offset

instance (a b : VkSpecializationMapEntry) : Decidable (a.disjoint b) :=
  inferInstanceAs (Decidable (a.offset + a.size ≤ b.offset ∨ b.offset + b.size ≤ a.offset))

/-! ## Uniform parameter blocks -/

/-- The type `glm::mat4`. -/
abbrev Mat4 (F : Type) := Fin 4 → Fin 4 → F

/-- The matrix `glm::mat4(1.0f)`. -/
def Mat4.identity {F : Type} [Zero F] [One F] : Mat4 F := fun i j => if i = j then 1 else 0

/-- The members of `camera.matrices` the example reads. -/
structure CameraMatrices (F : Type) where
  perspective : Mat4 F
  view : Mat4 F

structure UBOSceneParams (F : Type) where
  projection : Mat4 F
  model : Mat4 F
  view : Mat4 F
  nearPlane : F
  farPlane : F

/-- The toggles are `int32_t` members. -/
structure UBOSSAOParams (F : Type) where
  projection : Mat4 F
  ssao : Int
  ssaoOnly : Int
  ssaoBlur : Int

inductive BufferCall
  | map | copyTo | unmap
  deriving DecidableEq, Repr

/-- A `vks::Buffer` holding a block of type `α`: whether its memory is mapped, the block
last copied into it, and the calls made on it so far. -/
structure Buffer (α : Type) where
  mapped : Bool
  contents : Option α
  calls : List BufferCall

/-- The call `map()`, taken to succeed (`VK_CHECK_RESULT`). -/
def Buffer.map {α : Type} (b : Buffer α) : Buffer α :=
  { b with mapped := true, calls := b.calls ++ [.map] }

/-- The call `copyTo(&data, sizeof(data))`: copies the block into the mapped memory. -/
def Buffer.copyTo {α : Type} (b : Buffer α) (data : α) : Buffer α :=
  { b with
    contents := if b.mapped then some data else b.contents
    calls := b.calls ++ [.copyTo] }

/-- The call `unmap()`. -/
def Buffer.unmap {α : Type} (b : Buffer α) : Buffer α :=
  { b with mapped := false, calls := b.calls ++ [.unmap] }

/-- The members the update functions read and write. -/
structure UniformState (F : Type) where
  camera : CameraMatrices F
  uboSceneParams : UBOSceneParams F
  uboSSAOParams : UBOSSAOParams F
  sceneParams : Buffer (UBOSceneParams F)
  ssaoParams : Buffer (UBOSSAOParams F)

def updateUniformBufferMatrices {F : Type} [Zero F] [One F] (s : UniformState F) :
    UniformState F :=
  let uboSceneParams :=
    { s.uboSceneParams with
      projection := s.camera.perspective
      view := s.camera.view
      model := Mat4.identity }
  { s with
    uboSceneParams := uboSceneParams
    sceneParams := ((s.sceneParams.map).copyTo uboSceneParams).unmap }

def updateUniformBufferSSAOParams {F : Type} (s : UniformState F) : UniformState F :=
  let uboSSAOParams := { s.uboSSAOParams with projection := s.camera.perspective }
  { s with
    uboSSAOParams := uboSSAOParams
    ssaoParams := ((s.ssaoParams.map).copyTo uboSSAOParams).unmap }

/-! ## Teardown -/

/-- One release call of the destructor. -/
inductive DestroyCall
  | destroySampler (s : Sampler)
  | destroyImage (image : VkImage)
  | destroyImageView (view : VkImageView)
  | freeMemory (mem : VkDeviceMemory)
  | destroyPipeline (p : Pipeline)
  | destroyPipelineLayout (l : PipelineLayout)
  | destroyDescriptorSetLayout (l : DescriptorSetLayout)
  | destroyBuffer (b : UniformBuffer)
  | destroyNoiseTexture
  deriving DecidableEq, Repr

/-- The method `ColorAttachment::destroy`. -/
def ColorAttachment.destroy (a : ColorAttachment) : List DestroyCall :=
  [.destroyImage a.image, .destroyImageView a.view, .freeMemory a.mem]

/-- The destructor `~VulkanExample`, call by call. -/
def destroyVulkanExample (attachments : Attachments) : List DestroyCall :=
  [.destroySampler .colorSampler]
    -- Attachments
    ++ attachments.offscreenPosition.destroy
    ++ attachments.offscreenNormal.destroy
    ++ attachments.offscreenAlbedo.destroy
    ++ attachments.ssaoColor.destroy
    ++ attachments.ssaoBlurColor.destroy
    ++ [ .destroyPipeline .offscreen,
         .destroyPipeline .composition,
         .destroyPipeline .ssao,
         .destroyPipeline .ssaoBlur,
         .destroyPipelineLayout .gBuffer,
         .destroyPipelineLayout .ssao,
         .destroyPipelineLayout .ssaoBlur,
         .destroyPipelineLayout .composition,
         .destroyDescriptorSetLayout .gBuffer,
         .destroyDescriptorSetLayout .ssao,
         .destroyDescriptorSetLayout .ssaoBlur,
         .destroyDescriptorSetLayout .composition,
         -- Uniform buffers
         .destroyBuffer .sceneParams,
         .destroyBuffer .ssaoKernel,
         .destroyBuffer .ssaoParams,
         .destroyNoiseTexture ]

def DestroyCall.image? : DestroyCall → Option VkImage
  | .destroyImage i => some i
  | _ => none

def DestroyCall.view? : DestroyCall → Option VkImageView
  | .destroyImageView v => some v
  | _ => none

def DestroyCall.mem? : DestroyCall → Option VkDeviceMemory
  | .freeMemory m => some m
  | _ => none

/-! ## setupDescriptorPool -/

/-- Arguments of `descriptorPoolSize(type, descriptorCount)`. -/
structure VkDescriptorPoolSize where
  type : VkDescriptorType
  descriptorCount : Nat
  deriving DecidableEq, Repr

/-- Arguments of `descriptorPoolCreateInfo(poolSizes, maxSets)`. -/
structure VkDescriptorPoolCreateInfo where
  poolSizes : List VkDescriptorPoolSize
  maxSets : Nat
  deriving DecidableEq, Repr

/-- The member `descriptorSets.count`. -/
def descriptorSetsCount : Nat := 5

def setupDescriptorPool : VkDescriptorPoolCreateInfo :=
  { poolSizes :=
      [ ⟨VK_DESCRIPTOR_TYPE_UNIFORM_BUFFER, 10⟩,
        ⟨VK_DESCRIPTOR_TYPE_COMBINED_IMAGE_SAMPLER, 12⟩ ]
    maxSets := descriptorSetsCount }

/-- Descriptors of type `t` a pool provides. -/
def VkDescriptorPoolCreateInfo.capacity (pool : VkDescriptorPoolCreateInfo)
    (t : VkDescriptorType) : Nat :=
  ((pool.poolSizes.filter fun s => s.type = t).map (·.descriptorCount)).sum

/-- Descriptors of type `t` a list of bindings asks for; `descriptorSetLayoutBinding`
gives every binding the descriptor count 1. -/
def descriptorDemand (bindings : List VkDescriptorSetLayoutBinding) (t : VkDescriptorType) :
    Nat :=
  (bindings.filter fun b => b.descriptorType = t).length

/-- Descriptors of type `t` asked for by all sets allocated by
`setupLayoutsAndDescriptors`. -/
def allocatedDemand (d : LayoutsAndDescriptors) (t : VkDescriptorType) : Nat :=
  (d.allocations.map fun e => descriptorDemand (bindingsOf d e.2) t).sum

/-! ## Scope bracketing and formats -/

/-- The stream is well bracketed, read from a point inside (`true`) or outside (`false`) a
rendering scope: a scope begins only outside and ends only inside, barriers and the begin
and end of the command buffer lie outside, binds, viewport, scissor and draws lie inside,
and the stream ends outside. -/
def wellBracketed : Bool → List Cmd → Bool
  | inside, [] => !inside
  | inside, .beginRendering _ :: cs => !inside && wellBracketed true cs
  | inside, .endRendering :: cs => inside && wellBracketed false cs
  | inside, .insertImageMemoryBarrier _ :: cs => !inside && wellBracketed inside cs
  | inside, .beginCommandBuffer :: cs => !inside && wellBracketed inside cs
  | inside, .endCommandBuffer :: cs => !inside && wellBracketed inside cs
  | inside, _ :: cs => inside && wellBracketed inside cs

/-- Commands that belong inside a rendering scope: binds, viewport, scissor and draws. -/
def Cmd.isScoped : Cmd → Bool
  | .bindPipeline _ => true
  | .setViewport _ => true
  | .setScissor _ => true
  | .bindDescriptorSets _ _ _ => true
  | .sceneDraw _ => true
  | .draw _ _ _ _ => true
  | .drawUI => true
  | _ => false

def Cmd.isBarrier : Cmd → Bool
  | .insertImageMemoryBarrier _ => true
  | _ => false

/-- The format of the image behind a view: the format `createAttachment` gave the view of
an off-screen attachment, `swapChain.colorFormat` for a swapchain view and `depthFormat`
for the depth/stencil view (both set up by the base class). -/
def viewFormat (a : Attachments) (swapChainColorFormat depthFormat : VkFormat) :
    VkImageView → VkFormat
  | ⟨.depthStencil⟩ => depthFormat
  | ⟨.offscreenPosition⟩ => a.offscreenPosition.viewInfo.format
  | ⟨.offscreenNormal⟩ => a.offscreenNormal.viewInfo.format
  | ⟨.offscreenAlbedo⟩ => a.offscreenAlbedo.viewInfo.format
  | ⟨.ssaoColor⟩ => a.ssaoColor.viewInfo.format
  | ⟨.ssaoBlurColor⟩ => a.ssaoBlurColor.viewInfo.format
  | ⟨.swapChainBuffer _⟩ => swapChainColorFormat

/-! ## homework1.cpp -/

namespace Homework1

/-- A `VkPipeline` handle of the homework: `VK_NULL_HANDLE`, or the handle a call of
`vkCreateGraphicsPipelines` wrote for the solid or the wireframe pipeline. -/
inductive VkPipeline
  | VK_NULL_HANDLE
  | solidHandle
  | wireframeHandle
  deriving DecidableEq, Repr

/-- The `Pipelines` struct; `solid` holds no handle before `preparePipelines`, and
`wireframe` is initialised to `VK_NULL_HANDLE`. -/
structure Pipelines where
  solid : Option VkPipeline
  wireframe : VkPipeline
  deriving DecidableEq, Repr

/-- The `pipelines` member before `preparePipelines` runs. -/
def initialPipelines : Pipelines := { solid := none, wireframe := .VK_NULL_HANDLE }

/-- `preparePipelines`: the solid pipeline is always created, the wireframe pipeline only
when `deviceFeatures.fillModeNonSolid` is set. -/
def preparePipelines (fillModeNonSolid : Bool) (pipelines : Pipelines) : Pipelines :=
  let pipelines := { pipelines with solid := some .solidHandle }
  if fillModeNonSolid then { pipelines with wireframe := .wireframeHandle } else pipelines

/-- One call recorded on a command buffer of the homework. -/
inductive Cmd
  | beginCommandBuffer
  | beginRenderPass (framebuffer : Nat) (renderArea : VkRect2D)
  | setViewport (v : VkViewport)
  | setScissor (r : VkRect2D)
  | bindPipeline (p : Option VkPipeline)
  | bindDescriptorSets (firstSet : Nat) (setCount : Nat)
  | modelDraw
  | drawUI
  | endRenderPass
  | endCommandBuffer
  deriving DecidableEq, Repr

/-- Body of the loop of `buildCommandBuffers` for `drawCmdBuffers[i]`. -/
def recordCommandBuffer (width height : Nat) (wireframe : Bool) (pipelines : Pipelines)
    (i : Nat) : List Cmd :=
  [ .beginCommandBuffer,
    .beginRenderPass i ⟨0, 0, width, height⟩,
    .setViewport ⟨width, height, 0, 1⟩,
    .setScissor ⟨0, 0, width, height⟩,
    .bindPipeline (if wireframe then some pipelines.wireframe else pipelines.solid),
    .bindDescriptorSets 0 1,
    .modelDraw,
    .drawUI,
    .endRenderPass,
    .endCommandBuffer ]

def buildCommandBuffers (width height count : Nat) (wireframe : Bool) (pipelines : Pipelines) :
    List (List Cmd) :=
  (List.range count).map (recordCommandBuffer width height wireframe pipelines)

/-- The pipeline a command binds, if it is a pipeline bind. -/
def Cmd.boundPipeline : Cmd → Option (Option VkPipeline)
  | .bindPipeline p => some p
  | _ => none

/-- The members of the homework the overlay callback reads and writes. -/
structure State where
  width : Nat
  height : Nat
  fillModeNonSolid : Bool
  wireframe : Bool
  pipelines : Pipelines
  drawCmdBuffers : List (List Cmd)
  deriving DecidableEq, Repr

/-- The part of `prepare` that matters here: on a device with the given features and
`count` command buffers, `preparePipelines` and then `buildCommandBuffers` with the
initial `wireframe = false`. -/
def prepare (fillModeNonSolid : Bool) (width height count : Nat) : State :=
  let pipelines := preparePipelines fillModeNonSolid initialPipelines
  { width := width
    height := height
    fillModeNonSolid := fillModeNonSolid
    wireframe := false
    pipelines := pipelines
    drawCmdBuffers := buildCommandBuffers width height count false pipelines }

/-- What the UI overlay answers: whether a header is open, and for a check box on a
`bool` whether it reports a change and the value it leaves behind. -/
structure UIOverlay where
  header : String → Bool
  checkBox : String → Bool → Bool × Bool

def OnUpdateUIOverlay (overlay : UIOverlay) (s : State) : State :=
  if overlay.header "Settings" then
    let r := overlay.checkBox "Wireframe" s.wireframe
    let s := { s with wireframe := r.2 }
    if r.1 then
      { s with
        drawCmdBuffers :=
          buildCommandBuffers s.width s.height s.drawCmdBuffers.length s.wireframe s.pipelines }
    else s
  else s

/-- An overlay with the settings header open whose wireframe check box is clicked: it
reports a change and leaves the flipped value. -/
def clickWireframe : UIOverlay :=
  { header := fun _ => true
    checkBox := fun _ value => (true, !value) }

def setupDescriptorPool : VkDescriptorPoolCreateInfo :=
  { poolSizes := [⟨.VK_DESCRIPTOR_TYPE_UNIFORM_BUFFER, 1⟩]
    maxSets := 2 }

/-- The bindings of `descriptorSetLayout` in `setupDescriptorSetLayout`. -/
def setLayoutBindings : List VkDescriptorSetLayoutBinding :=
  [⟨.VK_DESCRIPTOR_TYPE_UNIFORM_BUFFER, VK_SHADER_STAGE_VERTEX_BIT, 0⟩]

/-- The sets `setupDescriptorSet` allocates from `descriptorPool`, each with the bindings
of its layout: the one `descriptorSet`, allocated with `descriptorSetLayout`. -/
def setupDescriptorSet : List (List VkDescriptorSetLayoutBinding) := [setLayoutBindings]

end Homework1

/-! ## Parameter blocks at start-up, the overlay callback and the seed -/

/-- The `uboSceneParams` member as constructed: `nearPlane = 0.1f`, `farPlane = 64.0f`;
`m` stands for the matrices, which the constructor leaves unset. -/
def initialUBOSceneParams {F : Type} [Field F] (m : Mat4 F) : UBOSceneParams F :=
  { projection := m, model := m, view := m, nearPlane := 1 / 10, farPlane := 64 }

/-- The `uboSSAOParams` member as constructed: `ssao = true`, `ssaoOnly = false`,
`ssaoBlur = true`. -/
def initialUBOSSAOParams {F : Type} (m : Mat4 F) : UBOSSAOParams F :=
  { projection := m, ssao := 1, ssaoOnly := 0, ssaoBlur := 1 }

/-- The state in `prepareUniformBuffers` after the two `createBuffer` calls for
`uniformBuffers.sceneParams` and `uniformBuffers.ssaoParams` and before the first update:
both buffers exist, are not mapped and hold no block. -/
def createdUniformState {F : Type} [Field F] (camera : CameraMatrices F) (m : Mat4 F) :
    UniformState F :=
  { camera := camera
    uboSceneParams := initialUBOSceneParams m
    uboSSAOParams := initialUBOSSAOParams m
    sceneParams := { mapped := false, contents := none, calls := [] }
    ssaoParams := { mapped := false, contents := none, calls := [] } }

/-- What the UI overlay answers: whether a header is open, and for a check box on an
`int32_t` with the given caption and current value whether it reports a change and the
value it leaves behind. -/
structure UIOverlay where
  header : String → Bool
  checkBox : String → Int → Bool × Int

/-- The statement `if (overlay->checkBox("Enable SSAO", &uboSSAOParams.ssao))
updateUniformBufferSSAOParams();`. -/
def checkBoxEnableSSAO {F : Type} (overlay : UIOverlay) (s : UniformState F) : UniformState F :=
  let r := overlay.checkBox "Enable SSAO" s.uboSSAOParams.ssao
  let s := { s with uboSSAOParams := { s.uboSSAOParams with ssao := r.2 } }
  if r.1 then updateUniformBufferSSAOParams s else s

/-- The statement `if (overlay->checkBox("SSAO blur", &uboSSAOParams.ssaoBlur))
updateUniformBufferSSAOParams();`. -/
def checkBoxSSAOBlur {F : Type} (overlay : UIOverlay) (s : UniformState F) : UniformState F :=
  let r := overlay.checkBox "SSAO blur" s.uboSSAOParams.ssaoBlur
  let s := { s with uboSSAOParams := { s.uboSSAOParams with ssaoBlur := r.2 } }
  if r.1 then updateUniformBufferSSAOParams s else s

/-- The statement `if (overlay->checkBox("SSAO pass only", &uboSSAOParams.ssaoOnly))
updateUniformBufferSSAOParams();`. -/
def checkBoxSSAOOnly {F : Type} (overlay : UIOverlay) (s : UniformState F) : UniformState F :=
  let r := overlay.checkBox "SSAO pass only" s.uboSSAOParams.ssaoOnly
  let s := { s with uboSSAOParams := { s.uboSSAOParams with ssaoOnly := r.2 } }
  if r.1 then updateUniformBufferSSAOParams s else s

def OnUpdateUIOverlay {F : Type} (overlay : UIOverlay) (s : UniformState F) : UniformState F :=
  if overlay.header "Settings" then
    checkBoxSSAOOnly overlay (checkBoxSSAOBlur overlay (checkBoxEnableSSAO overlay s))
  else s

/-- An overlay with the settings header open in which every check box is clicked: it
reports a change and leaves the flipped value (`1 - value` for values 0 and 1). -/
def clickEveryCheckBox : UIOverlay :=
  { header := fun _ => true
    checkBox := fun _ value => (true, 1 - value) }

/-- The seed given to `rndEngine`: `benchmark.active ? 0 : (unsigned)time(nullptr)`. -/
def rndEngineSeed (benchmarkActive : Bool) (time : Nat) : Nat :=
  if benchmarkActive then 0 else time % 2 ^ 32

/-- The SSAO part of `prepareUniformBuffers` from the construction of `rndEngine` on;
`engine seed` is the sequence of values `rndDist` draws from an engine seeded with
`seed`. -/
def prepareUniformBuffersWithSeed {F : Type} [Field F] (engine : Nat → Nat → F)
    (android : Bool) (kernelOrder : ArgOrder 3) (noiseOrder : ArgOrder 2)
    (glmNormalize : Vec3 F → Vec3 F) (benchmarkActive : Bool) (time : Nat) :
    KernelBuffer F × NoiseTexture F :=
  prepareUniformBuffers android kernelOrder noiseOrder glmNormalize
    (engine (rndEngineSeed benchmarkActive time))

theorem buildCommandBuffers_getElem? {width height count i : Nat} {cs : List Cmd}
    (h : (buildCommandBuffers width height count)[i]? = some cs) :
    i < count ∧ cs = recordCommandBuffer width height i := by
  unfold buildCommandBuffers at h
  rw [List.getElem?_map] at h
  by_cases hi : i < count
  · rw [List.getElem?_range hi] at h
    simp at h
    exact ⟨hi, h.symm⟩
  · rw [List.getElem?_eq_none (by simpa using hi)] at h
    simp at h

/-- C1: for every swapchain image index `i`, the stream recorded for `drawCmdBuffers[i]`
holds exactly four rendering scopes; they bind `pipelines.offscreen`, `pipelines.ssao`,
`pipelines.ssaoBlur`, `pipelines.composition` in this order, one bind per scope, and each
pipeline is bound exactly once in the whole stream. -/
theorem C1_pass_order (width height count i : Nat) (cs : List Cmd)
    (h : (buildCommandBuffers width height count)[i]? = some cs) :
    (cs.filter Cmd.isBeginRendering).length = 4 ∧
    (cs.filter Cmd.isEndRendering).length = 4 ∧
    (scopes cs).length = 4 ∧
    (scopes cs).map Scope.pipelines = [[.offscreen], [.ssao], [.ssaoBlur], [.composition]] ∧
    cs.filterMap Cmd.boundPipeline = [.offscreen, .ssao, .ssaoBlur, .composition] ∧
    ∀ p : Pipeline, (cs.filterMap Cmd.boundPipeline).count p = 1 := by
  obtain ⟨-, rfl⟩ := buildCommandBuffers_getElem? h
  refine ⟨rfl, rfl, rfl, rfl, rfl, ?_⟩
  intro p
  cases p <;> rfl

theorem C1_pass_order_witness :
    (buildCommandBuffers 1280 720 3)[2]? = some (recordCommandBuffer 1280 720 2) ∧
    (scopes (recordCommandBuffer 1280 720 2)).map Scope.pipelines
      = [[.offscreen], [.ssao], [.ssaoBlur], [.composition]] :=
  ⟨rfl, (C1_pass_order 1280 720 3 2 _ rfl).2.2.2.1⟩

/-- C2: barrier completeness.  For each of the five off-screen attachments exactly one
barrier from the colour-attachment layout to the shader-read layout is recorded; some
scope has the attachment as colour target, the barrier comes after the end of every such
scope and before the begin of every scope whose bound descriptor set samples the
attachment; position, normal and ssao colour are each sampled by two scopes. -/
theorem C2_barrier_completeness (width height count i : Nat) (cs : List Cmd)
    (h : (buildCommandBuffers width height count)[i]? = some cs) :
    (∀ t ∈ offscreenAttachments, ∃ k,
      positions (Cmd.isReadBarrierOn ⟨t⟩) cs = [k] ∧
      (∃ s ∈ scopes cs, (⟨t⟩ : VkImageView) ∈ s.info.colorViews) ∧
      (∀ s ∈ scopes cs, (⟨t⟩ : VkImageView) ∈ s.info.colorViews → s.last < k) ∧
      (∃ s ∈ scopes cs, (⟨t⟩ : VkImageView) ∈ s.reads setupLayoutsAndDescriptors) ∧
      (∀ s ∈ scopes cs, (⟨t⟩ : VkImageView) ∈ s.reads setupLayoutsAndDescriptors → k < s.first)) ∧
    (∀ t ∈ [Target.offscreenPosition, Target.offscreenNormal, Target.ssaoColor],
      ((scopes cs).filter fun s =>
        decide ((⟨t⟩ : VkImageView) ∈ s.reads setupLayoutsAndDescriptors)).length = 2) := by
  obtain ⟨-, rfl⟩ := buildCommandBuffers_getElem? h
  constructor
  · intro t ht
    simp only [offscreenAttachments, List.mem_cons, List.mem_singleton, List.not_mem_nil,
      or_false] at ht
    rcases ht with rfl | rfl | rfl | rfl | rfl
    · exact ⟨12, rfl, of_decide_eq_true rfl, of_decide_eq_true rfl, of_decide_eq_true rfl,
        of_decide_eq_true rfl⟩
    · exact ⟨13, rfl, of_decide_eq_true rfl, of_decide_eq_true rfl, of_decide_eq_true rfl,
        of_decide_eq_true rfl⟩
    · exact ⟨14, rfl, of_decide_eq_true rfl, of_decide_eq_true rfl, of_decide_eq_true rfl,
        of_decide_eq_true rfl⟩
    · exact ⟨23, rfl, of_decide_eq_true rfl, of_decide_eq_true rfl, of_decide_eq_true rfl,
        of_decide_eq_true rfl⟩
    · exact ⟨32, rfl, of_decide_eq_true rfl, of_decide_eq_true rfl, of_decide_eq_true rfl,
        of_decide_eq_true rfl⟩
  · intro t ht
    simp only [List.mem_cons, List.mem_singleton, List.not_mem_nil, or_false] at ht
    rcases ht with rfl | rfl | rfl <;> rfl

theorem C2_barrier_completeness_witness :
    (buildCommandBuffers 1280 720 3)[0]? = some (recordCommandBuffer 1280 720 0) ∧
    ∃ k, positions (Cmd.isReadBarrierOn ⟨.ssaoColor⟩) (recordCommandBuffer 1280 720 0) = [k] ∧
      ∀ s ∈ scopes (recordCommandBuffer 1280 720 0),
        (⟨.ssaoColor⟩ : VkImageView) ∈ s.reads setupLayoutsAndDescriptors → k < s.first :=
  ⟨rfl,
    let ⟨k, hk, _, _, _, hr⟩ :=
      (C2_barrier_completeness 1280 720 3 0 _ rfl).1 .ssaoColor (by decide)
    ⟨k, hk, hr⟩⟩

/-- C3: attachment state machine.  For any image, the barriers recorded on it form a chain
that starts from `UNDEFINED` and in which every later old layout is the previous new
layout, and they number at most two; every off-screen colour attachment goes
`UNDEFINED → COLOR_ATTACHMENT_OPTIMAL → SHADER_READ_ONLY_OPTIMAL` exactly once; no barrier
has equal old and new layouts; and the barriers are valid from whatever layouts the images
were left in before the stream. -/
theorem C3_attachment_state_machine (width height count i : Nat) (cs : List Cmd)
    (h : (buildCommandBuffers width height count)[i]? = some cs) :
    (∀ img : VkImage,
      continuesFrom VK_IMAGE_LAYOUT_UNDEFINED (barriersOn img cs) ∧
      (barriersOn img cs).length ≤ 2) ∧
    (∀ t ∈ offscreenAttachments,
      (barriersOn ⟨t⟩ cs).map (fun b => (b.oldImageLayout, b.newImageLayout)) =
        [ (VK_IMAGE_LAYOUT_UNDEFINED, VK_IMAGE_LAYOUT_COLOR_ATTACHMENT_OPTIMAL),
          (VK_IMAGE_LAYOUT_COLOR_ATTACHMENT_OPTIMAL, VK_IMAGE_LAYOUT_SHADER_READ_ONLY_OPTIMAL) ]) ∧
    (∀ b ∈ barriers cs, b.oldImageLayout ≠ b.newImageLayout) ∧
    (∀ L : Layouts, barriersValid L cs) := by
  obtain ⟨-, rfl⟩ := buildCommandBuffers_getElem? h
  refine ⟨?_, ?_, ?_, ?_⟩
  · rintro ⟨t⟩
    cases t with
    | swapChainBuffer j =>
      by_cases hj : j = i
      · subst hj
        simp [barriersOn, barriers, recordCommandBuffer, prologue, offscreenBlock, ssaoBlock,
          ssaoBlurBlock, compositionBlock, Cmd.barrier, continuesFrom]
      · have hij : ¬ i = j := fun e => hj e.symm
        simp [barriersOn, barriers, recordCommandBuffer, prologue, offscreenBlock, ssaoBlock,
          ssaoBlurBlock, compositionBlock, Cmd.barrier, continuesFrom, hij]
    | _ =>
      simp [barriersOn, barriers, recordCommandBuffer, prologue, offscreenBlock, ssaoBlock,
        ssaoBlurBlock, compositionBlock, Cmd.barrier, continuesFrom]
  · intro t ht
    simp only [offscreenAttachments, List.mem_cons, List.mem_singleton, List.not_mem_nil,
      or_false] at ht
    rcases ht with rfl | rfl | rfl | rfl | rfl <;> rfl
  · exact of_decide_eq_true rfl
  · intro L
    simp [barriersValid, applyBarrier, recordCommandBuffer, prologue, offscreenBlock, ssaoBlock,
      ssaoBlurBlock, compositionBlock]

theorem C3_attachment_state_machine_witness :
    (buildCommandBuffers 800 600 2)[1]? = some (recordCommandBuffer 800 600 1) ∧
    (barriersOn ⟨.swapChainBuffer 1⟩ (recordCommandBuffer 800 600 1)).length ≤ 2 ∧
    ∀ L : Layouts, barriersValid L (recordCommandBuffer 800 600 1) :=
  ⟨rfl, ((C3_attachment_state_machine 800 600 2 1 _ rfl).1 ⟨.swapChainBuffer 1⟩).2,
    (C3_attachment_state_machine 800 600 2 1 _ rfl).2.2.2⟩

/-- C4: layout at use.  Replaying the stream from any initial layouts while tracking each
image through its barriers, at every begin of a rendering scope each bound colour, depth or
stencil attachment is in the layout its attachment info declares, and at every draw each
attachment sampled through the bound descriptor set is in the layout its descriptor image
info declares; the declared layouts are `COLOR_ATTACHMENT_OPTIMAL` for colour attachments,
`DEPTH_STENCIL_ATTACHMENT_OPTIMAL` for depth and stencil, and `SHADER_READ_ONLY_OPTIMAL`
for every sampled attachment. -/
theorem C4_layout_at_use (width height count i : Nat) (cs : List Cmd)
    (h : (buildCommandBuffers width height count)[i]? = some cs) :
    (∀ L : Layouts, layoutAtUse setupLayoutsAndDescriptors L [] cs) ∧
    (∀ s ∈ scopes cs,
      (∀ a ∈ s.info.colorAttachments, a.imageLayout = VK_IMAGE_LAYOUT_COLOR_ATTACHMENT_OPTIMAL) ∧
      (∀ a ∈ s.info.pDepthAttachment.toList ++ s.info.pStencilAttachment.toList,
        a.imageLayout = VK_IMAGE_LAYOUT_DEPTH_STENCIL_ATTACHMENT_OPTIMAL)) ∧
    (∀ set : DescriptorSet, ∀ e ∈ sampledImages setupLayoutsAndDescriptors set,
      e.2 = VK_IMAGE_LAYOUT_SHADER_READ_ONLY_OPTIMAL) := by
  obtain ⟨-, rfl⟩ := buildCommandBuffers_getElem? h
  refine ⟨?_, of_decide_eq_true rfl, ?_⟩
  · intro L
    simp [layoutAtUse, applyBarrier, recordCommandBuffer, prologue, offscreenBlock, ssaoBlock,
      ssaoBlurBlock, compositionBlock, Cmd.isDraw, sampledImages, setupLayoutsAndDescriptors,
      VkRenderingInfoKHR.attachments, VkRenderingInfoKHR.colorAttachments, VkImageView.image,
      depthStencilAttachment]
    constructor
    · rintro a b (⟨rfl, rfl⟩ | ⟨rfl, rfl⟩) <;> simp
    · rintro a b (⟨rfl, rfl⟩ | ⟨rfl, rfl⟩ | ⟨rfl, rfl⟩ | ⟨rfl, rfl⟩ | ⟨rfl, rfl⟩) <;> simp
  · intro set
    cases set <;> exact of_decide_eq_true rfl

theorem C4_layout_at_use_witness :
    (buildCommandBuffers 1280 720 3)[1]? = some (recordCommandBuffer 1280 720 1) ∧
    layoutAtUse setupLayoutsAndDescriptors (fun _ => VK_IMAGE_LAYOUT_PRESENT_SRC_KHR) []
      (recordCommandBuffer 1280 720 1) :=
  ⟨rfl, (C4_layout_at_use 1280 720 3 1 _ rfl).1 _⟩

/-- C5: for every swapchain image index `i`, the command right before
`vkEndCommandBuffer` (itself the last call on the buffer) is the barrier on
`swapChain.buffers[i].image` from `COLOR_ATTACHMENT_OPTIMAL` to `PRESENT_SRC_KHR` with
source access colour-attachment-write, destination access 0, source stage
colour-attachment-output and destination stage bottom-of-pipe; it directly follows the end
of the last rendering scope, which is the Composition scope, and it is the only barrier to
`PRESENT_SRC_KHR` in the stream. -/
theorem C5_present_transition (width height count i : Nat) (cs : List Cmd)
    (h : (buildCommandBuffers width height count)[i]? = some cs) :
    positions Cmd.isEndCommandBuffer cs = [cs.length - 1] ∧
    cs[cs.length - 2]? = some (.insertImageMemoryBarrier
      { image := ⟨.swapChainBuffer i⟩
        srcAccessMask := VK_ACCESS_COLOR_ATTACHMENT_WRITE_BIT
        dstAccessMask := 0
        oldImageLayout := VK_IMAGE_LAYOUT_COLOR_ATTACHMENT_OPTIMAL
        newImageLayout := VK_IMAGE_LAYOUT_PRESENT_SRC_KHR
        srcStageMask := VK_PIPELINE_STAGE_COLOR_ATTACHMENT_OUTPUT_BIT
        dstStageMask := VK_PIPELINE_STAGE_BOTTOM_OF_PIPE_BIT
        subresourceRange := ⟨VK_IMAGE_ASPECT_COLOR_BIT, 0, 1, 0, 1⟩ }) ∧
    positions Cmd.isPresentBarrier cs = [cs.length - 2] ∧
    (∀ s ∈ scopes cs, s.last < cs.length - 2) ∧
    (∃ s, (scopes cs).getLast? = some s ∧ s.pipelines = [.composition]
      ∧ s.last + 1 = cs.length - 2) := by
  obtain ⟨-, rfl⟩ := buildCommandBuffers_getElem? h
  exact ⟨rfl, rfl, rfl, of_decide_eq_true rfl, _, rfl, rfl, rfl⟩

theorem C5_present_transition_witness :
    (buildCommandBuffers 1280 720 3)[2]? = some (recordCommandBuffer 1280 720 2) ∧
    positions Cmd.isPresentBarrier (recordCommandBuffer 1280 720 2)
      = [(recordCommandBuffer 1280 720 2).length - 2] :=
  ⟨rfl, (C5_present_transition 1280 720 3 2 _ rfl).2.2.1⟩

/-- C6: every barrier of the stream into an attachment-write layout has source access 0;
on a colour image (the five attachments, the swapchain image) it goes to
`COLOR_ATTACHMENT_OPTIMAL` with destination access colour-attachment-write, the colour
aspect, source stage `TOP_OF_PIPE` and destination stage `COLOR_ATTACHMENT_OUTPUT`; on the
depth image it goes to `DEPTH_STENCIL_ATTACHMENT_OPTIMAL` with destination access
depth-stencil-attachment-write, the depth and stencil aspects, and a source stage that
includes `LATE_FRAGMENT_TESTS`.  There are seven such barriers. -/
theorem C6_attachment_write_barriers (width height count i : Nat) (cs : List Cmd)
    (h : (buildCommandBuffers width height count)[i]? = some cs) :
    (∀ b ∈ barriers cs, b.toAttachmentWrite = true →
      b.srcAccessMask = 0 ∧
      (b.image.target.kind = .color →
        b.newImageLayout = VK_IMAGE_LAYOUT_COLOR_ATTACHMENT_OPTIMAL ∧
        b.dstAccessMask = VK_ACCESS_COLOR_ATTACHMENT_WRITE_BIT ∧
        b.subresourceRange.aspectMask = VK_IMAGE_ASPECT_COLOR_BIT ∧
        b.srcStageMask = VK_PIPELINE_STAGE_TOP_OF_PIPE_BIT ∧
        b.dstStageMask = VK_PIPELINE_STAGE_COLOR_ATTACHMENT_OUTPUT_BIT) ∧
      (b.image.target.kind = .depthStencil →
        b.newImageLayout = VK_IMAGE_LAYOUT_DEPTH_STENCIL_ATTACHMENT_OPTIMAL ∧
        b.dstAccessMask = VK_ACCESS_DEPTH_STENCIL_ATTACHMENT_WRITE_BIT ∧
        b.subresourceRange.aspectMask
          = VK_IMAGE_ASPECT_DEPTH_BIT ||| VK_IMAGE_ASPECT_STENCIL_BIT ∧
        b.srcStageMask &&& VK_PIPELINE_STAGE_LATE_FRAGMENT_TESTS_BIT
          = VK_PIPELINE_STAGE_LATE_FRAGMENT_TESTS_BIT ∧
        b.dstStageMask = VK_PIPELINE_STAGE_EARLY_FRAGMENT_TESTS_BIT
          ||| VK_PIPELINE_STAGE_LATE_FRAGMENT_TESTS_BIT)) ∧
    ((barriers cs).filter ImageMemoryBarrier.toAttachmentWrite).map (·.image) =
      [ ⟨.depthStencil⟩, ⟨.offscreenPosition⟩, ⟨.offscreenNormal⟩, ⟨.offscreenAlbedo⟩,
        ⟨.ssaoColor⟩, ⟨.ssaoBlurColor⟩, ⟨.swapChainBuffer i⟩ ] := by
  obtain ⟨-, rfl⟩ := buildCommandBuffers_getElem? h
  exact ⟨of_decide_eq_true rfl, rfl⟩

theorem C6_attachment_write_barriers_witness :
    (buildCommandBuffers 1280 720 3)[0]? = some (recordCommandBuffer 1280 720 0) ∧
    ∀ b ∈ barriers (recordCommandBuffer 1280 720 0), b.toAttachmentWrite = true →
      b.srcAccessMask = 0 :=
  ⟨rfl, fun b hb hw => ((C6_attachment_write_barriers 1280 720 3 0 _ rfl).1 b hb hw).1⟩

/-- C7: every barrier of the stream from `COLOR_ATTACHMENT_OPTIMAL` to
`SHADER_READ_ONLY_OPTIMAL` has source access colour-attachment-write, destination access
shader-read, source stage colour-attachment-output, destination stage fragment-shader, and
the colour aspect with one mip level and one array layer.  There are five such barriers,
one per off-screen attachment. -/
theorem C7_shader_read_barriers (width height count i : Nat) (cs : List Cmd)
    (h : (buildCommandBuffers width height count)[i]? = some cs) :
    (∀ b ∈ barriers cs, b.toShaderRead = true →
      b.srcAccessMask = VK_ACCESS_COLOR_ATTACHMENT_WRITE_BIT ∧
      b.dstAccessMask = VK_ACCESS_SHADER_READ_BIT ∧
      b.srcStageMask = VK_PIPELINE_STAGE_COLOR_ATTACHMENT_OUTPUT_BIT ∧
      b.dstStageMask = VK_PIPELINE_STAGE_FRAGMENT_SHADER_BIT ∧
      b.subresourceRange = ⟨VK_IMAGE_ASPECT_COLOR_BIT, 0, 1, 0, 1⟩) ∧
    ((barriers cs).filter ImageMemoryBarrier.toShaderRead).map (·.image.target) =
      offscreenAttachments := by
  obtain ⟨-, rfl⟩ := buildCommandBuffers_getElem? h
  exact ⟨of_decide_eq_true rfl, rfl⟩

theorem C7_shader_read_barriers_witness :
    (buildCommandBuffers 1280 720 3)[1]? = some (recordCommandBuffer 1280 720 1) ∧
    ∀ b ∈ barriers (recordCommandBuffer 1280 720 1), b.toShaderRead = true →
      b.dstStageMask = VK_PIPELINE_STAGE_FRAGMENT_SHADER_BIT :=
  ⟨rfl, fun b hb hr => ((C7_shader_read_barriers 1280 720 3 1 _ rfl).1 b hb hr).2.2.2.1⟩

/-- C8 as stated fails: the depth/stencil view is bound as depth and stencil attachment
in a scope other than the GBuffer scope, namely the Composition scope. -/
theorem C8_depth_only_in_gbuffer_counterexample :
    ∃ cs, (buildCommandBuffers 1280 720 1)[0]? = some cs ∧
      ¬ ∀ s ∈ scopes cs,
          (⟨.depthStencil⟩ : VkImageView) ∈ s.info.depthStencilViews →
            s.pipelines = [.offscreen] :=
  ⟨_, rfl, of_decide_eq_true rfl⟩

/-- C8, amended: the depth/stencil image receives exactly one barrier
(`UNDEFINED → DEPTH_STENCIL_ATTACHMENT_OPTIMAL`, recorded before the first rendering
scope), is never transitioned to a shader-read layout, is sampled by no descriptor set and
is never a colour target; it is bound as depth and stencil attachment in the GBuffer scope
and in the Composition scope, and in no other scope. -/
theorem C8_depth_stencil_lifecycle (width height count i : Nat) (cs : List Cmd)
    (h : (buildCommandBuffers width height count)[i]? = some cs) :
    (barriersOn ⟨.depthStencil⟩ cs).map (fun b => (b.oldImageLayout, b.newImageLayout)) =
      [(VK_IMAGE_LAYOUT_UNDEFINED, VK_IMAGE_LAYOUT_DEPTH_STENCIL_ATTACHMENT_OPTIMAL)] ∧
    (∃ k, positions (Cmd.isBarrierOn ⟨.depthStencil⟩) cs = [k] ∧
      (∀ j, j ∈ positions Cmd.isBeginRendering cs → k < j)) ∧
    (∀ b ∈ barriersOn ⟨.depthStencil⟩ cs,
      b.newImageLayout ≠ VK_IMAGE_LAYOUT_SHADER_READ_ONLY_OPTIMAL) ∧
    (∀ set : DescriptorSet,
      (⟨.depthStencil⟩ : VkImageView) ∉ sampledViews setupLayoutsAndDescriptors set) ∧
    (∀ s ∈ scopes cs, (⟨.depthStencil⟩ : VkImageView) ∉ s.info.colorViews) ∧
    (scopes cs).map (fun s => (s.pipelines, s.info.pDepthAttachment, s.info.pStencilAttachment)) =
      [ ([.offscreen], some depthStencilAttachment, some depthStencilAttachment),
        ([.ssao], none, none),
        ([.ssaoBlur], none, none),
        ([.composition], some depthStencilAttachment, some depthStencilAttachment) ] ∧
    depthStencilAttachment.imageView = ⟨.depthStencil⟩ := by
  obtain ⟨-, rfl⟩ := buildCommandBuffers_getElem? h
  refine ⟨rfl, ⟨1, rfl, of_decide_eq_true rfl⟩, of_decide_eq_true rfl, ?_,
    of_decide_eq_true rfl, rfl, rfl⟩
  intro set
  cases set <;> exact of_decide_eq_true rfl

theorem C8_depth_stencil_lifecycle_witness :
    (buildCommandBuffers 1280 720 2)[1]? = some (recordCommandBuffer 1280 720 1) ∧
    (barriersOn ⟨.depthStencil⟩ (recordCommandBuffer 1280 720 1)).map
        (fun b => (b.oldImageLayout, b.newImageLayout)) =
      [(VK_IMAGE_LAYOUT_UNDEFINED, VK_IMAGE_LAYOUT_DEPTH_STENCIL_ATTACHMENT_OPTIMAL)] :=
  ⟨rfl, (C8_depth_stencil_lifecycle 1280 720 2 1 _ rfl).1⟩

/-- C9: structural dependency satisfaction.  For every scope of the stream, every
attachment view written into the descriptor set bound in it is a colour target of a scope
that ended before this one begins, and is not a colour, depth or stencil target of the
scope itself.  The views read are: GBuffer none; SSAO position and normal; Blur ssao
colour; Composition position, normal, albedo, ssao colour and ssaoBlur colour. -/
theorem C9_dependency_satisfaction (width height count i : Nat) (cs : List Cmd)
    (h : (buildCommandBuffers width height count)[i]? = some cs) :
    (∀ s ∈ scopes cs, ∀ v ∈ s.reads setupLayoutsAndDescriptors,
      (∃ p ∈ scopes cs, p.last < s.first ∧ v ∈ p.info.colorViews) ∧ v ∉ s.info.views) ∧
    (scopes cs).map (fun s => (s.pipelines, s.descriptorSets,
        s.reads setupLayoutsAndDescriptors)) =
      [ ([.offscreen], [.floor], []),
        ([.ssao], [.ssao], [⟨.offscreenPosition⟩, ⟨.offscreenNormal⟩]),
        ([.ssaoBlur], [.ssaoBlur], [⟨.ssaoColor⟩]),
        ([.composition], [.composition],
          [ ⟨.offscreenPosition⟩, ⟨.offscreenNormal⟩, ⟨.offscreenAlbedo⟩, ⟨.ssaoColor⟩,
            ⟨.ssaoBlurColor⟩ ]) ] := by
  obtain ⟨-, rfl⟩ := buildCommandBuffers_getElem? h
  exact ⟨of_decide_eq_true rfl, rfl⟩

theorem C9_dependency_satisfaction_witness :
    (buildCommandBuffers 1280 720 3)[2]? = some (recordCommandBuffer 1280 720 2) ∧
    ∀ s ∈ scopes (recordCommandBuffer 1280 720 2), ∀ v ∈ s.reads setupLayoutsAndDescriptors,
      v ∉ s.info.views :=
  ⟨rfl, fun s hs v hv => ((C9_dependency_satisfaction 1280 720 3 2 _ rfl).1 s hs v hv).2⟩

/-- C10 as stated fails: the Composition scope does not bind exactly the swapchain image;
it binds the depth/stencil view as depth and as stencil attachment as well. -/
theorem C10_composition_binds_only_swapchain_counterexample :
    ∃ cs, (buildCommandBuffers 1280 720 1)[0]? = some cs ∧
      ¬ ∀ s ∈ scopes cs, s.pipelines = [.composition] →
          s.info.views = [⟨.swapChainBuffer 0⟩] :=
  ⟨_, rfl, of_decide_eq_true rfl⟩

/-- C10, amended: the GBuffer scope binds exactly the colour attachments position, normal,
albedo in that order plus depth/stencil, the SSAO scope exactly ssao colour, the Blur scope
exactly ssaoBlur colour, and the Composition scope the swapchain image of the stream as its
only colour attachment plus depth/stencil; each off-screen attachment is a colour target of
exactly one scope; every bound attachment, colour, depth and stencil, has load-op `CLEAR`
and store-op `STORE`. -/
theorem C10_write_sets (width height count i : Nat) (cs : List Cmd)
    (h : (buildCommandBuffers width height count)[i]? = some cs) :
    (scopes cs).map (fun s => (s.pipelines, s.info.colorViews, s.info.depthStencilViews)) =
      [ ([.offscreen], [⟨.offscreenPosition⟩, ⟨.offscreenNormal⟩, ⟨.offscreenAlbedo⟩],
          [⟨.depthStencil⟩, ⟨.depthStencil⟩]),
        ([.ssao], [⟨.ssaoColor⟩], []),
        ([.ssaoBlur], [⟨.ssaoBlurColor⟩], []),
        ([.composition], [⟨.swapChainBuffer i⟩], [⟨.depthStencil⟩, ⟨.depthStencil⟩]) ] ∧
    (∀ s ∈ scopes cs, s.info.colorAttachmentCount = s.info.pColorAttachments.length) ∧
    (∀ t ∈ offscreenAttachments,
      ((scopes cs).filter fun s => decide ((⟨t⟩ : VkImageView) ∈ s.info.colorViews)).length
        = 1) ∧
    (∀ s ∈ scopes cs, ∀ a ∈ s.info.attachments,
      a.loadOp = VK_ATTACHMENT_LOAD_OP_CLEAR ∧ a.storeOp = VK_ATTACHMENT_STORE_OP_STORE) := by
  obtain ⟨-, rfl⟩ := buildCommandBuffers_getElem? h
  refine ⟨rfl, of_decide_eq_true rfl, ?_, of_decide_eq_true rfl⟩
  intro t ht
  simp only [offscreenAttachments, List.mem_cons, List.mem_singleton, List.not_mem_nil,
    or_false] at ht
  rcases ht with rfl | rfl | rfl | rfl | rfl <;> rfl

theorem C10_write_sets_witness :
    (buildCommandBuffers 1280 720 3)[2]? = some (recordCommandBuffer 1280 720 2) ∧
    ∀ s ∈ scopes (recordCommandBuffer 1280 720 2), ∀ a ∈ s.info.attachments,
      a.loadOp = VK_ATTACHMENT_LOAD_OP_CLEAR ∧ a.storeOp = VK_ATTACHMENT_STORE_OP_STORE :=
  ⟨rfl, (C10_write_sets 1280 720 3 2 _ rfl).2.2.2⟩

/-- C11: pass body.  Each of the four rendering scopes holds, in this order, the bind of
the pass's pipeline, a viewport and a scissor of `width` x `height` (the render area of the
scope), the bind of the pass's descriptor set at set 0, and the draw: the scene draw for
GBuffer, a draw of 3 vertices and 1 instance for SSAO, Blur and Composition, and for
Composition the UI overlay after it; nothing else is recorded in a scope.  The pipeline
layout of each descriptor bind is the layout the pass's pipeline was created with and
contains the set layout the bound set was allocated with; the pipelines of the three
full-screen passes have the empty vertex input state; and the five off-screen attachments
are created with extent `width` x `height`. -/
theorem C11_pass_body (width height count i : Nat) (cs : List Cmd)
    (h : (buildCommandBuffers width height count)[i]? = some cs) :
    (scopes cs).map (fun s => (s.info.renderArea, s.body)) =
      [ (⟨0, 0, width, height⟩,
          [ .bindPipeline .offscreen,
            .setViewport ⟨width, height, 0, 1⟩,
            .setScissor ⟨0, 0, width, height⟩,
            .bindDescriptorSets .gBuffer 0 [.floor],
            .sceneDraw .gBuffer ]),
        (⟨0, 0, width, height⟩,
          [ .bindPipeline .ssao,
            .setViewport ⟨width, height, 0, 1⟩,
            .setScissor ⟨0, 0, width, height⟩,
            .bindDescriptorSets .ssao 0 [.ssao],
            .draw 3 1 0 0 ]),
        (⟨0, 0, width, height⟩,
          [ .bindPipeline .ssaoBlur,
            .setViewport ⟨width, height, 0, 1⟩,
            .setScissor ⟨0, 0, width, height⟩,
            .bindDescriptorSets .ssaoBlur 0 [.ssaoBlur],
            .draw 3 1 0 0 ]),
        (⟨0, 0, width, height⟩,
          [ .bindPipeline .composition,
            .setViewport ⟨width, height, 0, 1⟩,
            .setScissor ⟨0, 0, width, height⟩,
            .bindDescriptorSets .composition 0 [.composition],
            .draw 3 1 0 0,
            .drawUI ]) ] ∧
    (∀ loadShader attachments swapChainColorFormat depthFormat,
      (preparePipelines loadShader attachments swapChainColorFormat depthFormat).map
          (fun e => (e.1, e.2.layout, e.2.pVertexInputState)) =
        [ (.composition, .composition, some .empty),
          (.ssao, .ssao, some .empty),
          (.ssaoBlur, .ssaoBlur, some .empty),
          (.offscreen, .gBuffer, some (.gltf [.Position, .UV, .Color, .Normal])) ]) ∧
    (∀ e ∈ [ (PipelineLayout.gBuffer, DescriptorSet.floor), (.ssao, .ssao),
             (.ssaoBlur, .ssaoBlur), (.composition, .composition) ],
      ∃ l, setLayoutOf setupLayoutsAndDescriptors e.2 = some l ∧
        SetLayoutRef.own l ∈ setLayoutsOf setupLayoutsAndDescriptors e.1) ∧
    (∃ a, prepareOffscreenFramebuffers width height = some a ∧
      a.toList.map (fun c => c.imageInfo.extent) = List.replicate 5 ⟨width, height, 1⟩) := by
  obtain ⟨-, rfl⟩ := buildCommandBuffers_getElem? h
  refine ⟨rfl, fun _ _ _ _ => rfl, by decide, _, rfl, rfl⟩

theorem C11_pass_body_witness :
    (buildCommandBuffers 1280 720 3)[1]? = some (recordCommandBuffer 1280 720 1) ∧
    ∃ a, prepareOffscreenFramebuffers 1280 720 = some a ∧
      a.toList.map (fun c => c.imageInfo.extent) = List.replicate 5 ⟨1280, 720, 1⟩ :=
  ⟨rfl, (C11_pass_body 1280 720 3 1 _ rfl).2.2.2⟩

/-- C12: descriptor binding tables.  Four descriptor sets are allocated (floor for the
GBuffer pass, ssao, ssaoBlur, composition), each with the set layout of its pass; the
writes to a set cover exactly the bindings its layout declares, in order and with the
declared descriptor type, and no write goes to another set; each layout numbers its
bindings from 0; the resources are those of the table, binding 0 of the GBuffer layout is
visible to the vertex and fragment stages and every other binding to the fragment stage. -/
theorem C12_descriptor_binding_tables :
    setupLayoutsAndDescriptors.allocations =
      [(.floor, .gBuffer), (.ssao, .ssao), (.ssaoBlur, .ssaoBlur), (.composition, .composition)] ∧
    (∀ e ∈ setupLayoutsAndDescriptors.allocations,
      (writesTo setupLayoutsAndDescriptors e.1).map (fun w => (w.dstBinding, w.descriptorType)) =
        (bindingsOf setupLayoutsAndDescriptors e.2).map (fun b => (b.binding, b.descriptorType)) ∧
      (bindingsOf setupLayoutsAndDescriptors e.2).map (·.binding) =
        List.range (bindingsOf setupLayoutsAndDescriptors e.2).length) ∧
    (∀ w ∈ setupLayoutsAndDescriptors.writes,
      ∃ e ∈ setupLayoutsAndDescriptors.allocations, e.1 = w.dstSet) ∧
    (writesTo setupLayoutsAndDescriptors .floor).map (fun w => (w.dstBinding, w.info)) =
      [(0, .buffer .sceneParams)] ∧
    (writesTo setupLayoutsAndDescriptors .ssao).map (fun w => (w.dstBinding, w.info)) =
      [ (0, .image .colorSampler ⟨.offscreenPosition⟩ VK_IMAGE_LAYOUT_SHADER_READ_ONLY_OPTIMAL),
        (1, .image .colorSampler ⟨.offscreenNormal⟩ VK_IMAGE_LAYOUT_SHADER_READ_ONLY_OPTIMAL),
        (2, .ssaoNoise),
        (3, .buffer .ssaoKernel),
        (4, .buffer .ssaoParams) ] ∧
    (writesTo setupLayoutsAndDescriptors .ssaoBlur).map (fun w => (w.dstBinding, w.info)) =
      [(0, .image .colorSampler ⟨.ssaoColor⟩ VK_IMAGE_LAYOUT_SHADER_READ_ONLY_OPTIMAL)] ∧
    (writesTo setupLayoutsAndDescriptors .composition).map (fun w => (w.dstBinding, w.info)) =
      [ (0, .image .colorSampler ⟨.offscreenPosition⟩ VK_IMAGE_LAYOUT_SHADER_READ_ONLY_OPTIMAL),
        (1, .image .colorSampler ⟨.offscreenNormal⟩ VK_IMAGE_LAYOUT_SHADER_READ_ONLY_OPTIMAL),
        (2, .image .colorSampler ⟨.offscreenAlbedo⟩ VK_IMAGE_LAYOUT_SHADER_READ_ONLY_OPTIMAL),
        (3, .image .colorSampler ⟨.ssaoColor⟩ VK_IMAGE_LAYOUT_SHADER_READ_ONLY_OPTIMAL),
        (4, .image .colorSampler ⟨.ssaoBlurColor⟩ VK_IMAGE_LAYOUT_SHADER_READ_ONLY_OPTIMAL),
        (5, .buffer .ssaoParams) ] ∧
    (∀ w ∈ setupLayoutsAndDescriptors.writes,
      w.descriptorType =
        match w.info with
        | .buffer _ => VK_DESCRIPTOR_TYPE_UNIFORM_BUFFER
        | _ => VK_DESCRIPTOR_TYPE_COMBINED_IMAGE_SAMPLER) ∧
    (bindingsOf setupLayoutsAndDescriptors .gBuffer).map (·.stageFlags) =
      [VK_SHADER_STAGE_VERTEX_BIT ||| VK_SHADER_STAGE_FRAGMENT_BIT] ∧
    (∀ l ∈ [DescriptorSetLayout.ssao, .ssaoBlur, .composition],
      ∀ b ∈ bindingsOf setupLayoutsAndDescriptors l, b.stageFlags = VK_SHADER_STAGE_FRAGMENT_BIT) := by
  refine ⟨rfl, by decide, by decide, rfl, rfl, rfl, rfl, by decide, rfl, by decide⟩

/-! ### Kernel and noise loops -/

theorem drawn3_eq {F : Type} (r : Nat → F) (n : Nat) (j : Fin 3) :
    drawn3 (r n) (r (n + 1)) (r (n + 2)) j = r (n + j.val) := by
  fin_cases j <;> rfl

theorem drawn2_eq {F : Type} (r : Nat → F) (n : Nat) (j : Fin 2) :
    drawn2 (r n) (r (n + 1)) j = r (n + j.val) := by
  fin_cases j <;> rfl

theorem kernelSample_snd {F : Type} [Field F] (order : ArgOrder 3)
    (glmNormalize : Vec3 F → Vec3 F) (i : Nat) (r : Nat → F) :
    (kernelSample order glmNormalize i r).2 = fun n => r (n + 4) := rfl

theorem noiseSample_snd {F : Type} [Field F] (order : ArgOrder 2) (r : Nat → F) :
    (noiseSample order r).2 = fun n => r (n + 2) := rfl

theorem kernelSample_fst {F : Type} [Field F] (order : ArgOrder 3)
    (glmNormalize : Vec3 F → Vec3 F) (i k : Nat) (r : Nat → F) :
    (kernelSample order glmNormalize i (fun n => r (n + 4 * k))).1 =
      ⟨(sampleBeforeFalloff order glmNormalize r k).x *
          lerp (1 / 10) 1 ((i : F) / 64 * ((i : F) / 64)),
        (sampleBeforeFalloff order glmNormalize r k).y *
          lerp (1 / 10) 1 ((i : F) / 64 * ((i : F) / 64)),
        (sampleBeforeFalloff order glmNormalize r k).z *
          lerp (1 / 10) 1 ((i : F) / 64 * ((i : F) / 64)),
        0⟩ := by
  simp only [kernelSample, rndDist, sampleBeforeFalloff, sampleConstructed, kernelDraw,
    SSAO_KERNEL_SIZE, Nat.cast_ofNat]
  have e0 : 0 + 4 * k = 4 * k := by omega
  have e1 : 0 + 1 + 4 * k = 4 * k + 1 := by omega
  have e2 : 0 + 1 + 1 + 4 * k = 4 * k + 2 := by omega
  have e3 : 0 + 1 + 1 + 1 + 4 * k = 4 * k + 3 := by omega
  rw [e0, e1, e2, e3]
  simp only [drawn3_eq]

theorem kernelLoop_length {F : Type} [Field F] (order : ArgOrder 3)
    (glmNormalize : Vec3 F → Vec3 F) (n i : Nat) (r : Nat → F) :
    (kernelLoop order glmNormalize n i r).1.length = n := by
  induction n generalizing i r with
  | zero => rfl
  | succ n ih => simp [kernelLoop, ih]

theorem kernelLoop_snd {F : Type} [Field F] (order : ArgOrder 3)
    (glmNormalize : Vec3 F → Vec3 F) (n i : Nat) (r : Nat → F) :
    (kernelLoop order glmNormalize n i r).2 = fun m => r (m + 4 * n) := by
  induction n generalizing i r with
  | zero => rfl
  | succ n ih =>
    simp only [kernelLoop, ih, kernelSample_snd]
    funext m
    exact congrArg r (by omega)

theorem kernelLoop_getElem? {F : Type} [Field F] (order : ArgOrder 3)
    (glmNormalize : Vec3 F → Vec3 F) (n i k : Nat) (r : Nat → F) (hk : k < n) :
    (kernelLoop order glmNormalize n i r).1[k]? =
      some (kernelSample order glmNormalize (i + k) (fun m => r (m + 4 * k))).1 := by
  induction n generalizing i k r with
  | zero => omega
  | succ n ih =>
    cases k with
    | zero => simp [kernelLoop]
    | succ k =>
      simp only [kernelLoop, List.getElem?_cons_succ, kernelSample_snd]
      rw [ih (i + 1) k _ (by omega)]
      have e : i + 1 + k = i + (k + 1) := by omega
      have e2 : (fun m => r (m + 4 * k + 4)) = fun m => r (m + 4 * (k + 1)) := by
        funext m
        congr 1
      rw [e, e2]

theorem noiseLoop_length {F : Type} [Field F] (order : ArgOrder 2) (n : Nat) (r : Nat → F) :
    (noiseLoop order n r).1.length = n := by
  induction n generalizing r with
  | zero => rfl
  | succ n ih => simp [noiseLoop, ih]

theorem noiseLoop_snd {F : Type} [Field F] (order : ArgOrder 2) (n : Nat) (r : Nat → F) :
    (noiseLoop order n r).2 = fun m => r (m + 2 * n) := by
  induction n generalizing r with
  | zero => rfl
  | succ n ih =>
    simp only [noiseLoop, ih, noiseSample_snd]
    funext m
    exact congrArg r (by omega)

theorem noiseLoop_getElem? {F : Type} [Field F] (order : ArgOrder 2) (n k : Nat)
    (r : Nat → F) (hk : k < n) :
    (noiseLoop order n r).1[k]? =
      some ⟨r (2 * k + (order 0).val) * 2 - 1, r (2 * k + (order 1).val) * 2 - 1, 0, 0⟩ := by
  induction n generalizing k r with
  | zero => omega
  | succ n ih =>
    cases k with
    | zero =>
      have h := drawn2_eq r 0
      simp only [Nat.zero_add] at h
      simp [noiseLoop, noiseSample, rndDist, h]
    | succ k =>
      simp only [noiseLoop, List.getElem?_cons_succ, noiseSample_snd]
      rw [ih k _ (by omega)]
      have e0 : 2 * k + (order 0).val + 2 = 2 * (k + 1) + (order 0).val := by omega
      have e1 : 2 * k + (order 1).val + 2 = 2 * (k + 1) + (order 1).val := by omega
      rw [e0, e1]

theorem ssaoKernel_getElem? {F : Type} [Field F] (order : ArgOrder 3)
    (glmNormalize : Vec3 F → Vec3 F) (r : Nat → F) (i : Nat) (hi : i < 64) :
    (ssaoKernel order glmNormalize r).1[i]? =
      some ⟨(sampleBeforeFalloff order glmNormalize r i).x *
          lerp (1 / 10) 1 ((i : F) / 64 * ((i : F) / 64)),
        (sampleBeforeFalloff order glmNormalize r i).y *
          lerp (1 / 10) 1 ((i : F) / 64 * ((i : F) / 64)),
        (sampleBeforeFalloff order glmNormalize r i).z *
          lerp (1 / 10) 1 ((i : F) / 64 * ((i : F) / 64)),
        0⟩ := by
  unfold ssaoKernel
  rw [kernelLoop_getElem? order glmNormalize _ 0 i r (by simpa [SSAO_KERNEL_SIZE] using hi)]
  rw [Nat.zero_add, kernelSample_fst]

theorem lerp_falloff {F : Type} [Field F] [CharZero F] (i : Nat) :
    lerp (1 / 10) 1 ((i : F) / 64 * ((i : F) / 64)) = falloffWeight i := by
  simp only [lerp, falloffWeight]
  ring

theorem falloffWeight_pos {F : Type} [LinearOrderedField F] (i : Nat) :
    (0 : F) < falloffWeight i := by
  unfold falloffWeight
  positivity

theorem falloffWeight_lt {F : Type} [LinearOrderedField F] {i j : Nat} (h : i < j) :
    (falloffWeight i : F) < falloffWeight j := by
  unfold falloffWeight
  have hij : (i : F) < j := by exact_mod_cast h
  have hi : (0 : F) ≤ i := by positivity
  have : ((i : F) / 64) ^ 2 < ((j : F) / 64) ^ 2 := by
    apply pow_lt_pow_left₀
    · exact div_lt_div_of_pos_right hij (by norm_num)
    · positivity
    · norm_num
  linarith

theorem sampleConstructed_eq {F : Type} [Field F] (order : ArgOrder 3) (r : Nat → F) (i : Nat) :
    sampleConstructed order r i = preNormal order r i := by
  simp only [sampleConstructed, preNormal, Vec3.mk.injEq, and_true]
  constructor <;> ring

theorem ssaoKernel_eq_reference {F : Type} [Field F] (order : ArgOrder 3)
    (glmNormalize : Vec3 F → Vec3 F) (r : Nat → F) (i : Nat) (hi : i < 64) :
    (ssaoKernel order glmNormalize r).1[i]? = some (kernelReference order glmNormalize r i) := by
  rw [ssaoKernel_getElem? order glmNormalize r i hi]
  simp only [kernelReference, sampleBeforeFalloff, sampleConstructed_eq, Vec3.scale, sq]

/-- C13: kernel generation equals its reference definition.  For every order in which the
build evaluates the three constructor arguments, every random stream and every `i < 64`,
entry `i` of the generated kernel is `(normalize(2a - 1, 2b - 1, c) * d * w(i), 0)`,
where `a`, `b`, `c` are the draws `4i`, `4i + 1`, `4i + 2` of the stream, each feeding the
argument that the order of evaluation gives it, `d` is draw `4i + 3`, `normalize` is the
function the code calls, and `w(i) = lerp(0.1, 1.0, (i/64)^2) = 0.1 + 0.9 (i/64)^2`; the
kernel has 64 entries and leaves the engine 256 draws on; for a stream of values in
`[0, 1)` the vector before normalisation has `x`, `y` in `[-1, 1)` and `z` in `[0, 1)`.
The entry and the reference consist of the same operations; only the identity
`lerp(0.1, 1.0, t) = 0.1 + 0.9 t` is one of exact arithmetic. -/
theorem C13_kernel_reference {F : Type} [LinearOrderedField F] (order : ArgOrder 3)
    (glmNormalize : Vec3 F → Vec3 F) (r : Nat → F) (hr : ∀ n, 0 ≤ r n ∧ r n < 1) :
    (ssaoKernel order glmNormalize r).1.length = 64 ∧
    (ssaoKernel order glmNormalize r).2 = (fun n => r (n + 256)) ∧
    (∀ i, i < 64 →
      (ssaoKernel order glmNormalize r).1[i]? = some (kernelReference order glmNormalize r i)) ∧
    (∀ i (j : Fin 3), ∃ k, kernelDraw order r i k = r (4 * i + j.val)) ∧
    (∀ i (k : Fin 3), ∃ j : Fin 3, kernelDraw order r i k = r (4 * i + j.val)) ∧
    (∀ i : Nat, lerp (1 / 10) 1 (((i : F) / 64) ^ 2) = falloffWeight i) ∧
    (∀ i, -1 ≤ (preNormal order r i).x ∧ (preNormal order r i).x < 1 ∧
      -1 ≤ (preNormal order r i).y ∧ (preNormal order r i).y < 1 ∧
      0 ≤ (preNormal order r i).z ∧ (preNormal order r i).z < 1) := by
  refine ⟨kernelLoop_length _ _ _ _ _, kernelLoop_snd _ _ _ _ _,
    fun i hi => ssaoKernel_eq_reference order glmNormalize r i hi, ?_, ?_, ?_, ?_⟩
  · intro i j
    exact ⟨order.symm j, by simp [kernelDraw]⟩
  · intro i k
    exact ⟨order k, rfl⟩
  · intro i
    simp only [lerp, falloffWeight]
    ring
  · intro i
    have h0 := hr (4 * i + (order 0).val)
    have h1 := hr (4 * i + (order 1).val)
    have h2 := hr (4 * i + (order 2).val)
    simp only [preNormal, kernelDraw]
    refine ⟨?_, ?_, ?_, ?_, h2.1, h2.2⟩ <;> linarith [h0.1, h0.2, h1.1, h1.2]

theorem C13_kernel_reference_witness :
    (∀ n : Nat, (0 : ℝ) ≤ (fun _ => 1 / 2) n ∧ (fun _ => (1 / 2 : ℝ)) n < 1) ∧
    (ssaoKernel Fin.revPerm (normalize Real.sqrt) (fun _ => (1 / 2 : ℝ))).1[63]? =
      some (kernelReference Fin.revPerm (normalize Real.sqrt) (fun _ => (1 / 2 : ℝ)) 63) ∧
    (∀ (r : Nat → ℝ) (i : Nat),
      preNormal Fin.revPerm r i = ⟨2 * r (4 * i + 2) - 1, 2 * r (4 * i + 1) - 1, r (4 * i + 0)⟩ ∧
      preNormal (Equiv.refl _) r i =
        ⟨2 * r (4 * i + 0) - 1, 2 * r (4 * i + 1) - 1, r (4 * i + 2)⟩) :=
  ⟨fun _ => by norm_num,
    (C13_kernel_reference Fin.revPerm (normalize Real.sqrt) (fun _ => (1 / 2 : ℝ))
      (fun _ => by norm_num)).2.2.1 63 (by norm_num),
    fun _ _ => ⟨rfl, rfl⟩⟩

/-! ### Magnitudes over the reals -/

theorem Vec3.dot_self_nonneg (v : Vec3 ℝ) : 0 ≤ v.dot v := by
  unfold Vec3.dot
  nlinarith [mul_self_nonneg v.x, mul_self_nonneg v.y, mul_self_nonneg v.z]

theorem Vec3.dot_self_ne_zero (v : Vec3 ℝ) (h : v ≠ ⟨0, 0, 0⟩) : v.dot v ≠ 0 := by
  intro h0
  apply h
  unfold Vec3.dot at h0
  have hx : v.x = 0 := by nlinarith [mul_self_nonneg v.x, mul_self_nonneg v.y, mul_self_nonneg v.z]
  have hy : v.y = 0 := by nlinarith [mul_self_nonneg v.x, mul_self_nonneg v.y, mul_self_nonneg v.z]
  have hz : v.z = 0 := by nlinarith [mul_self_nonneg v.x, mul_self_nonneg v.y, mul_self_nonneg v.z]
  cases v
  simp_all

theorem Vec3.length_scale (v : Vec3 ℝ) {s : ℝ} (hs : 0 ≤ s) :
    (v.scale s).length Real.sqrt = s * v.length Real.sqrt := by
  have e : (v.scale s).dot (v.scale s) = s ^ 2 * v.dot v := by
    simp only [Vec3.scale, Vec3.dot]
    ring
  rw [Vec3.length, e, Real.sqrt_mul (sq_nonneg s), Real.sqrt_sq hs, Vec3.length]

theorem length_normalize (v : Vec3 ℝ) (h : v.dot v ≠ 0) :
    (normalize Real.sqrt v).length Real.sqrt = 1 := by
  have hpos : 0 < v.dot v := lt_of_le_of_ne v.dot_self_nonneg (Ne.symm h)
  have hs : 0 < Real.sqrt (v.dot v) := Real.sqrt_pos.mpr hpos
  unfold normalize
  rw [Vec3.length_scale v (by positivity), Vec3.length]
  field_simp

theorem length_sampleBeforeFalloff (order : ArgOrder 3) (r : Nat → ℝ) (i : Nat)
    (hd : 0 ≤ r (4 * i + 3)) (hnz : preNormal order r i ≠ ⟨0, 0, 0⟩) :
    (sampleBeforeFalloff order (normalize Real.sqrt) r i).length Real.sqrt = r (4 * i + 3) := by
  unfold sampleBeforeFalloff
  rw [Vec3.length_scale _ hd, sampleConstructed_eq,
    length_normalize _ (Vec3.dot_self_ne_zero _ hnz), mul_one]

theorem ssaoKernel_entry (order : ArgOrder 3) (r : Nat → ℝ) (i : Nat) (hi : i < 64) :
    ∃ s, (ssaoKernel order (normalize Real.sqrt) r).1[i]? = some s ∧ s.w = 0 ∧
      s.xyz = (sampleBeforeFalloff order (normalize Real.sqrt) r i).scale (falloffWeight i) :=
  ⟨_, ssaoKernel_getElem? order (normalize Real.sqrt) r i hi, rfl, by
    simp only [Vec4.xyz, Vec3.scale, lerp_falloff]⟩

theorem length_kernel_entry (order : ArgOrder 3) (r : Nat → ℝ) (i : Nat)
    (hd : 0 ≤ r (4 * i + 3)) (hnz : preNormal order r i ≠ ⟨0, 0, 0⟩) :
    ((sampleBeforeFalloff order (normalize Real.sqrt) r i).scale
        (falloffWeight i)).length Real.sqrt =
      r (4 * i + 3) * falloffWeight i := by
  rw [Vec3.length_scale _ (le_of_lt (falloffWeight_pos i)),
    length_sampleBeforeFalloff order r i hd hnz, mul_comm]

/-- C14 as stated fails.  With the stream `dipStream` (values in `[0, 1)`) and
`glm::normalize` in exact arithmetic, whatever the order in which the constructor
arguments are evaluated, kernel sample 1 has a smaller magnitude than kernel sample 0, so
the magnitude is not non-decreasing in the index, and the magnitude of sample 0 is not
`lerp(0.1, 1.0, 0) = 0.1`. -/
theorem C14_magnitude_monotone_counterexample :
    (∀ n, 0 ≤ (dipStream n : ℝ) ∧ (dipStream n : ℝ) < 1) ∧
    ∀ order : ArgOrder 3,
      ∃ a b, (ssaoKernel order (normalize Real.sqrt) dipStream).1[0]? = some a ∧
        (ssaoKernel order (normalize Real.sqrt) dipStream).1[1]? = some b ∧
        b.xyz.length Real.sqrt < a.xyz.length Real.sqrt ∧
        a.xyz.length Real.sqrt ≠ falloffWeight 0 := by
  constructor
  · intro n
    unfold dipStream
    split <;> norm_num
  · intro order
    obtain ⟨a, ha, -, hxa⟩ := ssaoKernel_entry order dipStream 0 (by norm_num)
    obtain ⟨b, hb, -, hxb⟩ := ssaoKernel_entry order dipStream 1 (by norm_num)
    have hz : ∀ i, i < 2 → preNormal order (dipStream : Nat → ℝ) i ≠ ⟨0, 0, 0⟩ := by
      intro i hi h
      have hzc := congrArg Vec3.z h
      simp only [preNormal, kernelDraw, dipStream] at hzc
      have hlt := (order 2).isLt
      rw [if_neg (by omega)] at hzc
      norm_num at hzc
    have la := length_kernel_entry order dipStream 0 (by simp [dipStream]) (hz 0 (by omega))
    have lb := length_kernel_entry order dipStream 1 (by simp [dipStream]) (hz 1 (by omega))
    refine ⟨a, b, ha, hb, ?_, ?_⟩
    · rw [hxa, hxb, la, lb]
      simp only [dipStream, falloffWeight]
      norm_num
    · rw [hxa, la]
      simp only [dipStream, falloffWeight]
      norm_num

/-- C14, amended: kernel shape.  For every order of evaluation of the constructor
arguments and every random stream, kernel sample `i < 64` is the sample before the
fall-off, that is the normalised vector times the fourth draw `d` of the sample,
multiplied component by component by the fall-off factor `lerp(0.1, 1.0, (i/64)^2)`, with
`w = 0`; for a stream of values in `[0, 1)` the draw `d` lies in `[0, 1)`; and the
fall-off factor, not the magnitude of the sample, is `0.1` at `i = 0` and strictly
increasing, hence non-decreasing, in `i`. -/
theorem C14_kernel_shape {F : Type} [LinearOrderedField F] (order : ArgOrder 3)
    (glmNormalize : Vec3 F → Vec3 F) (r : Nat → F) :
    (∀ i, i < 64 → ∃ s, (ssaoKernel order glmNormalize r).1[i]? = some s ∧
      s.x = (glmNormalize (sampleConstructed order r i)).x * r (4 * i + 3) *
        lerp (1 / 10) 1 ((i : F) / 64 * ((i : F) / 64)) ∧
      s.y = (glmNormalize (sampleConstructed order r i)).y * r (4 * i + 3) *
        lerp (1 / 10) 1 ((i : F) / 64 * ((i : F) / 64)) ∧
      s.z = (glmNormalize (sampleConstructed order r i)).z * r (4 * i + 3) *
        lerp (1 / 10) 1 ((i : F) / 64 * ((i : F) / 64)) ∧
      s.w = 0) ∧
    ((∀ n, 0 ≤ r n ∧ r n < 1) → ∀ i, 0 ≤ r (4 * i + 3) ∧ r (4 * i + 3) < 1) ∧
    lerp (1 / 10) 1 (((0 : Nat) : F) / 64 * (((0 : Nat) : F) / 64)) = 1 / 10 ∧
    (∀ i j : Nat, i < j →
      lerp (1 / 10) 1 ((i : F) / 64 * ((i : F) / 64)) <
        lerp (1 / 10) 1 ((j : F) / 64 * ((j : F) / 64))) ∧
    (∀ i j : Nat, i ≤ j →
      lerp (1 / 10) 1 ((i : F) / 64 * ((i : F) / 64)) ≤
        lerp (1 / 10) 1 ((j : F) / 64 * ((j : F) / 64))) := by
  have hlt : ∀ i j : Nat, i < j →
      lerp (1 / 10) 1 ((i : F) / 64 * ((i : F) / 64)) <
        lerp (1 / 10) 1 ((j : F) / 64 * ((j : F) / 64)) := by
    intro i j hij
    rw [lerp_falloff, lerp_falloff]
    exact falloffWeight_lt hij
  refine ⟨?_, fun hr i => hr _, ?_, hlt, ?_⟩
  · intro i hi
    exact ⟨_, ssaoKernel_getElem? order glmNormalize r i hi, rfl, rfl, rfl, rfl⟩
  · simp [lerp]
  · intro i j hij
    rcases Nat.lt_or_eq_of_le hij with h | h
    · exact le_of_lt (hlt i j h)
    · rw [h]

theorem prepareUniformBuffers_noise {F : Type} [Field F] (android : Bool)
    (kernelOrder : ArgOrder 3) (noiseOrder : ArgOrder 2) (glmNormalize : Vec3 F → Vec3 F)
    (r : Nat → F) :
    (prepareUniformBuffers android kernelOrder noiseOrder glmNormalize r).2.buffer =
      (noiseLoop noiseOrder (SSAO_NOISE_DIM android * SSAO_NOISE_DIM android)
        (fun n => r (n + 256))).1 := by
  have h : (ssaoKernel kernelOrder glmNormalize r).2 = fun n => r (n + 256) :=
    kernelLoop_snd _ _ _ _ _
  simp only [prepareUniformBuffers, ssaoNoise, h]

theorem noise_texel {F : Type} [Field F] (android : Bool) (kernelOrder : ArgOrder 3)
    (noiseOrder : ArgOrder 2) (glmNormalize : Vec3 F → Vec3 F) (r : Nat → F)
    (v : Vec4 F)
    (hv : v ∈ (prepareUniformBuffers android kernelOrder noiseOrder glmNormalize r).2.buffer) :
    ∃ k, k < SSAO_NOISE_DIM android * SSAO_NOISE_DIM android ∧
      v = ⟨r (2 * k + (noiseOrder 0).val + 256) * 2 - 1,
        r (2 * k + (noiseOrder 1).val + 256) * 2 - 1, 0, 0⟩ := by
  rw [prepareUniformBuffers_noise, List.mem_iff_getElem?] at hv
  obtain ⟨k, hk⟩ := hv
  have hlt : k < SSAO_NOISE_DIM android * SSAO_NOISE_DIM android := by
    have := (List.getElem?_eq_some_iff.mp hk).1
    simpa [noiseLoop_length] using this
  rw [noiseLoop_getElem? _ _ k _ hlt] at hk
  exact ⟨k, hlt, (Option.some.inj hk).symm⟩

/-- C16: noise generation.  For every random stream of values in `[0, 1)`,
`prepareUniformBuffers` produces exactly `M * M` noise vectors with
`M = SSAO_NOISE_DIM` (8 on Android, 4 otherwise), drawn after the 256 draws of the kernel,
each with `x` and `y` in `[-1, 1)` and `z = 0`, `w = 0`; they are uploaded as an `M` x `M`
texture of format `R32G32B32A32_SFLOAT` with nearest filtering, so the texel count equals
the number of vectors and the byte size is 16 per vector.  This holds for every order in
which the build evaluates the drawing arguments of the two constructor calls. -/
theorem C16_noise_generation {F : Type} [LinearOrderedField F] (android : Bool)
    (kernelOrder : ArgOrder 3) (noiseOrder : ArgOrder 2) (glmNormalize : Vec3 F → Vec3 F)
    (r : Nat → F) (hr : ∀ n, 0 ≤ r n ∧ r n < 1) :
    SSAO_NOISE_DIM android = (if android then 8 else 4) ∧
    (prepareUniformBuffers android kernelOrder noiseOrder glmNormalize r).2.buffer.length =
      SSAO_NOISE_DIM android * SSAO_NOISE_DIM android ∧
    (∀ k, k < SSAO_NOISE_DIM android * SSAO_NOISE_DIM android →
      (prepareUniformBuffers android kernelOrder noiseOrder glmNormalize r).2.buffer[k]? =
        some ⟨r (256 + 2 * k + (noiseOrder 0).val) * 2 - 1,
          r (256 + 2 * k + (noiseOrder 1).val) * 2 - 1, 0, 0⟩) ∧
    (∀ v ∈ (prepareUniformBuffers android kernelOrder noiseOrder glmNormalize r).2.buffer,
      -1 ≤ v.x ∧ v.x < 1 ∧ -1 ≤ v.y ∧ v.y < 1 ∧ v.z = 0 ∧ v.w = 0) ∧
    (prepareUniformBuffers android kernelOrder noiseOrder glmNormalize r).2.texWidth =
      SSAO_NOISE_DIM android ∧
    (prepareUniformBuffers android kernelOrder noiseOrder glmNormalize r).2.texHeight =
      SSAO_NOISE_DIM android ∧
    (prepareUniformBuffers android kernelOrder noiseOrder glmNormalize r).2.filter =
      .VK_FILTER_NEAREST ∧
    (prepareUniformBuffers android kernelOrder noiseOrder glmNormalize r).2.format =
      VK_FORMAT_R32G32B32A32_SFLOAT ∧
    (prepareUniformBuffers android kernelOrder noiseOrder glmNormalize r).2.texWidth *
        (prepareUniformBuffers android kernelOrder noiseOrder glmNormalize r).2.texHeight =
      (prepareUniformBuffers android kernelOrder noiseOrder glmNormalize r).2.buffer.length ∧
    (prepareUniformBuffers android kernelOrder noiseOrder glmNormalize r).2.bufferSize =
      (prepareUniformBuffers android kernelOrder noiseOrder glmNormalize r).2.buffer.length *
        16 := by
  have hlen :
      (prepareUniformBuffers android kernelOrder noiseOrder glmNormalize r).2.buffer.length =
        SSAO_NOISE_DIM android * SSAO_NOISE_DIM android := by
    rw [prepareUniformBuffers_noise, noiseLoop_length]
  refine ⟨rfl, hlen, ?_, ?_, rfl, rfl, rfl, rfl, ?_, rfl⟩
  · intro k hk
    rw [prepareUniformBuffers_noise, noiseLoop_getElem? _ _ k _ hk]
    have e1 : 2 * k + (noiseOrder 0).val + 256 = 256 + 2 * k + (noiseOrder 0).val := by omega
    have e2 : 2 * k + (noiseOrder 1).val + 256 = 256 + 2 * k + (noiseOrder 1).val := by omega
    rw [e1, e2]
  · intro v hv
    obtain ⟨k, -, rfl⟩ := noise_texel android kernelOrder noiseOrder glmNormalize r v hv
    have h0 := hr (2 * k + (noiseOrder 0).val + 256)
    have h1 := hr (2 * k + (noiseOrder 1).val + 256)
    refine ⟨?_, ?_, ?_, ?_, rfl, rfl⟩ <;> simp only <;> linarith [h0.1, h0.2, h1.1, h1.2]
  · rw [hlen]
    rfl

theorem C16_noise_generation_witness :
    (∀ n : Nat, (0 : ℝ) ≤ (fun _ => 1 / 2) n ∧ (fun _ => (1 / 2 : ℝ)) n < 1) ∧
    (prepareUniformBuffers true Fin.revPerm Fin.revPerm (normalize Real.sqrt)
      (fun _ => (1 / 2 : ℝ))).2.buffer.length = 8 * 8 ∧
    (prepareUniformBuffers false (Equiv.refl _) (Equiv.refl _) (normalize Real.sqrt)
      (fun _ => (1 / 2 : ℝ))).2.buffer.length = 4 * 4 :=
  ⟨fun _ => by norm_num,
    (C16_noise_generation true Fin.revPerm Fin.revPerm (normalize Real.sqrt)
      (fun _ => (1 / 2 : ℝ)) (fun _ => by norm_num)).2.1,
    (C16_noise_generation false (Equiv.refl _) (Equiv.refl _) (normalize Real.sqrt)
      (fun _ => (1 / 2 : ℝ)) (fun _ => by norm_num)).2.1⟩

/-- C17 as stated fails.  With the stream that always draws `0` (a value in `[0, 1)`),
the first noise texel is `(-1, -1, 0, 0)`, for which `x^2 + y^2 = 2`, not `1`, whatever
the order in which the constructor arguments are evaluated. -/
theorem C17_noise_unit_counterexample :
    (∀ n : Nat, (0 : ℝ) ≤ (fun _ => 0) n ∧ (fun _ => (0 : ℝ)) n < 1) ∧
    ∀ (kernelOrder : ArgOrder 3) (noiseOrder : ArgOrder 2),
      ∃ v, (prepareUniformBuffers false kernelOrder noiseOrder (normalize Real.sqrt)
          (fun _ => (0 : ℝ))).2.buffer[0]? = some v ∧
        v = ⟨-1, -1, 0, 0⟩ ∧ v.x ^ 2 + v.y ^ 2 ≠ 1 := by
  refine ⟨fun _ => by norm_num, fun kernelOrder noiseOrder => ⟨⟨-1, -1, 0, 0⟩, ?_, rfl, by norm_num⟩⟩
  rw [prepareUniformBuffers_noise, noiseLoop_getElem? _ _ 0 _ (by decide)]
  norm_num

/-- C17, amended: for every random stream of values in `[0, 1)` and every texel of the
noise tile, `x` and `y` lie in `[-1, 1)` and `x^2 + y^2 ≤ 2`; the vectors are not
normalised. -/
theorem C17_noise_bound {F : Type} [LinearOrderedField F] (android : Bool)
    (kernelOrder : ArgOrder 3) (noiseOrder : ArgOrder 2) (glmNormalize : Vec3 F → Vec3 F)
    (r : Nat → F) (hr : ∀ n, 0 ≤ r n ∧ r n < 1) :
    ∀ v ∈ (prepareUniformBuffers android kernelOrder noiseOrder glmNormalize r).2.buffer,
      -1 ≤ v.x ∧ v.x < 1 ∧ -1 ≤ v.y ∧ v.y < 1 ∧ v.x ^ 2 + v.y ^ 2 ≤ 2 := by
  intro v hv
  obtain ⟨k, -, rfl⟩ := noise_texel android kernelOrder noiseOrder glmNormalize r v hv
  have h0 := hr (2 * k + (noiseOrder 0).val + 256)
  have h1 := hr (2 * k + (noiseOrder 1).val + 256)
  refine ⟨?_, ?_, ?_, ?_, ?_⟩ <;> simp only
  · linarith [h0.1]
  · linarith [h0.2]
  · linarith [h1.1]
  · linarith [h1.2]
  · nlinarith [h0.1, h0.2, h1.1, h1.2]

theorem C17_noise_bound_witness :
    (∀ n : Nat, (0 : ℝ) ≤ (fun _ => 0) n ∧ (fun _ => (0 : ℝ)) n < 1) ∧
    ∀ v ∈ (prepareUniformBuffers false Fin.revPerm Fin.revPerm (normalize Real.sqrt)
        (fun _ => (0 : ℝ))).2.buffer,
      -1 ≤ v.x ∧ v.x < 1 ∧ -1 ≤ v.y ∧ v.y < 1 ∧ v.x ^ 2 + v.y ^ 2 ≤ 2 :=
  ⟨fun _ => by norm_num,
    C17_noise_bound false Fin.revPerm Fin.revPerm (normalize Real.sqrt) (fun _ => (0 : ℝ))
      (fun _ => by norm_num)⟩

/-- C18: the kernel size is one compile-time constant.  The kernel written to the kernel
uniform buffer has `SSAO_KERNEL_SIZE = 64` entries (16 bytes each), the value of the
`kernelSize` member of the specialization data; the specialization info maps constant 0
to `kernelSize` (offset 0, size 4) and constant 1 to `radius = 0.3` (offset 4, size 4),
the two entries do not overlap and lie within the 8 bytes of data; and, the shader loader
returning stages without specialization info, the fragment stage of the SSAO pipeline is
the only stage of the four pipelines that points at a specialization info. -/
theorem C18_kernel_size_constant {F : Type} [Field F]
    (loadShader : String → VkShaderStageFlags → VkPipelineShaderStageCreateInfo)
    (hload : ∀ f s, (loadShader f s).pSpecializationInfo = none)
    (attachments : Attachments) (swapChainColorFormat depthFormat : VkFormat)
    (android : Bool) (kernelOrder : ArgOrder 3) (noiseOrder : ArgOrder 2)
    (glmNormalize : Vec3 F → Vec3 F) (r : Nat → F) :
    (prepareUniformBuffers android kernelOrder noiseOrder glmNormalize r).1.data.length =
      SSAO_KERNEL_SIZE ∧
    (prepareUniformBuffers android kernelOrder noiseOrder glmNormalize r).1.data.length =
      ssaoSpecializationInfo.pData.kernelSize ∧
    (prepareUniformBuffers android kernelOrder noiseOrder glmNormalize r).1.size = 64 * 16 ∧
    SSAO_KERNEL_SIZE = 64 ∧
    ssaoSpecializationInfo =
      { mapEntryCount := 2
        pMapEntries := [⟨0, 0, 4⟩, ⟨1, 4, 4⟩]
        dataSize := 8
        pData := { kernelSize := 64, radius := 3 / 10 } } ∧
    (∀ a ∈ ssaoSpecializationInfo.pMapEntries, ∀ b ∈ ssaoSpecializationInfo.pMapEntries,
      a ≠ b → a.disjoint b) ∧
    (∀ a ∈ ssaoSpecializationInfo.pMapEntries,
      a.offset + a.size ≤ ssaoSpecializationInfo.dataSize) ∧
    (preparePipelines loadShader attachments swapChainColorFormat depthFormat).map
        (fun e => (e.1, e.2.shaderStages)) =
      [ (.composition,
          [ some (loadShader "ssao/fullscreen.vert.spv" VK_SHADER_STAGE_VERTEX_BIT),
            some (loadShader "ssao/composition.frag.spv" VK_SHADER_STAGE_FRAGMENT_BIT) ]),
        (.ssao,
          [ some (loadShader "ssao/fullscreen.vert.spv" VK_SHADER_STAGE_VERTEX_BIT),
            some { loadShader "ssao/ssao.frag.spv" VK_SHADER_STAGE_FRAGMENT_BIT with
              pSpecializationInfo := some ssaoSpecializationInfo } ]),
        (.ssaoBlur,
          [ some (loadShader "ssao/fullscreen.vert.spv" VK_SHADER_STAGE_VERTEX_BIT),
            some (loadShader "ssao/blur.frag.spv" VK_SHADER_STAGE_FRAGMENT_BIT) ]),
        (.offscreen,
          [ some (loadShader "ssao/gbuffer.vert.spv" VK_SHADER_STAGE_VERTEX_BIT),
            some (loadShader "ssao/gbuffer.frag.spv" VK_SHADER_STAGE_FRAGMENT_BIT) ]) ] ∧
    (preparePipelines loadShader attachments swapChainColorFormat depthFormat).map
        (fun e => (e.1, e.2.specializations)) =
      [ (.composition, [none, none]),
        (.ssao, [none, some ssaoSpecializationInfo]),
        (.ssaoBlur, [none, none]),
        (.offscreen, [none, none]) ] := by
  have hlen :
      (prepareUniformBuffers android kernelOrder noiseOrder glmNormalize r).1.data.length = 64 :=
    kernelLoop_length kernelOrder glmNormalize 64 0 r
  refine ⟨hlen, hlen, ?_, rfl, rfl, by decide, by decide, rfl, ?_⟩
  · show (prepareUniformBuffers android kernelOrder noiseOrder glmNormalize r).1.data.length *
      sizeof_vec4 = 64 * 16
    rw [hlen]
    rfl
  · simp [preparePipelines, compositionPipelineInfo, ssaoPipelineInfo, ssaoBlurPipelineInfo,
      offscreenPipelineInfo, initialPipelineCreateInfo, setSpecializationInfo,
      GraphicsPipelineCreateInfo.specializations, hload]

theorem C18_kernel_size_constant_witness :
    (∀ f s, (baseLoadShader f s).pSpecializationInfo = none) ∧
    ((preparePipelines baseLoadShader ((prepareOffscreenFramebuffers 1280 720).get rfl)
        44 130).map (fun e => (e.1, e.2.specializations)) =
      [ (.composition, [none, none]),
        (.ssao, [none, some ssaoSpecializationInfo]),
        (.ssaoBlur, [none, none]),
        (.offscreen, [none, none]) ]) :=
  ⟨fun _ _ => rfl,
    (C18_kernel_size_constant baseLoadShader (fun _ _ => rfl)
      ((prepareOffscreenFramebuffers 1280 720).get rfl) 44 130 false Fin.revPerm Fin.revPerm
      (normalize Real.sqrt) (fun _ => (1 / 2 : ℝ))).2.2.2.2.2.2.2.2⟩

theorem or_and_self_left (a b : Nat) : (a ||| b) &&& a = a := by
  apply Nat.eq_of_testBit_eq
  intro i
  simp only [Nat.testBit_and, Nat.testBit_or]
  cases a.testBit i <;> cases b.testBit i <;> rfl

theorem or_and_self_right (a b : Nat) : (a ||| b) &&& b = b := by
  apply Nat.eq_of_testBit_eq
  intro i
  simp only [Nat.testBit_and, Nat.testBit_or]
  cases a.testBit i <;> cases b.testBit i <;> rfl

theorem createAttachmentAspectMask_pos (format : VkFormat) (usage : VkImageUsageFlags)
    (h : usage &&& VK_IMAGE_USAGE_COLOR_ATTACHMENT_BIT ≠ 0 ∨
      usage &&& VK_IMAGE_USAGE_DEPTH_STENCIL_ATTACHMENT_BIT ≠ 0) :
    createAttachmentAspectMask format usage > 0 := by
  unfold createAttachmentAspectMask
  dsimp only
  split_ifs with hd hf hc
  · decide
  · decide
  · decide
  · rcases h with h | h
    · exact absurd h hc
    · exact absurd h hd

/-- C19: for every format, usage, target, width and height, an attachment that
`createAttachment` creates has image usage flags that contain every requested usage bit
and the `SAMPLED` bit, extent `width` x `height` x 1, one mip level and one array layer,
and records the requested format (also in the image and the view); it creates one
whenever the usage has the colour-attachment or the depth-stencil-attachment bit.
`prepareOffscreenFramebuffers` creates all five attachments, each with the
colour-attachment and the `SAMPLED` usage bits. -/
theorem C19_create_attachment (format : VkFormat) (usage : VkImageUsageFlags)
    (target : Target) (width height : Nat) :
    (∀ a, createAttachment format usage target width height = some a →
      a.imageInfo.usage &&& usage = usage ∧
      a.imageInfo.usage &&& VK_IMAGE_USAGE_SAMPLED_BIT = VK_IMAGE_USAGE_SAMPLED_BIT ∧
      a.imageInfo.extent = ⟨width, height, 1⟩ ∧
      a.imageInfo.mipLevels = 1 ∧
      a.imageInfo.arrayLayers = 1 ∧
      a.format = format ∧ a.imageInfo.format = format ∧ a.viewInfo.format = format ∧
      a.viewInfo.image = a.image ∧ a.image = ⟨target⟩ ∧ a.view = ⟨target⟩) ∧
    (usage &&& VK_IMAGE_USAGE_COLOR_ATTACHMENT_BIT ≠ 0 ∨
        usage &&& VK_IMAGE_USAGE_DEPTH_STENCIL_ATTACHMENT_BIT ≠ 0 →
      ∃ a, createAttachment format usage target width height = some a) ∧
    (∃ a, prepareOffscreenFramebuffers width height = some a ∧
      a.toList.map (·.image.target) = offscreenAttachments ∧
      ∀ c ∈ a.toList,
        c.imageInfo.usage &&& VK_IMAGE_USAGE_COLOR_ATTACHMENT_BIT
          = VK_IMAGE_USAGE_COLOR_ATTACHMENT_BIT ∧
        c.imageInfo.usage &&& VK_IMAGE_USAGE_SAMPLED_BIT = VK_IMAGE_USAGE_SAMPLED_BIT ∧
        c.imageInfo.extent = ⟨width, height, 1⟩) := by
  refine ⟨?_, ?_, _, rfl, rfl, ?_⟩
  · intro a ha
    unfold createAttachment at ha
    dsimp only at ha
    split at ha
    · cases ha
      exact ⟨or_and_self_left _ _, or_and_self_right _ _, rfl, rfl, rfl, rfl, rfl, rfl, rfl,
        rfl, rfl⟩
    · cases ha
  · intro h
    have hp := createAttachmentAspectMask_pos format usage h
    unfold createAttachment
    dsimp only
    rw [if_pos hp]
    exact ⟨_, rfl⟩
  · intro c hc
    simp only [Attachments.toList, List.mem_cons, List.mem_singleton, List.not_mem_nil,
      or_false] at hc
    rcases hc with rfl | rfl | rfl | rfl | rfl <;>
      exact ⟨or_and_self_left _ _, or_and_self_right _ _, rfl⟩

theorem C19_create_attachment_witness :
    (VK_IMAGE_USAGE_DEPTH_STENCIL_ATTACHMENT_BIT &&& VK_IMAGE_USAGE_COLOR_ATTACHMENT_BIT ≠ 0 ∨
      VK_IMAGE_USAGE_DEPTH_STENCIL_ATTACHMENT_BIT &&& VK_IMAGE_USAGE_DEPTH_STENCIL_ATTACHMENT_BIT
        ≠ 0) ∧
    ∃ a, createAttachment 130 VK_IMAGE_USAGE_DEPTH_STENCIL_ATTACHMENT_BIT .depthStencil
      1280 720 = some a :=
  ⟨by decide,
    (C19_create_attachment 130 VK_IMAGE_USAGE_DEPTH_STENCIL_ATTACHMENT_BIT .depthStencil
      1280 720).2.1 (by decide)⟩

/-- C20: idempotent parameter update.  For every state of the camera, the parameter
blocks and the buffers, running `updateUniformBufferMatrices` a second time right after a
first run leaves `uboSceneParams` and the contents of the scene-parameter buffer as the
first run left them, and the buffer holds the block; the same for
`updateUniformBufferSSAOParams`, `uboSSAOParams` and the SSAO-parameter buffer.  Neither
function changes the camera, the other block or the other buffer. -/
theorem C20_idempotent_update {F : Type} [Zero F] [One F] (s : UniformState F) :
    ((updateUniformBufferMatrices (updateUniformBufferMatrices s)).uboSceneParams =
        (updateUniformBufferMatrices s).uboSceneParams ∧
      (updateUniformBufferMatrices (updateUniformBufferMatrices s)).sceneParams.contents =
        (updateUniformBufferMatrices s).sceneParams.contents ∧
      (updateUniformBufferMatrices s).sceneParams.contents =
        some (updateUniformBufferMatrices s).uboSceneParams ∧
      (updateUniformBufferMatrices s).camera = s.camera ∧
      (updateUniformBufferMatrices s).uboSSAOParams = s.uboSSAOParams ∧
      (updateUniformBufferMatrices s).ssaoParams = s.ssaoParams) ∧
    ((updateUniformBufferSSAOParams (updateUniformBufferSSAOParams s)).uboSSAOParams =
        (updateUniformBufferSSAOParams s).uboSSAOParams ∧
      (updateUniformBufferSSAOParams (updateUniformBufferSSAOParams s)).ssaoParams.contents =
        (updateUniformBufferSSAOParams s).ssaoParams.contents ∧
      (updateUniformBufferSSAOParams s).ssaoParams.contents =
        some (updateUniformBufferSSAOParams s).uboSSAOParams ∧
      (updateUniformBufferSSAOParams s).camera = s.camera ∧
      (updateUniformBufferSSAOParams s).uboSceneParams = s.uboSceneParams ∧
      (updateUniformBufferSSAOParams s).sceneParams = s.sceneParams) :=
  ⟨⟨rfl, rfl, rfl, rfl, rfl, rfl⟩, ⟨rfl, rfl, rfl, rfl, rfl, rfl⟩⟩

/-- C26: the assertion `aspectMask > 0` of `createAttachment` holds exactly when the usage
has the colour-attachment bit or the depth-stencil-attachment bit, and then and only then
an attachment is created; the aspect of the view is the computed mask: `COLOR` when the
colour bit is set and the depth-stencil bit is not, and when the depth-stencil bit is set
`DEPTH | STENCIL` for `format ≥ VK_FORMAT_D16_UNORM_S8_UINT` and `DEPTH` below it, whether
or not the colour bit is set as well. -/
theorem C26_aspect_mask (format : VkFormat) (usage : VkImageUsageFlags) (target : Target)
    (width height : Nat) :
    (createAttachmentAspectMask format usage > 0 ↔
      (usage &&& VK_IMAGE_USAGE_COLOR_ATTACHMENT_BIT ≠ 0 ∨
        usage &&& VK_IMAGE_USAGE_DEPTH_STENCIL_ATTACHMENT_BIT ≠ 0)) ∧
    ((createAttachment format usage target width height).isSome = true ↔
      createAttachmentAspectMask format usage > 0) ∧
    (∀ a, createAttachment format usage target width height = some a →
      a.viewInfo.subresourceRange.aspectMask = createAttachmentAspectMask format usage) ∧
    (usage &&& VK_IMAGE_USAGE_COLOR_ATTACHMENT_BIT ≠ 0 →
      usage &&& VK_IMAGE_USAGE_DEPTH_STENCIL_ATTACHMENT_BIT = 0 →
      createAttachmentAspectMask format usage = VK_IMAGE_ASPECT_COLOR_BIT) ∧
    (usage &&& VK_IMAGE_USAGE_DEPTH_STENCIL_ATTACHMENT_BIT ≠ 0 →
      (format ≥ VK_FORMAT_D16_UNORM_S8_UINT →
        createAttachmentAspectMask format usage =
          VK_IMAGE_ASPECT_DEPTH_BIT ||| VK_IMAGE_ASPECT_STENCIL_BIT) ∧
      (format < VK_FORMAT_D16_UNORM_S8_UINT →
        createAttachmentAspectMask format usage = VK_IMAGE_ASPECT_DEPTH_BIT)) ∧
    VK_IMAGE_ASPECT_DEPTH_BIT ||| VK_IMAGE_ASPECT_STENCIL_BIT ≠ VK_IMAGE_ASPECT_DEPTH_BIT := by
  refine ⟨⟨?_, createAttachmentAspectMask_pos format usage⟩, ?_, ?_, ?_, ?_, by decide⟩
  · intro h
    by_contra hn
    rw [not_or, not_not, not_not] at hn
    simp [createAttachmentAspectMask, hn.1, hn.2] at h
  · unfold createAttachment
    dsimp only
    split <;> simp_all
  · intro a ha
    unfold createAttachment at ha
    dsimp only at ha
    split at ha
    · cases ha
      rfl
    · cases ha
  · intro hc hd
    simp [createAttachmentAspectMask, hc, hd]
  · intro hd
    constructor
    · intro hf
      simp [createAttachmentAspectMask, hd, hf]
    · intro hf
      simp [createAttachmentAspectMask, hd, Nat.not_le.mpr hf]

/-- C27: rendering scopes are well bracketed.  Read from outside a scope the stream never
begins a scope inside a scope and never ends one outside, and it ends outside; the begins
and ends of the stream are exactly the firsts and lasts of its four scopes, which follow
one another without overlap; every pipeline bind, descriptor bind, viewport, scissor and
draw lies strictly between the begin and the end of a scope, and every image memory
barrier lies outside every scope. -/
theorem C27_well_bracketed (width height count i : Nat) (cs : List Cmd)
    (h : (buildCommandBuffers width height count)[i]? = some cs) :
    wellBracketed false cs = true ∧
    positions Cmd.isBeginRendering cs = (scopes cs).map (·.first) ∧
    positions Cmd.isEndRendering cs = (scopes cs).map (·.last) ∧
    (scopes cs).map (fun s => (s.first, s.last)) = [(5, 11), (16, 22), (25, 31), (34, 41)] ∧
    (∀ p ∈ positions Cmd.isScoped cs, ∃ s ∈ scopes cs, s.first < p ∧ p < s.last) ∧
    (∀ p ∈ positions Cmd.isBarrier cs, ∀ s ∈ scopes cs, p < s.first ∨ s.last < p) ∧
    (positions Cmd.isScoped cs).length = 21 ∧
    (positions Cmd.isBarrier cs).length = 13 := by
  obtain ⟨-, rfl⟩ := buildCommandBuffers_getElem? h
  exact ⟨rfl, rfl, rfl, rfl, of_decide_eq_true rfl, of_decide_eq_true rfl, rfl, rfl⟩

theorem C27_well_bracketed_witness :
    (buildCommandBuffers 1280 720 3)[2]? = some (recordCommandBuffer 1280 720 2) ∧
    wellBracketed false (recordCommandBuffer 1280 720 2) = true :=
  ⟨rfl, (C27_well_bracketed 1280 720 3 2 _ rfl).1⟩

/-- C28: descriptor pool capacity.  `setupLayoutsAndDescriptors` allocates four sets from a
pool of `maxSets = descriptorSets.count = 5`; over the layouts of the allocated sets the
uniform-buffer descriptors number 4, within the pool size 10, and the
combined-image-sampler descriptors 9, within the pool size 12.  In homework1 the one set
with one uniform-buffer descriptor fits the pool of `maxSets = 2` and one uniform-buffer
descriptor, and asks for no other descriptor type. -/
theorem C28_descriptor_pool_capacity :
    setupDescriptorPool.maxSets = 5 ∧
    setupLayoutsAndDescriptors.allocations.length = 4 ∧
    setupLayoutsAndDescriptors.allocations.length ≤ setupDescriptorPool.maxSets ∧
    setupDescriptorPool.capacity VK_DESCRIPTOR_TYPE_UNIFORM_BUFFER = 10 ∧
    setupDescriptorPool.capacity VK_DESCRIPTOR_TYPE_COMBINED_IMAGE_SAMPLER = 12 ∧
    allocatedDemand setupLayoutsAndDescriptors VK_DESCRIPTOR_TYPE_UNIFORM_BUFFER = 4 ∧
    allocatedDemand setupLayoutsAndDescriptors VK_DESCRIPTOR_TYPE_COMBINED_IMAGE_SAMPLER = 9 ∧
    (∀ t : VkDescriptorType,
      allocatedDemand setupLayoutsAndDescriptors t ≤ setupDescriptorPool.capacity t) ∧
    Homework1.setupDescriptorSet.length = 1 ∧
    Homework1.setupDescriptorSet.length ≤ Homework1.setupDescriptorPool.maxSets ∧
    Homework1.setupDescriptorPool.maxSets = 2 ∧
    (∀ t : VkDescriptorType,
      (Homework1.setupDescriptorSet.map fun b => descriptorDemand b t).sum ≤
        Homework1.setupDescriptorPool.capacity t) ∧
    (Homework1.setupDescriptorSet.map fun b =>
      descriptorDemand b VK_DESCRIPTOR_TYPE_UNIFORM_BUFFER).sum = 1 ∧
    Homework1.setupDescriptorPool.capacity VK_DESCRIPTOR_TYPE_UNIFORM_BUFFER = 1 := by
  refine ⟨rfl, rfl, by decide, by decide, by decide, by decide, by decide, ?_, rfl, by decide,
    rfl, ?_, by decide, by decide⟩
  · intro t
    cases t <;> decide
  · intro t
    cases t <;> decide

/-- C23: resize round-trip.  `prepareOffscreenFramebuffers` creates exactly the five
attachments position, normal, albedo, ssao colour and ssaoBlur colour; the destructor
destroys the image, destroys the view and frees the memory of exactly these five, each
exactly once; and the format, usage and extent of each attachment are fixed by `width`
and `height`, so creating them again at the same size yields the same metadata. -/
theorem C23_resize_round_trip (width height : Nat) :
    ∃ a, prepareOffscreenFramebuffers width height = some a ∧
      a.toList.map (·.image.target) = offscreenAttachments ∧
      (destroyVulkanExample a).filterMap DestroyCall.image? = a.toList.map (·.image) ∧
      (destroyVulkanExample a).filterMap DestroyCall.view? = a.toList.map (·.view) ∧
      (destroyVulkanExample a).filterMap DestroyCall.mem? = a.toList.map (·.mem) ∧
      (a.toList.map (·.image)).Nodup ∧
      (a.toList.map (·.view)).Nodup ∧
      (a.toList.map (·.mem)).Nodup ∧
      a.toList.map (fun c => (c.format, c.imageInfo.usage, c.imageInfo.extent)) =
        [ (VK_FORMAT_R32G32B32A32_SFLOAT,
            VK_IMAGE_USAGE_COLOR_ATTACHMENT_BIT ||| VK_IMAGE_USAGE_SAMPLED_BIT,
            ⟨width, height, 1⟩),
          (VK_FORMAT_R8G8B8A8_UNORM,
            VK_IMAGE_USAGE_COLOR_ATTACHMENT_BIT ||| VK_IMAGE_USAGE_SAMPLED_BIT,
            ⟨width, height, 1⟩),
          (VK_FORMAT_R8G8B8A8_UNORM,
            VK_IMAGE_USAGE_COLOR_ATTACHMENT_BIT ||| VK_IMAGE_USAGE_SAMPLED_BIT,
            ⟨width, height, 1⟩),
          (VK_FORMAT_R8_UNORM,
            VK_IMAGE_USAGE_COLOR_ATTACHMENT_BIT ||| VK_IMAGE_USAGE_SAMPLED_BIT,
            ⟨width, height, 1⟩),
          (VK_FORMAT_R8_UNORM,
            VK_IMAGE_USAGE_COLOR_ATTACHMENT_BIT ||| VK_IMAGE_USAGE_SAMPLED_BIT,
            ⟨width, height, 1⟩) ] ∧
      ∀ b, prepareOffscreenFramebuffers width height = some b →
        b.toList.map (fun c => (c.format, c.imageInfo.usage, c.imageInfo.extent)) =
          a.toList.map (fun c => (c.format, c.imageInfo.usage, c.imageInfo.extent)) := by
  refine ⟨_, rfl, rfl, rfl, rfl, rfl, of_decide_eq_true rfl, of_decide_eq_true rfl,
    of_decide_eq_true rfl, rfl, ?_⟩
  intro b hb
  cases hb
  rfl

set_option maxHeartbeats 2000000 in
/-- C25: pipeline/pass compatibility.  With the attachments of
`prepareOffscreenFramebuffers` and a defined depth format, every rendering scope binds one
pipeline, and for that pipeline: the colour attachment count of its rendering create info
equals the count bound in the scope, its colour formats are, in order, the formats of the
views bound in the scope, its blend attachment count and list length equal its colour
attachment count, and the scope binds a depth and a stencil attachment exactly when the
pipeline declares a depth and a stencil format, which then are the format of the bound
depth/stencil view.  The stream has four scopes, numbered `k = 0 .. 3`. -/
theorem C25_pipeline_pass_compatibility (width height count i : Nat) (cs : List Cmd)
    (h : (buildCommandBuffers width height count)[i]? = some cs)
    (loadShader : String → VkShaderStageFlags → VkPipelineShaderStageCreateInfo)
    (swapChainColorFormat depthFormat : VkFormat)
    (hd : depthFormat ≠ VK_FORMAT_UNDEFINED) :
    ∃ a, prepareOffscreenFramebuffers width height = some a ∧
      (scopes cs).map (fun s => (s.pipelines, s.info.colorAttachmentCount,
          s.info.colorViews.map (viewFormat a swapChainColorFormat depthFormat))) =
        [ ([.offscreen], 3,
            [VK_FORMAT_R32G32B32A32_SFLOAT, VK_FORMAT_R8G8B8A8_UNORM, VK_FORMAT_R8G8B8A8_UNORM]),
          ([.ssao], 1, [VK_FORMAT_R8_UNORM]),
          ([.ssaoBlur], 1, [VK_FORMAT_R8_UNORM]),
          ([.composition], 1, [swapChainColorFormat]) ] ∧
      (scopes cs).length = 4 ∧
      ∀ k, k < 4 → ∃ s p info r, (scopes cs)[k]? = some s ∧ s.pipelines = [p] ∧
        createInfoOf (preparePipelines loadShader a swapChainColorFormat depthFormat) p
          = some info ∧
        info.pNext = some r ∧
        r.colorAttachmentCount = s.info.colorAttachmentCount ∧
        r.colorAttachmentCount = s.info.colorViews.length ∧
        r.pColorAttachmentFormats =
          s.info.colorViews.map (viewFormat a swapChainColorFormat depthFormat) ∧
        info.blendAttachmentCount = r.colorAttachmentCount ∧
        info.blendAttachments.length = r.colorAttachmentCount ∧
        ((s.info.pDepthAttachment.isSome = true ∧ s.info.pStencilAttachment.isSome = true) ↔
          (r.depthAttachmentFormat ≠ VK_FORMAT_UNDEFINED ∧
            r.stencilAttachmentFormat ≠ VK_FORMAT_UNDEFINED)) ∧
        (s.info.pDepthAttachment.isSome = s.info.pStencilAttachment.isSome) ∧
        (s.info.depthStencilViews.map (viewFormat a swapChainColorFormat depthFormat) =
          if s.info.pDepthAttachment.isSome
          then [r.depthAttachmentFormat, r.stencilAttachmentFormat] else []) := by
  obtain ⟨-, rfl⟩ := buildCommandBuffers_getElem? h
  refine ⟨_, rfl, rfl, rfl, ?_⟩
  intro k hk
  have hF : ¬ ((false = true ∧ false = true)) := fun hh => Bool.false_ne_true hh.1
  have hU : ¬ (VK_FORMAT_UNDEFINED ≠ VK_FORMAT_UNDEFINED ∧
      VK_FORMAT_UNDEFINED ≠ VK_FORMAT_UNDEFINED) := fun hh => hh.1 rfl
  have hT : (true = true ∧ true = true) ↔
      (depthFormat ≠ VK_FORMAT_UNDEFINED ∧ depthFormat ≠ VK_FORMAT_UNDEFINED) :=
    ⟨fun _ => ⟨hd, hd⟩, fun _ => ⟨rfl, rfl⟩⟩
  have hN : (false = true ∧ false = true) ↔
      (VK_FORMAT_UNDEFINED ≠ VK_FORMAT_UNDEFINED ∧
        VK_FORMAT_UNDEFINED ≠ VK_FORMAT_UNDEFINED) :=
    ⟨fun hh => absurd hh hF, fun hh => absurd hh hU⟩
  rcases k with _ | _ | _ | _ | k
  · exact ⟨_, .offscreen, _, _, rfl, rfl, rfl, rfl, rfl, rfl, rfl, rfl, rfl, hT, rfl, rfl⟩
  · exact ⟨_, .ssao, _, _, rfl, rfl, rfl, rfl, rfl, rfl, rfl, rfl, rfl, hN, rfl, rfl⟩
  · exact ⟨_, .ssaoBlur, _, _, rfl, rfl, rfl, rfl, rfl, rfl, rfl, rfl, rfl, hN, rfl, rfl⟩
  · exact ⟨_, .composition, _, _, rfl, rfl, rfl, rfl, rfl, rfl, rfl, rfl, rfl, hT, rfl, rfl⟩
  · omega

theorem C25_pipeline_pass_compatibility_witness :
    (buildCommandBuffers 1280 720 3)[0]? = some (recordCommandBuffer 1280 720 0) ∧
    (130 : VkFormat) ≠ VK_FORMAT_UNDEFINED ∧
    ∃ a, prepareOffscreenFramebuffers 1280 720 = some a ∧
      (scopes (recordCommandBuffer 1280 720 0)).map (fun s => (s.pipelines,
          s.info.colorAttachmentCount, s.info.colorViews.map (viewFormat a 44 130))) =
        [ ([.offscreen], 3,
            [VK_FORMAT_R32G32B32A32_SFLOAT, VK_FORMAT_R8G8B8A8_UNORM, VK_FORMAT_R8G8B8A8_UNORM]),
          ([.ssao], 1, [VK_FORMAT_R8_UNORM]),
          ([.ssaoBlur], 1, [VK_FORMAT_R8_UNORM]),
          ([.composition], 1, [44]) ] :=
  ⟨rfl, by decide,
    let ⟨a, ha, ht, _⟩ :=
      C25_pipeline_pass_compatibility 1280 720 3 0 _ rfl baseLoadShader 44 130 (by decide)
    ⟨a, ha, ht⟩⟩

/-- C21 as stated fails.  From the state `prepareUniformBuffers` is in after creating the
two buffers, neither buffer is mapped before its first update, each update calls `map`
and `unmap` itself, and neither buffer is mapped after the update. -/
theorem C21_mapping_stays_open_counterexample :
    (createdUniformState (F := ℚ) ⟨Mat4.identity, Mat4.identity⟩ Mat4.identity).sceneParams.mapped
      = false ∧
    (updateUniformBufferMatrices
      (createdUniformState (F := ℚ) ⟨Mat4.identity, Mat4.identity⟩ Mat4.identity)).sceneParams.calls
      = [.map, .copyTo, .unmap] ∧
    (updateUniformBufferMatrices
      (createdUniformState (F := ℚ) ⟨Mat4.identity, Mat4.identity⟩ Mat4.identity)).sceneParams.mapped
      = false ∧
    (updateUniformBufferSSAOParams
      (createdUniformState (F := ℚ) ⟨Mat4.identity, Mat4.identity⟩ Mat4.identity)).ssaoParams.calls
      = [.map, .copyTo, .unmap] ∧
    (updateUniformBufferSSAOParams
      (createdUniformState (F := ℚ) ⟨Mat4.identity, Mat4.identity⟩ Mat4.identity)).ssaoParams.mapped
      = false :=
  ⟨rfl, rfl, rfl, rfl, rfl⟩

/-- C21, amended: the mapping of a parameter block is opened and closed by every update.
From any state, `updateUniformBufferMatrices` and `updateUniformBufferSSAOParams` each
call `map`, `copyTo` and `unmap` on their buffer, in this order and nothing else; the
buffer then holds the updated block and is not mapped, whether or not it was mapped
before. -/
theorem C21_map_per_update {F : Type} [Zero F] [One F] (s : UniformState F) :
    (updateUniformBufferMatrices s).sceneParams.calls =
      s.sceneParams.calls ++ [.map, .copyTo, .unmap] ∧
    (updateUniformBufferMatrices s).sceneParams.mapped = false ∧
    (updateUniformBufferMatrices s).sceneParams.contents =
      some (updateUniformBufferMatrices s).uboSceneParams ∧
    (updateUniformBufferSSAOParams s).ssaoParams.calls =
      s.ssaoParams.calls ++ [.map, .copyTo, .unmap] ∧
    (updateUniformBufferSSAOParams s).ssaoParams.mapped = false ∧
    (updateUniformBufferSSAOParams s).ssaoParams.contents =
      some (updateUniformBufferSSAOParams s).uboSSAOParams := by
  refine ⟨?_, rfl, rfl, ?_, rfl, rfl⟩ <;>
    simp [updateUniformBufferMatrices, updateUniformBufferSSAOParams, Buffer.map,
      Buffer.copyTo, Buffer.unmap]

theorem updateUniformBufferSSAOParams_toggles {F : Type} (s : UniformState F) :
    (updateUniformBufferSSAOParams s).uboSSAOParams.ssao = s.uboSSAOParams.ssao ∧
    (updateUniformBufferSSAOParams s).uboSSAOParams.ssaoOnly = s.uboSSAOParams.ssaoOnly ∧
    (updateUniformBufferSSAOParams s).uboSSAOParams.ssaoBlur = s.uboSSAOParams.ssaoBlur ∧
    (updateUniformBufferSSAOParams s).uboSSAOParams.projection = s.camera.perspective ∧
    (updateUniformBufferSSAOParams s).ssaoParams.contents =
      some (updateUniformBufferSSAOParams s).uboSSAOParams :=
  ⟨rfl, rfl, rfl, rfl, rfl⟩

/-- C22: toggle propagation.  Let the overlay leave the value of a check box alone when it
reports no change.  When the settings header is open and at least one of the three check
boxes (Enable SSAO, SSAO blur, SSAO pass only) reports a change, then on return of
`OnUpdateUIOverlay` the ssaoParams buffer holds the block `uboSSAOParams` as it is on
return, so its `ssao`, `ssaoOnly` and `ssaoBlur` are the current values.
`updateUniformBufferSSAOParams` changes only the projection of `uboSSAOParams` and copies
the block, so with `ssao = 0` the buffer's `ssao` field is 0. -/
theorem C22_toggle_propagation {F : Type} (overlay : UIOverlay) (s : UniformState F)
    (hquiet : ∀ caption value, (overlay.checkBox caption value).1 = false →
      (overlay.checkBox caption value).2 = value)
    (hheader : overlay.header "Settings" = true)
    (hchange : (overlay.checkBox "Enable SSAO" s.uboSSAOParams.ssao).1 = true ∨
      (overlay.checkBox "SSAO blur" s.uboSSAOParams.ssaoBlur).1 = true ∨
      (overlay.checkBox "SSAO pass only" s.uboSSAOParams.ssaoOnly).1 = true) :
    (OnUpdateUIOverlay overlay s).ssaoParams.contents =
      some (OnUpdateUIOverlay overlay s).uboSSAOParams ∧
    (OnUpdateUIOverlay overlay s).uboSSAOParams.ssao =
      (overlay.checkBox "Enable SSAO" s.uboSSAOParams.ssao).2 ∧
    (OnUpdateUIOverlay overlay s).uboSSAOParams.ssaoBlur =
      (overlay.checkBox "SSAO blur" s.uboSSAOParams.ssaoBlur).2 ∧
    (OnUpdateUIOverlay overlay s).uboSSAOParams.ssaoOnly =
      (overlay.checkBox "SSAO pass only" s.uboSSAOParams.ssaoOnly).2 ∧
    (∀ t : UniformState F,
      (updateUniformBufferSSAOParams t).uboSSAOParams =
        { t.uboSSAOParams with projection := t.camera.perspective } ∧
      (updateUniformBufferSSAOParams t).ssaoParams.contents =
        some (updateUniformBufferSSAOParams t).uboSSAOParams ∧
      (t.uboSSAOParams.ssao = 0 →
        (updateUniformBufferSSAOParams t).ssaoParams.contents.map (·.ssao) = some 0)) := by
  have key : ∀ t : UniformState F,
      (updateUniformBufferSSAOParams t).uboSSAOParams =
        { t.uboSSAOParams with projection := t.camera.perspective } ∧
      (updateUniformBufferSSAOParams t).ssaoParams.contents =
        some (updateUniformBufferSSAOParams t).uboSSAOParams ∧
      (t.uboSSAOParams.ssao = 0 →
        (updateUniformBufferSSAOParams t).ssaoParams.contents.map (·.ssao) = some 0) := by
    intro t
    refine ⟨rfl, rfl, ?_⟩
    intro h0
    show some t.uboSSAOParams.ssao = some 0
    rw [h0]
  have q1 := hquiet "Enable SSAO" s.uboSSAOParams.ssao
  have q2 := hquiet "SSAO blur" s.uboSSAOParams.ssaoBlur
  have q3 := hquiet "SSAO pass only" s.uboSSAOParams.ssaoOnly
  unfold OnUpdateUIOverlay
  rw [if_pos hheader]
  cases h1 : (overlay.checkBox "Enable SSAO" s.uboSSAOParams.ssao).1 <;>
    cases h2 : (overlay.checkBox "SSAO blur" s.uboSSAOParams.ssaoBlur).1 <;>
    cases h3 : (overlay.checkBox "SSAO pass only" s.uboSSAOParams.ssaoOnly).1 <;>
    simp_all [checkBoxEnableSSAO, checkBoxSSAOBlur, checkBoxSSAOOnly,
      updateUniformBufferSSAOParams, Buffer.map, Buffer.copyTo, Buffer.unmap]

theorem C22_toggle_propagation_witness :
    (∀ caption value, (clickEveryCheckBox.checkBox caption value).1 = false →
      (clickEveryCheckBox.checkBox caption value).2 = value) ∧
    clickEveryCheckBox.header "Settings" = true ∧
    (OnUpdateUIOverlay clickEveryCheckBox
      (createdUniformState (F := ℚ) ⟨Mat4.identity, Mat4.identity⟩ Mat4.identity)).uboSSAOParams.ssao
      = 0 ∧
    (OnUpdateUIOverlay clickEveryCheckBox
      (createdUniformState (F := ℚ) ⟨Mat4.identity, Mat4.identity⟩ Mat4.identity)).ssaoParams.contents
      = some (OnUpdateUIOverlay clickEveryCheckBox
        (createdUniformState (F := ℚ) ⟨Mat4.identity, Mat4.identity⟩
          Mat4.identity)).uboSSAOParams :=
  ⟨fun _ _ h => absurd (show true = false from h) (by decide), rfl, rfl,
    (C22_toggle_propagation clickEveryCheckBox
      (createdUniformState (F := ℚ) ⟨Mat4.identity, Mat4.identity⟩ Mat4.identity)
      (fun _ _ h => absurd (show true = false from h) (by decide)) rfl (Or.inl rfl)).1⟩

theorem prepareUniformBuffers_kernel {F : Type} [Field F] (android : Bool)
    (kernelOrder : ArgOrder 3) (noiseOrder : ArgOrder 2) (glmNormalize : Vec3 F → Vec3 F)
    (r : Nat → F) :
    (prepareUniformBuffers android kernelOrder noiseOrder glmNormalize r).1.data =
      (ssaoKernel kernelOrder glmNormalize r).1 := rfl

/-- C24: seeded determinism.  The seed of `rndEngine` is 0 whenever benchmark mode is
active, whatever the clock says, and the clock value (as `unsigned`) otherwise; two runs
with equal seeds, in particular two runs in benchmark mode, produce the same kernel buffer
and noise texture.  The draws are consumed in a fixed order, whatever the order in which
the build evaluates the arguments of one constructor call: the body of the kernel loop
leaves the engine four draws on, the body of the noise loop two, the kernel loop 256, and
the noise loop starts there; so kernel sample `i < 64` is a function of the draws
`4i .. 4i + 3` alone and noise texel `k` of the draws `256 + 2k` and `256 + 2k + 1` alone:
two streams that agree on these draws give the same sample, respectively the same texel.
The kernel has 64 entries and the noise `M * M`. -/
theorem C24_seeded_determinism {F : Type} [Field F] (engine : Nat → Nat → F)
    (android : Bool) (kernelOrder : ArgOrder 3) (noiseOrder : ArgOrder 2)
    (glmNormalize : Vec3 F → Vec3 F) :
    (∀ time, rndEngineSeed true time = 0) ∧
    (∀ time, rndEngineSeed false time = time % 2 ^ 32) ∧
    (∀ t₁ t₂,
      prepareUniformBuffersWithSeed engine android kernelOrder noiseOrder glmNormalize true t₁ =
        prepareUniformBuffersWithSeed engine android kernelOrder noiseOrder glmNormalize true
          t₂) ∧
    (∀ b₁ t₁ b₂ t₂, rndEngineSeed b₁ t₁ = rndEngineSeed b₂ t₂ →
      prepareUniformBuffersWithSeed engine android kernelOrder noiseOrder glmNormalize b₁ t₁ =
        prepareUniformBuffersWithSeed engine android kernelOrder noiseOrder glmNormalize b₂
          t₂) ∧
    (∀ b t,
      prepareUniformBuffersWithSeed engine android kernelOrder noiseOrder glmNormalize b t =
        prepareUniformBuffers android kernelOrder noiseOrder glmNormalize
          (engine (rndEngineSeed b t))) ∧
    (∀ (i : Nat) (r : Nat → F),
      (kernelSample kernelOrder glmNormalize i r).2 = fun n => r (n + 4)) ∧
    (∀ r : Nat → F, (noiseSample noiseOrder r).2 = fun n => r (n + 2)) ∧
    (∀ r : Nat → F, (ssaoKernel kernelOrder glmNormalize r).2 = fun n => r (n + 256)) ∧
    (∀ r : Nat → F,
      (prepareUniformBuffers android kernelOrder noiseOrder glmNormalize r).2.buffer =
        (ssaoNoise android noiseOrder (fun n => r (n + 256))).1) ∧
    (∀ r : Nat → F, (ssaoNoise android noiseOrder (fun n => r (n + 256))).2 =
      fun n => r (n + 256 + 2 * (SSAO_NOISE_DIM android * SSAO_NOISE_DIM android))) ∧
    (∀ (r r' : Nat → F) (i : Nat), i < 64 → (∀ j, j < 4 → r (4 * i + j) = r' (4 * i + j)) →
      (prepareUniformBuffers android kernelOrder noiseOrder glmNormalize r).1.data[i]? =
        (prepareUniformBuffers android kernelOrder noiseOrder glmNormalize r').1.data[i]?) ∧
    (∀ (r r' : Nat → F) (k : Nat), k < SSAO_NOISE_DIM android * SSAO_NOISE_DIM android →
      (∀ j, j < 2 → r (256 + 2 * k + j) = r' (256 + 2 * k + j)) →
      (prepareUniformBuffers android kernelOrder noiseOrder glmNormalize r).2.buffer[k]? =
        (prepareUniformBuffers android kernelOrder noiseOrder glmNormalize r').2.buffer[k]?) ∧
    (∀ r : Nat → F,
      (prepareUniformBuffers android kernelOrder noiseOrder glmNormalize r).1.data.length = 64 ∧
      (prepareUniformBuffers android kernelOrder noiseOrder glmNormalize r).2.buffer.length =
        SSAO_NOISE_DIM android * SSAO_NOISE_DIM android) := by
  refine ⟨fun _ => rfl, fun _ => rfl, fun _ _ => rfl, ?_, fun _ _ => rfl, fun _ _ => rfl,
    fun _ => rfl, fun r => kernelLoop_snd _ _ _ _ r, ?_, ?_, ?_, ?_, ?_⟩
  · intro b₁ t₁ b₂ t₂ hseed
    unfold prepareUniformBuffersWithSeed
    rw [hseed]
  · intro r
    rw [prepareUniformBuffers_noise]
    rfl
  · intro r
    unfold ssaoNoise
    rw [noiseLoop_snd]
    funext m
    exact congrArg r (by omega)
  · intro r r' i hi h
    rw [prepareUniformBuffers_kernel, prepareUniformBuffers_kernel,
      ssaoKernel_getElem? _ _ r i hi, ssaoKernel_getElem? _ _ r' i hi]
    have h3 := h 3 (by omega)
    have hk : ∀ k : Fin 3, kernelDraw kernelOrder r i k = kernelDraw kernelOrder r' i k :=
      fun k => h (kernelOrder k).val (Nat.lt_succ_of_lt (kernelOrder k).isLt)
    simp only [sampleBeforeFalloff, sampleConstructed, hk, h3]
  · intro r r' k hk h
    rw [prepareUniformBuffers_noise, prepareUniformBuffers_noise,
      noiseLoop_getElem? _ _ k _ hk, noiseLoop_getElem? _ _ k _ hk]
    have e : ∀ j : Fin 2, r (2 * k + (noiseOrder j).val + 256) =
        r' (2 * k + (noiseOrder j).val + 256) := by
      intro j
      have hj := h (noiseOrder j).val (noiseOrder j).isLt
      have e1 : 2 * k + (noiseOrder j).val + 256 = 256 + 2 * k + (noiseOrder j).val := by omega
      rw [e1, hj]
    rw [e 0, e 1]
  · intro r
    refine ⟨kernelLoop_length _ _ 64 0 r, ?_⟩
    rw [prepareUniformBuffers_noise, noiseLoop_length]

/-- C30 fails on the code: on a device without `fillModeNonSolid`, `preparePipelines`
leaves `pipelines.wireframe` at `VK_NULL_HANDLE`; a click on the wireframe check box sets
`wireframe` and rebuilds the command buffers, and every one of them binds
`VK_NULL_HANDLE`.  In general the pipeline bound is `VK_NULL_HANDLE` exactly when
`wireframe` is set and the device lacks `fillModeNonSolid`. -/
theorem C30_wireframe_binds_null_handle :
    (Homework1.prepare false 1280 720 2).pipelines.wireframe = .VK_NULL_HANDLE ∧
    (Homework1.OnUpdateUIOverlay Homework1.clickWireframe
      (Homework1.prepare false 1280 720 2)).wireframe = true ∧
    (Homework1.OnUpdateUIOverlay Homework1.clickWireframe
      (Homework1.prepare false 1280 720 2)).drawCmdBuffers.map
        (fun cs => cs.filterMap Homework1.Cmd.boundPipeline) =
      [[some .VK_NULL_HANDLE], [some .VK_NULL_HANDLE]] ∧
    (∀ (fillModeNonSolid wireframe : Bool) (width height i : Nat),
      (Homework1.recordCommandBuffer width height wireframe
          (Homework1.preparePipelines fillModeNonSolid Homework1.initialPipelines) i).filterMap
          Homework1.Cmd.boundPipeline =
        [some (if wireframe then
            (if fillModeNonSolid then .wireframeHandle else .VK_NULL_HANDLE)
          else .solidHandle)]) := by
  refine ⟨rfl, rfl, rfl, ?_⟩
  intro f w width height i
  cases f <;> cases w <;> rfl

end SSAO
